import Mathlib

/-!
Stash -> GoonHub importer: a shallow embedding of the reconciliation engine

The Go program migrates tags, studios, performers, scenes and scene markers
from a source catalogue to a destination catalogue.  This development embeds

* `path_mapper.go`  : `PathMapper.MapPath`,
* `goonhub_client.go`: `doRequest`, `doWithRetry` and the client methods,
* `id_map.go`       : `IDMap`, `NewIDMap`, `Save`,
* `importer.go`     : `PreFetchExisting` and the five phase functions,
* `main.go`         : the phase pipeline with its checkpoints and exit status,

as pure functions with explicit state.  Console output is not modelled.
Go maps `map[string]uint` are association lists read through `GoMap.get`;
Go `error` values are the closed variant `GoError`, whose constructor is the
dynamic type a type assertion inspects; the destination service is an
arbitrary function from the history of HTTP attempts and the current request
to the outcome of that attempt.
-/

namespace Goonhub

/-! ## Go maps -/

/-- A Go `map[string]uint`: an association list holding each key at most once. -/
abbrev GoMap := List (String × Nat)

namespace GoMap

/-- The comma-ok lookup `v, ok := m[k]`. -/
def get (m : GoMap) (k : String) : Option Nat :=
  match m with
  | [] => none
  | (k', v) :: rest => if k' = k then some v else get rest k

/-- Removal of a key (used by assignment to keep keys unique). -/
def erase (m : GoMap) (k : String) : GoMap :=
  match m with
  | [] => []
  | (k', v) :: rest => if k' = k then erase rest k else (k', v) :: erase rest k

/-- The assignment `m[k] = v`. -/
def set (m : GoMap) (k : String) (v : Nat) : GoMap :=
  (k, v) :: erase m k

end GoMap

/-! ## Go strings

Strings are sequences of characters.  The source's strings come from JSON and
are valid UTF-8, for which the byte-wise prefix test and slicing of Go agree
with the character-wise ones used here. -/

/-- The case tables of the Go standard library: `unicode.ToLower` and
`unicode.ToUpper` on runes.  They are data of the library, not of the repository,
and are taken as a parameter: every definition and theorem below that depends on
letter case holds for whatever tables are supplied, Go's among them. -/
class UnicodeCase where
  /-- `unicode.ToLower`. -/
  ToLower : Char → Char
  /-- `unicode.ToUpper`. -/
  ToUpper : Char → Char

/-- Go `strings.ToLower`: `unicode.ToLower` applied to every rune. -/
def toLower [UnicodeCase] (s : String) : String := ⟨s.data.map UnicodeCase.ToLower⟩

/-- Go `strings.ToUpper`: `unicode.ToUpper` applied to every rune. -/
def toUpper [UnicodeCase] (s : String) : String := ⟨s.data.map UnicodeCase.ToUpper⟩

/-- Go `strings.HasPrefix(s, p)`. -/
def hasPrefix (s p : String) : Bool := p.data.isPrefixOf s.data

/-- Go `strings.TrimLeft(s, "/")`. -/
def trimLeftSlash (s : String) : String := ⟨s.data.dropWhile (fun c => c = '/')⟩

/-- Go `strings.TrimRight(s, "/")`. -/
def trimRightSlash (s : String) : String :=
  ⟨(s.data.reverse.dropWhile (fun c => c = '/')).reverse⟩

/-- The slice `s[n:]` for `n` the length of a prefix of `s`. -/
def sliceFrom (s : String) (n : Nat) : String := ⟨s.data.drop n⟩

/-! ## Go errors -/

/-- The dynamic type (and relevant payload) of a Go `error` value. -/
inductive GoError where
  /-- `*ConflictError` with its `ExistingID`. -/
  | conflictError (existingID : Nat)
  /-- `*ServerError` with its `StatusCode`. -/
  | serverError (statusCode : Nat)
  /-- `fmt.Errorf` without `%w`. -/
  | errorString
  /-- An error produced by a library package (`net/http`, `io`, `encoding/json`). -/
  | libraryError
  /-- `fmt.Errorf("...: %w", inner)`, of dynamic type `*fmt.wrapError`. -/
  | wrapError (inner : GoError)
  deriving DecidableEq, Repr

deriving instance DecidableEq for Except

/-! ## config.go, path_mapper.go -/

structure PathMapping where
  StashPrefix : String
  GoonHubPrefix : String
  StoragePathID : Nat
  deriving DecidableEq, Repr

structure MappedPath where
  GoonHubPath : String
  StoragePathID : Nat
  deriving DecidableEq, Repr

/-- The body of the `if strings.HasPrefix` branch of `MapPath` for rule `m`. -/
def PathMapping.apply (m : PathMapping) (stashPath : String) : MappedPath :=
  let remainder := sliceFrom stashPath m.StashPrefix.length
  { GoonHubPath := trimRightSlash m.GoonHubPrefix ++ "/" ++ trimLeftSlash remainder
    StoragePathID := m.StoragePathID }

/-- `PathMapper.MapPath`: the first rule whose `StashPrefix` is a prefix of the path. -/
def MapPath (mappings : List PathMapping) (stashPath : String) : Except GoError MappedPath :=
  match mappings with
  | [] => .error .errorString
  | m :: rest =>
    if hasPrefix stashPath m.StashPrefix then .ok (m.apply stashPath)
    else MapPath rest stashPath

/-! ## stash_types.go -/

/-- Go `float64` values are carried as exact rationals. -/
abbrev Float64 := Rat

structure StashTag where
  ID : String
  Name : String
  deriving DecidableEq, Repr

structure StashIDRef where
  ID : String
  deriving DecidableEq, Repr

structure StashStudio where
  ID : String
  Name : String
  URLs : List String
  Details : String
  Rating100 : Option Int
  ParentStudio : Option StashIDRef
  deriving DecidableEq, Repr

structure StashPerformer where
  ID : String
  Name : String
  Gender : Option String
  Birthdate : Option String
  DeathDate : Option String
  Ethnicity : Option String
  Country : Option String
  EyeColor : Option String
  HeightCm : Option Int
  Measurements : Option String
  FakeTits : Option String
  Tattoos : Option String
  Piercings : Option String
  HairColor : Option String
  Weight : Option Int
  ImagePath : Option String
  deriving DecidableEq, Repr

structure StashFile where
  Path : String
  Size : Int
  Duration : Float64
  Width : Int
  Height : Int
  VideoCodec : String
  AudioCodec : String
  FrameRate : Float64
  BitRate : Int
  Basename : String
  deriving DecidableEq, Repr

structure StashMarker where
  ID : String
  Title : String
  Seconds : Float64
  PrimaryTag : Option StashIDRef
  Tags : List StashIDRef
  deriving DecidableEq, Repr

structure StashScene where
  ID : String
  Title : Option String
  Details : Option String
  Date : Option String
  Rating100 : Option Int
  OCounter : Option Int
  Files : List StashFile
  Studio : Option StashIDRef
  Performers : List StashIDRef
  Tags : List StashIDRef
  SceneMarkers : List StashMarker
  deriving DecidableEq, Repr

/-! ## goonhub_types.go -/

structure GHCreateTagRequest where
  Name : String
  Color : String
  deriving DecidableEq, Repr

/-- An element of the destination's tag, studio or actor listing (`GHTagWithCount`,
`GHStudioListItem`, `GHActorListItem`): the two fields the importer reads. -/
structure GHListItem where
  ID : Nat
  Name : String
  deriving DecidableEq, Repr

structure GHCreateStudioRequest where
  Name : String
  URL : String
  Description : String
  Rating : Option Float64
  deriving DecidableEq, Repr

structure GHUpdateStudioRequest where
  ParentID : Option Nat
  deriving DecidableEq, Repr

structure GHCreateActorRequest where
  Name : String
  Gender : String
  Birthday : Option String
  DateOfDeath : Option String
  Ethnicity : String
  Nationality : String
  HeightCm : Option Int
  WeightKg : Option Int
  Measurements : String
  HairColor : String
  EyeColor : String
  Tattoos : String
  Piercings : String
  FakeBoobs : Bool
  deriving DecidableEq, Repr

structure GHImportSceneRequest where
  Title : String
  StoredPath : String
  OriginalFilename : String
  Size : Int
  Duration : Int
  Width : Int
  Height : Int
  FrameRate : Float64
  BitRate : Int
  VideoCodec : String
  AudioCodec : String
  Description : String
  ReleaseDate : Option String
  StudioID : Option Nat
  StoragePathID : Option Nat
  Origin : String
  Type_ : String
  SkipFileCheck : Bool
  deriving DecidableEq, Repr

structure GHImportMarkerRequest where
  SceneID : Nat
  UserID : Nat
  Timestamp : Int
  Label : String
  Color : String
  deriving DecidableEq, Repr

/-! ## goonhub_client.go -/

/-- A request of the destination client: the method, path and body that the
client method of the same name hands to `doWithRetry`. -/
inductive Request where
  /-- `POST /api/v1/tags`. -/
  | createTag (req : GHCreateTagRequest)
  /-- `POST /api/v1/admin/studios`. -/
  | createStudio (req : GHCreateStudioRequest)
  /-- `PUT /api/v1/admin/studios/{id}`. -/
  | updateStudio (id : Nat) (req : GHUpdateStudioRequest)
  /-- `POST /api/v1/admin/actors`. -/
  | createActor (req : GHCreateActorRequest)
  /-- `POST /api/v1/admin/import/scenes`. -/
  | importScene (req : GHImportSceneRequest)
  /-- `PUT /api/v1/scenes/{id}/tags`. -/
  | setSceneTags (sceneID : Nat) (tagIDs : List Nat)
  /-- `PUT /api/v1/scenes/{id}/actors`. -/
  | setSceneActors (sceneID : Nat) (actorIDs : List Nat)
  /-- `POST /api/v1/admin/import/markers`. -/
  | importMarker (req : GHImportMarkerRequest)
  /-- `PUT /api/v1/markers/{id}/tags`. -/
  | setMarkerTags (markerID : Nat) (tagIDs : List Nat)
  deriving DecidableEq, Repr

/-- What `json.Unmarshal` makes of a response body, for the target it is decoded into. -/
inductive RespBody where
  /-- `len(respBody) == 0`. -/
  | empty
  /-- Non-empty; `json.Unmarshal` succeeds and leaves `id` in the `ID` field
  (0 when the body has no `id`). -/
  | decoded (id : Nat)
  /-- Non-empty; `json.Unmarshal` returns an error, leaving `id` in the `ID` field. -/
  | failed (id : Nat)
  deriving DecidableEq, Repr

/-- The `ID` field of a zero-valued target after `json.Unmarshal(respBody, &target)`. -/
def RespBody.id : RespBody → Nat
  | .empty => 0
  | .decoded id => id
  | .failed id => id

/-- The outcome of one HTTP attempt. -/
inductive HttpOutcome where
  /-- The request could not be built or sent, or the body could not be read. -/
  | transportError
  /-- A completed response. -/
  | response (statusCode : Nat) (body : RespBody)
  deriving DecidableEq, Repr

/-- A behaviour of the destination service: the outcome of an attempt, given the
attempts made before it (oldest first) and the request attempted. -/
abbrev Service := List Request → Request → HttpOutcome

/-- The destination client.  `wire` lists the HTTP attempts made so far and
`calls` the client-method invocations made so far (both oldest first). -/
structure GoonHubClient where
  calls : List Request
  wire : List Request
  deriving DecidableEq, Repr

/-- `GoonHubClient.doRequest`.  `hasResult` says whether `result != nil`; the value
returned on success is the `ID` field of `*result` (0 when nothing was decoded). -/
def doRequest (svc : Service) (c : GoonHubClient) (r : Request) (hasResult : Bool) :
    Except GoError Nat × GoonHubClient :=
  let c1 : GoonHubClient := { c with wire := c.wire ++ [r] }
  match svc c.wire r with
  | .transportError => (.error (.wrapError .libraryError), c1)
  | .response statusCode body =>
    if statusCode = 409 then (.error (.conflictError body.id), c1)
    else if statusCode ≥ 500 then (.error (.serverError statusCode), c1)
    else if statusCode ≥ 400 then (.error .errorString, c1)
    else
      match hasResult, body with
      | true, .decoded id => (.ok id, c1)
      | true, .failed _ => (.error (.wrapError .libraryError), c1)
      | _, _ => (.ok 0, c1)

/-- `GoonHubClient.doWithRetry`: one more attempt when the first returned a `*ServerError`. -/
def doWithRetry (svc : Service) (c : GoonHubClient) (r : Request) (hasResult : Bool) :
    Except GoError Nat × GoonHubClient :=
  match doRequest svc c r hasResult with
  | (.error (.serverError _), c1) => doRequest svc c1 r hasResult
  | (.error err, c1) => (.error err, c1)
  | (.ok id, c1) => (.ok id, c1)

/-- The shape shared by the client methods: note the invocation, run
`doWithRetry`, and wrap a failure with `fmt.Errorf("...: %w", err)`. -/
def clientCall (svc : Service) (c : GoonHubClient) (r : Request) (hasResult : Bool) :
    Except GoError Nat × GoonHubClient :=
  match doWithRetry svc { c with calls := c.calls ++ [r] } r hasResult with
  | (.error err, c1) => (.error (.wrapError err), c1)
  | (.ok id, c1) => (.ok id, c1)

/-- `GoonHubClient.CreateTag`; the value on success is `tag.ID`. -/
def CreateTag (svc : Service) (c : GoonHubClient) (name color : String) :
    Except GoError Nat × GoonHubClient :=
  clientCall svc c (.createTag { Name := name, Color := color }) true

/-- `GoonHubClient.CreateStudio`; the value on success is `studio.ID`. -/
def CreateStudio (svc : Service) (c : GoonHubClient) (req : GHCreateStudioRequest) :
    Except GoError Nat × GoonHubClient :=
  clientCall svc c (.createStudio req) true

/-- `GoonHubClient.UpdateStudio`. -/
def UpdateStudio (svc : Service) (c : GoonHubClient) (id : Nat) (req : GHUpdateStudioRequest) :
    Except GoError Nat × GoonHubClient :=
  clientCall svc c (.updateStudio id req) false

/-- `GoonHubClient.CreateActor`; the value on success is `actor.ID`. -/
def CreateActor (svc : Service) (c : GoonHubClient) (req : GHCreateActorRequest) :
    Except GoError Nat × GoonHubClient :=
  clientCall svc c (.createActor req) true

/-- `GoonHubClient.ImportScene`; the value on success is `resp.ID`. -/
def ImportScene (svc : Service) (c : GoonHubClient) (req : GHImportSceneRequest) :
    Except GoError Nat × GoonHubClient :=
  clientCall svc c (.importScene req) true

/-- `GoonHubClient.SetSceneTags`. -/
def SetSceneTags (svc : Service) (c : GoonHubClient) (sceneID : Nat) (tagIDs : List Nat) :
    Except GoError Nat × GoonHubClient :=
  clientCall svc c (.setSceneTags sceneID tagIDs) false

/-- `GoonHubClient.SetSceneActors`. -/
def SetSceneActors (svc : Service) (c : GoonHubClient) (sceneID : Nat) (actorIDs : List Nat) :
    Except GoError Nat × GoonHubClient :=
  clientCall svc c (.setSceneActors sceneID actorIDs) false

/-- `GoonHubClient.ImportMarker`; the value on success is `resp.ID`. -/
def ImportMarker (svc : Service) (c : GoonHubClient) (req : GHImportMarkerRequest) :
    Except GoError Nat × GoonHubClient :=
  clientCall svc c (.importMarker req) true

/-- `GoonHubClient.SetMarkerTags`. -/
def SetMarkerTags (svc : Service) (c : GoonHubClient) (markerID : Nat) (tagIDs : List Nat) :
    Except GoError Nat × GoonHubClient :=
  clientCall svc c (.setMarkerTags markerID tagIDs) false

/-! ## id_map.go -/

/-- `IDMap`: source id -> destination id, by entity kind. -/
structure IDMap where
  Tags : GoMap
  Studios : GoMap
  Actors : GoMap
  Scenes : GoMap
  Markers : GoMap
  deriving DecidableEq, Repr

/-- `NewIDMap`. -/
def NewIDMap : IDMap :=
  { Tags := [], Studios := [], Actors := [], Scenes := [], Markers := [] }

/-- The content of the id-map file on disk. -/
inductive MapFile where
  /-- The file does not exist. -/
  | absent
  /-- The file holds the JSON rendering of `m`. -/
  | holds (m : IDMap)
  /-- The file holds something else (for instance a partial write). -/
  | garbled
  deriving DecidableEq, Repr

/-- A behaviour of the file system at `os.WriteFile`: `none` when the write
succeeds, `some f` when it fails and leaves the file as `f`. -/
abbrev WriteFault := MapFile → IDMap → Option MapFile

/-- `IDMap.Save`. -/
def IDMap.Save (fault : WriteFault) (m : IDMap) (file : MapFile) :
    Except GoError Unit × MapFile :=
  match fault file m with
  | none => (.ok (), .holds m)
  | some f => (.error (.wrapError .libraryError), f)

/-- A Go `*IDMap` as `json.Unmarshal` may leave it: a map field is `none` when
it is the nil map. -/
structure NullableIDMap where
  Tags : Option GoMap
  Studios : Option GoMap
  Actors : Option GoMap
  Scenes : Option GoMap
  Markers : Option GoMap
  deriving DecidableEq, Repr

/-- The value `NewIDMap()` seen through its map fields, none of them nil. -/
def IDMap.toNullable (m : IDMap) : NullableIDMap :=
  { Tags := some m.Tags, Studios := some m.Studios, Actors := some m.Actors
    Scenes := some m.Scenes, Markers := some m.Markers }

/-- What the JSON document of the id-map file holds under one of its five keys. -/
inductive JSONField where
  /-- The key is not in the document. -/
  | missing
  /-- The key is present with the value `null`. -/
  | null
  /-- The key is present with an object of string keys and unsigned numbers. -/
  | object (entries : List (String × Nat))
  deriving DecidableEq, Repr

/-- The bytes of the id-map file, as `json.Unmarshal` reads them. -/
inductive FileData where
  /-- Not JSON, or JSON of the wrong shape: `json.Unmarshal` returns an error. -/
  | malformed
  /-- A document `json.Unmarshal` accepts, with what it holds under the keys
  `tags`, `studios`, `actors`, `scenes` and `markers`. -/
  | document (tags studios actors scenes markers : JSONField)
  deriving DecidableEq, Repr

/-- The outcome of `os.ReadFile(path)`. -/
inductive ReadResult where
  /-- An error for which `os.IsNotExist` holds. -/
  | notExist
  /-- Any other error. -/
  | ioError
  /-- The content of the file. -/
  | data (d : FileData)
  deriving DecidableEq, Repr

/-- The effect of `json.Unmarshal` on one map field: an absent key leaves the
field as it is, `null` makes it the nil map, an object is decoded into the field's
map (a fresh one when the field is nil). -/
def unmarshalField (current : Option GoMap) (field : JSONField) : Option GoMap :=
  match field with
  | .missing => current
  | .null => none
  | .object entries =>
    some (entries.foldl (fun m e => m.set e.1 e.2)
      (match current with
        | none => []
        | some m => m))

/-- The guard `if idMap.X == nil { idMap.X = make(map[string]uint) }`. -/
def ensureMap (field : Option GoMap) : Option GoMap :=
  match field with
  | none => some []
  | some m => some m

/-- `LoadIDMap`, given the outcome of reading the file. -/
def LoadIDMap (read : ReadResult) : Except GoError NullableIDMap :=
  match read with
  | .notExist => .ok NewIDMap.toNullable
  | .ioError => .error (.wrapError .libraryError)
  | .data .malformed => .error (.wrapError .libraryError)
  | .data (.document tags studios actors scenes markers) =>
    let idMap := NewIDMap.toNullable
    .ok
      { Tags := ensureMap (unmarshalField idMap.Tags tags)
        Studios := ensureMap (unmarshalField idMap.Studios studios)
        Actors := ensureMap (unmarshalField idMap.Actors actors)
        Scenes := ensureMap (unmarshalField idMap.Scenes scenes)
        Markers := ensureMap (unmarshalField idMap.Markers markers) }

/-! ## importer.go -/

structure Config where
  StashBaseURL : String
  StashAPIKey : String
  GoonHubBaseURL : String
  GoonHubUsername : String
  GoonHubPassword : String
  MarkerUserID : Nat
  SceneLimit : Int
  DryRun : Bool
  SkipFileCheck : Bool
  PathMappings : List PathMapping
  MappingsFile : String
  IDMapFile : String
  deriving DecidableEq, Repr

/-- `Importer`: the engine state (the source client is not used by the phases). -/
structure Importer where
  gh : GoonHubClient
  idMap : IDMap
  pathMapper : List PathMapping
  cfg : Config
  ghTags : GoMap
  ghStudios : GoMap
  ghActors : GoMap
  deriving DecidableEq, Repr

structure PhaseStats where
  Created : Nat
  Skipped : Nat
  Errors : Nat
  deriving DecidableEq, Repr

/-- `stats.Created++`. -/
def PhaseStats.incCreated (s : PhaseStats) : PhaseStats := { s with Created := s.Created + 1 }

/-- `stats.Skipped++`. -/
def PhaseStats.incSkipped (s : PhaseStats) : PhaseStats := { s with Skipped := s.Skipped + 1 }

/-- `stats.Errors++`. -/
def PhaseStats.incErrors (s : PhaseStats) : PhaseStats := { s with Errors := s.Errors + 1 }

/-- `NewImporter`. -/
def NewImporter (gh : GoonHubClient) (idMap : IDMap) (pathMapper : List PathMapping)
    (cfg : Config) : Importer :=
  { gh := gh, idMap := idMap, pathMapper := pathMapper, cfg := cfg,
    ghTags := [], ghStudios := [], ghActors := [] }

/-- The loop `for _, t := range items { cache[strings.ToLower(t.Name)] = t.ID }`. -/
def indexByName [UnicodeCase] (cache : GoMap) (items : List GHListItem) : GoMap :=
  items.foldl (fun m t => m.set (toLower t.Name) t.ID) cache

/-- `Importer.PreFetchExisting`, given what `ListTags`, `ListStudios` and
`ListActors` return. -/
def PreFetchExisting [UnicodeCase] (imp : Importer) (tags studios actors : Except GoError (List GHListItem)) :
    Except GoError Importer :=
  match tags with
  | .error err => .error (.wrapError err)
  | .ok tags =>
    let imp1 := { imp with ghTags := indexByName imp.ghTags tags }
    match studios with
    | .error err => .error (.wrapError err)
    | .ok studios =>
      let imp2 := { imp1 with ghStudios := indexByName imp1.ghStudios studios }
      match actors with
      | .error err => .error (.wrapError err)
      | .ok actors => .ok { imp2 with ghActors := indexByName imp2.ghActors actors }

/-- `isConflict`: the type assertion `err.(*ConflictError)`. -/
def isConflict (err : GoError) : Bool :=
  match err with
  | .conflictError _ => true
  | _ => false

/-- `derefStr`. -/
def derefStr (s : Option String) : String :=
  match s with
  | none => ""
  | some v => v

/-- `isFakeBoobs`. -/
def isFakeBoobs [UnicodeCase] (fakeTits : Option String) : Bool :=
  match fakeTits with
  | none => false
  | some s =>
    let v := toLower s
    v ≠ "" && v ≠ "natural"

/-- `mapGender`. -/
def mapGender [UnicodeCase] (g : Option String) : String :=
  match g with
  | none => ""
  | some s =>
    let u := toUpper s
    if u = "MALE" then "male"
    else if u = "FEMALE" then "female"
    else if u = "TRANSGENDER_MALE" then "transgender_male"
    else if u = "TRANSGENDER_FEMALE" then "transgender_female"
    else if u = "INTERSEX" then "intersex"
    else if u = "NON_BINARY" then "non_binary"
    else toLower s

/-- Go `math.Round` followed by the conversion to `int`: nearest integer, halves
away from zero. -/
def roundToInt (x : Float64) : Int :=
  if 0 ≤ x then Rat.floor (x + 1 / 2) else - Rat.floor (- x + 1 / 2)

/-- The Go conversion `int(x)`: truncation towards zero. -/
def truncToInt (x : Float64) : Int :=
  if 0 ≤ x then Rat.floor x else - Rat.floor (- x)

/-- The loop of `mapTagIDs` and `mapActorIDs`: the destination ids of the mapped
references, in order, misses dropped. -/
def mapIDs (m : GoMap) (refs : List StashIDRef) : List Nat :=
  refs.filterMap (fun ref => m.get ref.ID)

/-- `Importer.mapTagIDs`. -/
def mapTagIDs (imp : Importer) (refs : List StashIDRef) : List Nat :=
  mapIDs imp.idMap.Tags refs

/-- `Importer.mapActorIDs`. -/
def mapActorIDs (imp : Importer) (refs : List StashIDRef) : List Nat :=
  mapIDs imp.idMap.Actors refs

/-- The body of the loop of `ImportTags`. -/
def ImportTags.step [UnicodeCase] (svc : Service) (imp : Importer) (stats : PhaseStats) (tag : StashTag) :
    Importer × PhaseStats :=
  match imp.idMap.Tags.get tag.ID with
  | some _ => (imp, stats.incSkipped)
  | none =>
    match imp.ghTags.get (toLower tag.Name) with
    | some ghID =>
      ({ imp with idMap := { imp.idMap with Tags := imp.idMap.Tags.set tag.ID ghID } },
        stats.incSkipped)
    | none =>
      if imp.cfg.DryRun then (imp, stats.incCreated)
      else
        match CreateTag svc imp.gh tag.Name "" with
        | (.error err, gh) =>
          if isConflict err then ({ imp with gh := gh }, stats.incSkipped)
          else ({ imp with gh := gh }, stats.incErrors)
        | (.ok createdID, gh) =>
          ({ imp with
              gh := gh
              idMap := { imp.idMap with Tags := imp.idMap.Tags.set tag.ID createdID }
              ghTags := imp.ghTags.set (toLower tag.Name) createdID },
            stats.incCreated)

/-- `Importer.ImportTags`: the final engine state and the returned statistics. -/
def ImportTags [UnicodeCase] (svc : Service) (imp : Importer) (stashTags : List StashTag) :
    Importer × PhaseStats :=
  stashTags.foldl (fun st tag => ImportTags.step svc st.1 st.2 tag) (imp, ⟨0, 0, 0⟩)

/-- The request built for a studio in the first pass of `ImportStudios`. -/
def ImportStudios.request (studio : StashStudio) : GHCreateStudioRequest :=
  { Name := studio.Name
    Description := studio.Details
    URL := match studio.URLs with
      | [] => ""
      | u :: _ => u
    Rating := match studio.Rating100 with
      | none => none
      | some r => some ((r : Float64) / 20) }

/-- The body of the first loop of `ImportStudios`. -/
def ImportStudios.step [UnicodeCase] (svc : Service) (imp : Importer) (stats : PhaseStats)
    (studio : StashStudio) : Importer × PhaseStats :=
  match imp.idMap.Studios.get studio.ID with
  | some _ => (imp, stats.incSkipped)
  | none =>
    match imp.ghStudios.get (toLower studio.Name) with
    | some ghID =>
      ({ imp with idMap := { imp.idMap with Studios := imp.idMap.Studios.set studio.ID ghID } },
        stats.incSkipped)
    | none =>
      if imp.cfg.DryRun then (imp, stats.incCreated)
      else
        match CreateStudio svc imp.gh (ImportStudios.request studio) with
        | (.error err, gh) =>
          if isConflict err then ({ imp with gh := gh }, stats.incSkipped)
          else ({ imp with gh := gh }, stats.incErrors)
        | (.ok createdID, gh) =>
          ({ imp with
              gh := gh
              idMap := { imp.idMap with Studios := imp.idMap.Studios.set studio.ID createdID }
              ghStudios := imp.ghStudios.set (toLower studio.Name) createdID },
            stats.incCreated)

/-- The first pass of `ImportStudios`. -/
def ImportStudios.pass1 [UnicodeCase] (svc : Service) (imp : Importer) (stashStudios : List StashStudio) :
    Importer × PhaseStats :=
  stashStudios.foldl (fun st studio => ImportStudios.step svc st.1 st.2 studio) (imp, ⟨0, 0, 0⟩)

/-- The body of the second loop of `ImportStudios` (the engine state and `parentCount`). -/
def ImportStudios.parentStep (svc : Service) (imp : Importer) (parentCount : Nat)
    (studio : StashStudio) : Importer × Nat :=
  match studio.ParentStudio with
  | none => (imp, parentCount)
  | some parent =>
    match imp.idMap.Studios.get studio.ID with
    | none => (imp, parentCount)
    | some ghID =>
      match imp.idMap.Studios.get parent.ID with
      | none => (imp, parentCount)
      | some parentGHID =>
        if imp.cfg.DryRun then (imp, parentCount + 1)
        else
          match UpdateStudio svc imp.gh ghID { ParentID := some parentGHID } with
          | (.error _, gh) => ({ imp with gh := gh }, parentCount)
          | (.ok _, gh) => ({ imp with gh := gh }, parentCount + 1)

/-- The second pass of `ImportStudios`. -/
def ImportStudios.pass2 (svc : Service) (imp : Importer) (stashStudios : List StashStudio) :
    Importer × Nat :=
  stashStudios.foldl (fun st studio => ImportStudios.parentStep svc st.1 st.2 studio) (imp, 0)

/-- `Importer.ImportStudios`. -/
def ImportStudios [UnicodeCase] (svc : Service) (imp : Importer) (stashStudios : List StashStudio) :
    Importer × PhaseStats :=
  let r := ImportStudios.pass1 svc imp stashStudios
  ((ImportStudios.pass2 svc r.1 stashStudios).1, r.2)

/-- The request built for a performer in `ImportPerformers`. -/
def ImportPerformers.request [UnicodeCase] (perf : StashPerformer) : GHCreateActorRequest :=
  { Name := perf.Name
    Gender := mapGender perf.Gender
    Ethnicity := derefStr perf.Ethnicity
    Nationality := derefStr perf.Country
    HeightCm := perf.HeightCm
    Measurements := derefStr perf.Measurements
    HairColor := derefStr perf.HairColor
    EyeColor := derefStr perf.EyeColor
    Tattoos := derefStr perf.Tattoos
    Piercings := derefStr perf.Piercings
    FakeBoobs := isFakeBoobs perf.FakeTits
    Birthday := perf.Birthdate
    DateOfDeath := perf.DeathDate
    WeightKg := perf.Weight }

/-- The body of the loop of `ImportPerformers`. -/
def ImportPerformers.step [UnicodeCase] (svc : Service) (imp : Importer) (stats : PhaseStats)
    (perf : StashPerformer) : Importer × PhaseStats :=
  match imp.idMap.Actors.get perf.ID with
  | some _ => (imp, stats.incSkipped)
  | none =>
    match imp.ghActors.get (toLower perf.Name) with
    | some ghID =>
      ({ imp with idMap := { imp.idMap with Actors := imp.idMap.Actors.set perf.ID ghID } },
        stats.incSkipped)
    | none =>
      if imp.cfg.DryRun then (imp, stats.incCreated)
      else
        match CreateActor svc imp.gh (ImportPerformers.request perf) with
        | (.error err, gh) =>
          if isConflict err then ({ imp with gh := gh }, stats.incSkipped)
          else ({ imp with gh := gh }, stats.incErrors)
        | (.ok createdID, gh) =>
          ({ imp with
              gh := gh
              idMap := { imp.idMap with Actors := imp.idMap.Actors.set perf.ID createdID }
              ghActors := imp.ghActors.set (toLower perf.Name) createdID },
            stats.incCreated)

/-- `Importer.ImportPerformers`. -/
def ImportPerformers [UnicodeCase] (svc : Service) (imp : Importer) (stashPerformers : List StashPerformer) :
    Importer × PhaseStats :=
  stashPerformers.foldl (fun st perf => ImportPerformers.step svc st.1 st.2 perf) (imp, ⟨0, 0, 0⟩)

/-- The title of a scene: its own, or the file's base name when that is empty. -/
def ImportScenes.title (scene : StashScene) (file : StashFile) : String :=
  if derefStr scene.Title = "" then file.Basename else derefStr scene.Title

/-- The request built for a scene in `ImportScenes`. -/
def ImportScenes.request (imp : Importer) (scene : StashScene) (file : StashFile)
    (mapped : MappedPath) : GHImportSceneRequest :=
  { Title := ImportScenes.title scene file
    StoredPath := mapped.GoonHubPath
    OriginalFilename := file.Basename
    Size := file.Size
    Duration := roundToInt file.Duration
    Width := file.Width
    Height := file.Height
    FrameRate := file.FrameRate
    BitRate := file.BitRate
    VideoCodec := file.VideoCodec
    AudioCodec := file.AudioCodec
    Description := derefStr scene.Details
    ReleaseDate := scene.Date
    Origin := "stash"
    Type_ := ""
    SkipFileCheck := imp.cfg.SkipFileCheck
    StoragePathID := if mapped.StoragePathID > 0 then some mapped.StoragePathID else none
    StudioID := match scene.Studio with
      | none => none
      | some studio => imp.idMap.Studios.get studio.ID }

/-- The association calls of `ImportScenes` after a successful create. -/
def ImportScenes.associate (svc : Service) (imp : Importer) (scene : StashScene)
    (createdID : Nat) : Importer :=
  let tagIDs := mapTagIDs imp scene.Tags
  let imp1 :=
    if tagIDs.length > 0 then { imp with gh := (SetSceneTags svc imp.gh createdID tagIDs).2 }
    else imp
  let actorIDs := mapActorIDs imp1 scene.Performers
  if actorIDs.length > 0 then
    { imp1 with gh := (SetSceneActors svc imp1.gh createdID actorIDs).2 }
  else imp1

/-- The body of the loop of `ImportScenes`. -/
def ImportScenes.step (svc : Service) (imp : Importer) (stats : PhaseStats)
    (scene : StashScene) : Importer × PhaseStats :=
  match imp.idMap.Scenes.get scene.ID with
  | some _ => (imp, stats.incSkipped)
  | none =>
    match scene.Files with
    | [] => (imp, stats.incErrors)
    | file :: _ =>
      match MapPath imp.pathMapper file.Path with
      | .error _ => (imp, stats.incErrors)
      | .ok mapped =>
        if imp.cfg.DryRun then (imp, stats.incCreated)
        else
          match ImportScene svc imp.gh (ImportScenes.request imp scene file mapped) with
          | (.error (.conflictError existingID), gh) =>
            if existingID > 0 then
              ({ imp with
                  gh := gh
                  idMap := { imp.idMap with Scenes := imp.idMap.Scenes.set scene.ID existingID } },
                stats.incSkipped)
            else ({ imp with gh := gh }, stats.incSkipped)
          | (.error _, gh) => ({ imp with gh := gh }, stats.incErrors)
          | (.ok createdID, gh) =>
            (ImportScenes.associate svc
                { imp with
                  gh := gh
                  idMap := { imp.idMap with Scenes := imp.idMap.Scenes.set scene.ID createdID } }
                scene createdID,
              stats.incCreated)

/-- `Importer.ImportScenes`. -/
def ImportScenes (svc : Service) (imp : Importer) (stashScenes : List StashScene) :
    Importer × PhaseStats :=
  stashScenes.foldl (fun st scene => ImportScenes.step svc st.1 st.2 scene) (imp, ⟨0, 0, 0⟩)

/-- The tag ids collected for a created marker: primary tag, then additional tags. -/
def ImportMarkers.tagIDs (imp : Importer) (marker : StashMarker) : List Nat :=
  let primary : List Nat :=
    match marker.PrimaryTag with
    | none => []
    | some t =>
      match imp.idMap.Tags.get t.ID with
      | some ghTagID => [ghTagID]
      | none => []
  primary ++ marker.Tags.filterMap (fun t => imp.idMap.Tags.get t.ID)

/-- The body of the inner loop of `ImportMarkers`, for a scene mapped to `ghSceneID`. -/
def ImportMarkers.markerStep (svc : Service) (ghSceneID : Nat) (imp : Importer)
    (stats : PhaseStats) (marker : StashMarker) : Importer × PhaseStats :=
  match imp.idMap.Markers.get marker.ID with
  | some _ => (imp, stats.incSkipped)
  | none =>
    if imp.cfg.DryRun then (imp, stats.incCreated)
    else
      match ImportMarker svc imp.gh
          { SceneID := ghSceneID
            UserID := imp.cfg.MarkerUserID
            Timestamp := truncToInt marker.Seconds
            Label := marker.Title
            Color := "#FFFFFF" } with
      | (.error err, gh) =>
        if isConflict err then ({ imp with gh := gh }, stats.incSkipped)
        else ({ imp with gh := gh }, stats.incErrors)
      | (.ok createdID, gh) =>
        let imp1 : Importer :=
          { imp with
            gh := gh
            idMap := { imp.idMap with Markers := imp.idMap.Markers.set marker.ID createdID } }
        let markerTagIDs := ImportMarkers.tagIDs imp1 marker
        if markerTagIDs.length > 0 then
          ({ imp1 with gh := (SetMarkerTags svc imp1.gh createdID markerTagIDs).2 },
            stats.incCreated)
        else (imp1, stats.incCreated)

/-- The body of the outer loop of `ImportMarkers`. -/
def ImportMarkers.step (svc : Service) (imp : Importer) (stats : PhaseStats)
    (scene : StashScene) : Importer × PhaseStats :=
  match imp.idMap.Scenes.get scene.ID with
  | none => (imp, { stats with Skipped := stats.Skipped + scene.SceneMarkers.length })
  | some ghSceneID =>
    scene.SceneMarkers.foldl
      (fun st marker => ImportMarkers.markerStep svc ghSceneID st.1 st.2 marker) (imp, stats)

/-- `Importer.ImportMarkers`. -/
def ImportMarkers (svc : Service) (imp : Importer) (stashScenes : List StashScene) :
    Importer × PhaseStats :=
  stashScenes.foldl (fun st scene => ImportMarkers.step svc st.1 st.2 scene) (imp, ⟨0, 0, 0⟩)

/-! ## main.go -/

/-- The source inventory fetched in step 8 of `main`. -/
structure Inventory where
  stashTags : List StashTag
  stashStudios : List StashStudio
  stashPerformers : List StashPerformer
  stashScenes : List StashScene
  deriving DecidableEq, Repr

/-- The state of `main` once the phases have run. -/
structure RunResult where
  imp : Importer
  file : MapFile
  tagStats : PhaseStats
  studioStats : PhaseStats
  actorStats : PhaseStats
  sceneStats : PhaseStats
  markerStats : PhaseStats
  deriving DecidableEq, Repr

/-- The checkpoint after a phase: `if !cfg.DryRun { idMap.Save(cfg.IDMapFile) }`,
a failure being reported and otherwise ignored. -/
def checkpoint (fault : WriteFault) (imp : Importer) (file : MapFile) : MapFile :=
  if imp.cfg.DryRun then file else (imp.idMap.Save fault file).2

/-- Step 9 of `main`: the five phases, each followed by its checkpoint. -/
def runPhases [UnicodeCase] (svc : Service) (fault : WriteFault) (imp : Importer) (file : MapFile)
    (inv : Inventory) : RunResult :=
  let t := ImportTags svc imp inv.stashTags
  let f1 := checkpoint fault t.1 file
  let s := ImportStudios svc t.1 inv.stashStudios
  let f2 := checkpoint fault s.1 f1
  let a := ImportPerformers svc s.1 inv.stashPerformers
  let f3 := checkpoint fault a.1 f2
  let sc := ImportScenes svc a.1 inv.stashScenes
  let f4 := checkpoint fault sc.1 f3
  let m := ImportMarkers svc sc.1 inv.stashScenes
  let f5 := checkpoint fault m.1 f4
  { imp := m.1, file := f5, tagStats := t.2, studioStats := s.2, actorStats := a.2,
    sceneStats := sc.2, markerStats := m.2 }

/-- The `totalErrors` of step 10 of `main`. -/
def RunResult.totalErrors (r : RunResult) : Nat :=
  r.tagStats.Errors + r.studioStats.Errors + r.actorStats.Errors + r.sceneStats.Errors
    + r.markerStats.Errors

/-- The exit status of `main` after the phases: `os.Exit(1)` when `totalErrors > 0`. -/
def RunResult.exitStatus (r : RunResult) : Nat :=
  if r.totalErrors > 0 then 1 else 0

/-! ## Specification vocabulary -/

/-- Every entry of `a` is an entry of `b`. -/
def GoMap.Sub (a b : GoMap) : Prop := ∀ k v, a.get k = some v → b.get k = some v

/-- Every entry of each sub-map of `a` is an entry of the same sub-map of `b`. -/
structure IDMap.Sub (a b : IDMap) : Prop where
  Tags : a.Tags.Sub b.Tags
  Studios : a.Studios.Sub b.Studios
  Actors : a.Actors.Sub b.Actors
  Scenes : a.Scenes.Sub b.Scenes
  Markers : a.Markers.Sub b.Markers

/-- What every loop body guarantees of the engine state: the configuration is
kept, maps and caches only gain entries, and in simulation mode the client is
not used. -/
structure Advances (a b : Importer) : Prop where
  cfg : b.cfg = a.cfg
  pathMapper : b.pathMapper = a.pathMapper
  idMap : a.idMap.Sub b.idMap
  ghTags : a.ghTags.Sub b.ghTags
  ghStudios : a.ghStudios.Sub b.ghStudios
  ghActors : a.ghActors.Sub b.ghActors
  dry : a.cfg.DryRun = true → b.gh = a.gh

/-- The test of `doWithRetry` on the outcome of its first attempt: a non-nil
error whose dynamic type is `*ServerError`. -/
def isServerError (outcome : Except GoError Nat) : Bool :=
  match outcome with
  | .error (.serverError _) => true
  | _ => false

/-- The test `errors.As(err, &conflictErr)`: some error in the chain of `err`,
`err` itself or one it wraps, is a `*ConflictError`. -/
def GoError.hasConflict : GoError → Bool
  | .conflictError _ => true
  | .wrapError inner => inner.hasConflict
  | _ => false

/-- The service answers no attempt with status 409 Conflict. -/
def Service.NoConflict (svc : Service) : Prop :=
  ∀ (history : List Request) (r : Request) (body : RespBody),
    svc history r ≠ .response 409 body

/-- The service answers no attempt with a status of 500 or more. -/
def Service.NoServerError (svc : Service) : Prop :=
  ∀ (history : List Request) (r : Request) (statusCode : Nat) (body : RespBody),
    svc history r = .response statusCode body → statusCode < 500

/-- The requests whose client method decodes the response into a result
(`CreateTag`, `CreateStudio`, `CreateActor`, `ImportScene`, `ImportMarker`). -/
def Request.isCreate (r : Request) : Bool :=
  match r with
  | .createTag _ => true
  | .createStudio _ => true
  | .createActor _ => true
  | .importScene _ => true
  | .importMarker _ => true
  | _ => false

/-- The service never accepts a create request (status below 400) with an empty
body or with a body that decodes to id 0. -/
def Service.ReturnsIDs (svc : Service) : Prop :=
  ∀ (history : List Request) (r : Request) (statusCode : Nat),
    r.isCreate = true → statusCode < 400 →
    svc history r ≠ .response statusCode .empty ∧
    svc history r ≠ .response statusCode (.decoded 0)

/-- No value of the map is zero. -/
def GoMap.NonZero (m : GoMap) : Prop := ∀ k v, m.get k = some v → v ≠ 0

/-- No destination id held by the engine, in the map or in the name caches, is zero. -/
structure Importer.NonZero (imp : Importer) : Prop where
  Tags : imp.idMap.Tags.NonZero
  Studios : imp.idMap.Studios.NonZero
  Actors : imp.idMap.Actors.NonZero
  Scenes : imp.idMap.Scenes.NonZero
  Markers : imp.idMap.Markers.NonZero
  ghTags : imp.ghTags.NonZero
  ghStudios : imp.ghStudios.NonZero
  ghActors : imp.ghActors.NonZero

/-- The call the second loop of `ImportStudios` makes for a studio when the
studio map is `m`: `UpdateStudio(m[studio], ParentID = m[parent])` when the studio
has a parent reference and both are in `m`, none otherwise. -/
def ImportStudios.parentCall (m : GoMap) (studio : StashStudio) : Option Request :=
  match studio.ParentStudio with
  | none => none
  | some parent =>
    match m.get studio.ID, m.get parent.ID with
    | some ghID, some parentGHID => some (.updateStudio ghID { ParentID := some parentGHID })
    | _, _ => none

/-! ## Sample inputs -/

/-- Case tables for the sample inputs: the ASCII letters, and the letters of the
Latin-1 supplement (U+00C0..U+00DE and U+00E0..U+00FE without the signs U+00D7 and
U+00F7), which differ by 32.  Go's tables agree with them on these characters; every
other character is left unchanged here. -/
instance sampleCase : UnicodeCase where
  ToLower c :=
    if 0xC0 ≤ c.toNat ∧ c.toNat ≤ 0xDE ∧ c.toNat ≠ 0xD7 then Char.ofNat (c.toNat + 32)
    else c.toLower
  ToUpper c :=
    if 0xE0 ≤ c.toNat ∧ c.toNat ≤ 0xFE ∧ c.toNat ≠ 0xF7 then Char.ofNat (c.toNat - 32)
    else c.toUpper

/-- A configuration with the path rule `/mnt/media -> /data/videos` (storage id 3). -/
def sampleConfig (dryRun : Bool) : Config :=
  { StashBaseURL := "http://stash", StashAPIKey := "key", GoonHubBaseURL := "http://goonhub"
    GoonHubUsername := "admin", GoonHubPassword := "secret", MarkerUserID := 1, SceneLimit := 0
    DryRun := dryRun, SkipFileCheck := false
    PathMappings := [⟨"/mnt/media", "/data/videos", 3⟩]
    MappingsFile := "mappings.json", IDMapFile := "id_map.json" }

/-- A fresh engine: empty map, empty caches, no call made yet. -/
def sampleImporter (dryRun : Bool) : Importer :=
  NewImporter ⟨[], []⟩ NewIDMap (sampleConfig dryRun).PathMappings (sampleConfig dryRun)

/-- A video file under `/mnt/media`. -/
def sampleFile : StashFile :=
  { Path := "/mnt/media/clip.mp4", Size := 1024, Duration := 90, Width := 1920, Height := 1080
    VideoCodec := "h264", AudioCodec := "aac", FrameRate := 30, BitRate := 4000
    Basename := "clip.mp4" }

/-- A source marker without tags. -/
def sampleMarker (id title : String) : StashMarker :=
  { ID := id, Title := title, Seconds := 12, PrimaryTag := none, Tags := [] }

/-- A source scene with the given files and markers. -/
def sampleScene (id : String) (files : List StashFile) (markers : List StashMarker) :
    StashScene :=
  { ID := id, Title := none, Details := none, Date := none, Rating100 := none, OCounter := none
    Files := files, Studio := none, Performers := [], Tags := [], SceneMarkers := markers }

/-- A source studio with the given parent reference. -/
def sampleStudio (id name : String) (parent : Option StashIDRef) : StashStudio :=
  { ID := id, Name := name, URLs := [], Details := "", Rating100 := none, ParentStudio := parent }

/-- A source performer with only a name. -/
def samplePerformer (id name : String) : StashPerformer :=
  { ID := id, Name := name, Gender := none, Birthdate := none, DeathDate := none
    Ethnicity := none, Country := none, EyeColor := none, HeightCm := none, Measurements := none
    FakeTits := none, Tattoos := none, Piercings := none, HairColor := none, Weight := none
    ImagePath := none }

/-- An inventory with a tag, a studio and its child, a performer, and a scene
carrying one marker. -/
def sampleInventory : Inventory :=
  { stashTags := [⟨"t1", "anal"⟩]
    stashStudios := [sampleStudio "1" "Studio A" none, sampleStudio "2" "Studio B" (some ⟨"1"⟩)]
    stashPerformers := [samplePerformer "p1" "Jane"]
    stashScenes := [sampleScene "s1" [sampleFile] [sampleMarker "m1" "intro"]] }

/-- A service that accepts every request: status 201 with a body whose id is 10
plus the number of attempts made before. -/
def serviceAccepts : Service := fun history _ => .response 201 (.decoded (10 + history.length))

/-- A service that answers every request with 409 Conflict and a body whose id is `k`. -/
def serviceConflicts (k : Nat) : Service := fun _ _ => .response 409 (.decoded k)

/-- A service that answers every request with 500 and an empty body. -/
def serviceDown : Service := fun _ _ => .response 500 .empty

/-- A file system on which every write succeeds. -/
def noFault : WriteFault := fun _ _ => none

/-! ## Path translation -/

theorem hasPrefix_append (s t : String) : hasPrefix (s ++ t) s = true := by
  simp [hasPrefix, String.data_append]

theorem hasPrefix_iff (p q : String) : hasPrefix p q = true ↔ ∃ t : String, p = q ++ t := by
  unfold hasPrefix
  rw [List.isPrefixOf_iff_prefix]
  constructor
  · rintro ⟨t, ht⟩
    exact ⟨⟨t⟩, String.ext (by simp [String.data_append, ht])⟩
  · rintro ⟨t, rfl⟩
    exact ⟨t.data, by simp [String.data_append]⟩

theorem sliceFrom_append (s t : String) : sliceFrom (s ++ t) s.length = t := by
  apply String.ext
  show (s ++ t).data.drop s.data.length = t.data
  rw [String.data_append, List.drop_left]

theorem trimLeftSlash_of_head (r : String) (h : r.data.head? ≠ some '/') :
    trimLeftSlash r = r := by
  apply String.ext
  cases r with
  | mk l =>
    cases l with
    | nil => simp [trimLeftSlash]
    | cons c cs =>
      have hc : c ≠ '/' := by simpa using h
      simp [trimLeftSlash, List.dropWhile_cons, hc]

theorem trimLeftSlash_slash (r : String) (h : r.data.head? ≠ some '/') :
    trimLeftSlash ("/" ++ r) = r := by
  have : trimLeftSlash ("/" ++ r) = trimLeftSlash r := by
    apply String.ext
    simp [trimLeftSlash, String.data_append, List.dropWhile_cons]
  rw [this, trimLeftSlash_of_head r h]

theorem trimRightSlash_of_last (d : String) (h : d.data.getLast? ≠ some '/') :
    trimRightSlash d = d := by
  apply String.ext
  cases d with
  | mk l =>
    have h2 : l.reverse.head? ≠ some '/' := by simpa [List.head?_reverse] using h
    simp only [trimRightSlash]
    cases hl : l.reverse with
    | nil => simp [List.reverse_eq_nil_iff.mp hl]
    | cons c cs =>
      have hc : c ≠ '/' := by simpa [hl] using h2
      have : l = (c :: cs).reverse := by rw [← hl, List.reverse_reverse]
      simp [List.dropWhile_cons, hc, this]

theorem trimRightSlash_slash (d : String) (h : d.data.getLast? ≠ some '/') :
    trimRightSlash (d ++ "/") = d := by
  have : trimRightSlash (d ++ "/") = trimRightSlash d := by
    apply String.ext
    simp [trimRightSlash, String.data_append, List.dropWhile_cons]
  rw [this, trimRightSlash_of_last d h]

theorem MapPath_error_iff (rules : List PathMapping) (p : String) :
    (∃ e, MapPath rules p = .error e) ↔ ∀ m ∈ rules, hasPrefix p m.StashPrefix = false := by
  induction rules with
  | nil => simp [MapPath]
  | cons m rest ih =>
    by_cases hm : hasPrefix p m.StashPrefix = true
    · simp [MapPath, hm]
    · have hm2 : hasPrefix p m.StashPrefix = false := by simpa using hm
      simp [MapPath, hm2, ih]

theorem MapPath_first (rules : List PathMapping) (p : String) (i : Nat) (h : i < rules.length)
    (hi : hasPrefix p (rules.get ⟨i, h⟩).StashPrefix = true)
    (hlt : ∀ j (hj : j < rules.length), j < i →
      hasPrefix p (rules.get ⟨j, hj⟩).StashPrefix = false) :
    MapPath rules p = .ok ((rules.get ⟨i, h⟩).apply p) := by
  induction rules generalizing i with
  | nil => simp at h
  | cons m rest ih =>
    cases i with
    | zero =>
      have : hasPrefix p m.StashPrefix = true := by simpa using hi
      simp [MapPath, this]
    | succ k =>
      have h0 : hasPrefix p m.StashPrefix = false := by
        simpa using hlt 0 (by simp) (by omega)
      have hk : k < rest.length := by simpa using h
      have := ih k hk (by simpa using hi) (fun j hj hjk => by
        simpa using hlt (j + 1) (by simpa using hj) (by omega))
      simpa [MapPath, h0] using this

/-- C8 (first-match-wins path translation): `MapPath` fails exactly when no
rule's `StashPrefix` is a prefix of the path; otherwise the result is computed
from the rule of smallest index whose `StashPrefix` is a prefix of the path
(whatever longer prefixes later rules have), and the returned `StoragePathID`
is that rule's. -/
theorem MapPath_first_match_wins (rules : List PathMapping) (p : String) :
    ((∃ e, MapPath rules p = .error e) ↔ ∀ m ∈ rules, hasPrefix p m.StashPrefix = false) ∧
    (∀ (i : Nat) (h : i < rules.length),
      hasPrefix p (rules.get ⟨i, h⟩).StashPrefix = true →
      (∀ j (hj : j < rules.length), j < i →
        hasPrefix p (rules.get ⟨j, hj⟩).StashPrefix = false) →
      MapPath rules p = .ok
        { GoonHubPath := trimRightSlash (rules.get ⟨i, h⟩).GoonHubPrefix ++ "/" ++
            trimLeftSlash (sliceFrom p (rules.get ⟨i, h⟩).StashPrefix.length)
          StoragePathID := (rules.get ⟨i, h⟩).StoragePathID }) :=
  ⟨MapPath_error_iff rules p, fun i h hi hlt => MapPath_first rules p i h hi hlt⟩

/-- The rule `("/mnt/media", "/data/videos", 3)` sends `/mnt/media/clip.mp4` to
`/data/videos/clip.mp4` with storage id 3. -/
theorem MapPath_first_match_wins_witness :
    hasPrefix "/mnt/media/clip.mp4" "/mnt/media" = true ∧
    MapPath [⟨"/mnt/media", "/data/videos", 3⟩] "/mnt/media/clip.mp4"
      = .ok ⟨"/data/videos/clip.mp4", 3⟩ :=
  ⟨by decide,
    (MapPath_first_match_wins [⟨"/mnt/media", "/data/videos", 3⟩] "/mnt/media/clip.mp4").2
      0 (by decide) (by decide) (fun j _ hj => absurd hj (by omega))⟩

/-- The first matching rule wins over a later rule with a longer matching prefix. -/
theorem MapPath_not_longest :
    MapPath [⟨"/mnt/media", "/data/videos", 3⟩, ⟨"/mnt/media/clips", "/data/clips", 4⟩]
        "/mnt/media/clips/clip.mp4" = .ok ⟨"/data/videos/clips/clip.mp4", 3⟩ := by
  decide

/-- C9 (slash variance): for a destination prefix `d` not ending in `/` and a
remainder `rest` not starting with `/`, the path `s + "/" + rest` is sent to
`d + "/" + rest` by the single rule `(s', d')` for each of `s' = s`, `s' = s + "/"`
and each of `d' = d`, `d' = d + "/"` (for every `s`, in particular one not ending
in `/`). -/
theorem MapPath_slash_variance (s d rest s' d' : String) (id : Nat)
    (hd : d.data.getLast? ≠ some '/') (hr : rest.data.head? ≠ some '/')
    (hs' : s' = s ∨ s' = s ++ "/") (hd' : d' = d ∨ d' = d ++ "/") :
    MapPath [⟨s', d', id⟩] (s ++ "/" ++ rest) = .ok ⟨d ++ "/" ++ rest, id⟩ := by
  have hD : trimRightSlash d' = d := by
    rcases hd' with rfl | rfl
    · exact trimRightSlash_of_last _ hd
    · exact trimRightSlash_slash _ hd
  rcases hs' with rfl | rfl
  · have hp : hasPrefix (s' ++ "/" ++ rest) s' = true := by
      rw [String.append_assoc]; exact hasPrefix_append _ _
    have hsl : sliceFrom (s' ++ "/" ++ rest) s'.length = "/" ++ rest := by
      rw [String.append_assoc]; exact sliceFrom_append _ _
    simp only [MapPath, hp, if_true, PathMapping.apply]
    rw [hsl, hD, trimLeftSlash_slash rest hr]
  · have hp : hasPrefix (s ++ "/" ++ rest) (s ++ "/") = true := hasPrefix_append _ _
    have hsl : sliceFrom (s ++ "/" ++ rest) (s ++ "/").length = rest := sliceFrom_append _ _
    simp only [MapPath, hp, if_true, PathMapping.apply]
    rw [hsl, hD, trimLeftSlash_of_head rest hr]

/-- The rule `("/mnt/media/", "/data/videos/", 3)`, with both trailing slashes,
sends `/mnt/media/clip.mp4` to `/data/videos/clip.mp4`. -/
theorem MapPath_slash_variance_witness :
    ("/data/videos".data.getLast? ≠ some '/' ∧ "clip.mp4".data.head? ≠ some '/') ∧
    MapPath [⟨"/mnt/media/", "/data/videos/", 3⟩] ("/mnt/media" ++ "/" ++ "clip.mp4")
      = .ok ⟨"/data/videos" ++ "/" ++ "clip.mp4", 3⟩ :=
  ⟨⟨by decide, by decide⟩,
    MapPath_slash_variance "/mnt/media" "/data/videos" "clip.mp4" "/mnt/media/" "/data/videos/" 3
      (by decide) (by decide) (Or.inr (by decide)) (Or.inr (by decide))⟩

/-! ## Maps -/

theorem goMap_get_erase (m : GoMap) (k k' : String) :
    (m.erase k).get k' = if k = k' then none else m.get k' := by
  induction m with
  | nil => simp [GoMap.erase, GoMap.get]
  | cons e rest ih =>
    obtain ⟨a, v⟩ := e
    by_cases h1 : a = k
    · subst h1
      by_cases h2 : a = k'
      · subst h2
        simpa [GoMap.erase, GoMap.get] using ih
      · simp [GoMap.erase, GoMap.get, ih, h2]
    · by_cases h2 : k = k'
      · subst h2
        simp [GoMap.erase, GoMap.get, ih, h1]
      · simp [GoMap.erase, GoMap.get, ih, h1, h2]

theorem goMap_get_set (m : GoMap) (k k' : String) (v : Nat) :
    (m.set k v).get k' = if k = k' then some v else m.get k' := by
  by_cases h : k = k'
  · simp [GoMap.set, GoMap.get, h]
  · simp [GoMap.set, GoMap.get, h, goMap_get_erase]

theorem goMap_get_set_self (m : GoMap) (k : String) (v : Nat) : (m.set k v).get k = some v := by
  simp [goMap_get_set]

theorem goMap_sub_refl (m : GoMap) : m.Sub m := fun _ _ h => h

theorem goMap_sub_trans {a b c : GoMap} (h1 : a.Sub b) (h2 : b.Sub c) : a.Sub c :=
  fun k v h => h2 k v (h1 k v h)

theorem goMap_sub_set (m : GoMap) (k : String) (v : Nat) (h : m.get k = none) :
    m.Sub (m.set k v) := by
  intro k' v' h'
  by_cases hk : k = k'
  · subst hk; rw [h] at h'; cases h'
  · simpa [goMap_get_set, hk] using h'

theorem idMap_sub_refl (m : IDMap) : m.Sub m :=
  ⟨goMap_sub_refl _, goMap_sub_refl _, goMap_sub_refl _, goMap_sub_refl _, goMap_sub_refl _⟩

theorem idMap_sub_trans {a b c : IDMap} (h1 : a.Sub b) (h2 : b.Sub c) : a.Sub c :=
  ⟨goMap_sub_trans h1.Tags h2.Tags, goMap_sub_trans h1.Studios h2.Studios, goMap_sub_trans h1.Actors h2.Actors,
    goMap_sub_trans h1.Scenes h2.Scenes, goMap_sub_trans h1.Markers h2.Markers⟩

/-! ### The client -/

theorem doRequest_calls (svc : Service) (c : GoonHubClient) (r : Request) (b : Bool) :
    (doRequest svc c r b).2.calls = c.calls := by
  unfold doRequest
  split
  · rfl
  · split_ifs <;> try rfl
    split <;> rfl

theorem doWithRetry_calls (svc : Service) (c : GoonHubClient) (r : Request) (b : Bool) :
    (doWithRetry svc c r b).2.calls = c.calls := by
  unfold doWithRetry
  split
  · next c1 h =>
    rw [doRequest_calls]
    have := doRequest_calls svc c r b
    rw [h] at this
    exact this
  · next c1 h =>
    have := doRequest_calls svc c r b
    rw [h] at this
    exact this
  · next c1 h =>
    have := doRequest_calls svc c r b
    rw [h] at this
    exact this

theorem clientCall_calls (svc : Service) (c : GoonHubClient) (r : Request) (b : Bool) :
    (clientCall svc c r b).2.calls = c.calls ++ [r] := by
  unfold clientCall
  split
  · next h =>
    have := doWithRetry_calls svc { c with calls := c.calls ++ [r] } r b
    rw [h] at this
    exact this
  · next h =>
    have := doWithRetry_calls svc { c with calls := c.calls ++ [r] } r b
    rw [h] at this
    exact this

theorem clientCall_error (svc : Service) (c : GoonHubClient) (r : Request) (b : Bool)
    (e : GoError) (h : (clientCall svc c r b).1 = .error e) : ∃ inner, e = .wrapError inner := by
  unfold clientCall at h
  split at h
  · next err c1 _ => exact ⟨err, by simpa using h.symm⟩
  · simp at h

theorem doRequest_wire (svc : Service) (c : GoonHubClient) (r : Request) (b : Bool) :
    (doRequest svc c r b).2.wire = c.wire ++ [r] := by
  unfold doRequest
  split
  · rfl
  · split_ifs <;> try rfl
    split <;> rfl

theorem doWithRetry_wire_cases (svc : Service) (c : GoonHubClient) (r : Request) (b : Bool) :
    (doWithRetry svc c r b).2.wire = c.wire ++ [r] ∨
    (doWithRetry svc c r b).2.wire = c.wire ++ [r, r] := by
  have h1 := doRequest_wire svc c r b
  unfold doWithRetry
  split
  · next c1 h =>
    rw [h] at h1
    right
    rw [doRequest_wire, h1, List.append_assoc]; rfl
  · next c1 h => rw [h] at h1; exact Or.inl h1
  · next c1 h => rw [h] at h1; exact Or.inl h1

theorem clientCall_wire_cases (svc : Service) (c : GoonHubClient) (r : Request) (b : Bool) :
    (clientCall svc c r b).2.wire = c.wire ++ [r] ∨
    (clientCall svc c r b).2.wire = c.wire ++ [r, r] := by
  have h := doWithRetry_wire_cases svc { c with calls := c.calls ++ [r] } r b
  unfold clientCall
  split
  · next h1 => rw [h1] at h; exact h
  · next h1 => rw [h1] at h; exact h

theorem clientCall_wire_once (svc : Service) (c : GoonHubClient) (r : Request) (b : Bool)
    (h : ∀ statusCode body, svc c.wire r = .response statusCode body → statusCode < 500) :
    (clientCall svc c r b).2.wire = c.wire ++ [r] := by
  have h1 : ∀ e c1, doRequest svc { c with calls := c.calls ++ [r] } r b = (e, c1) →
      c1.wire = c.wire ++ [r] ∧ ∀ s, e ≠ .error (.serverError s) := by
    intro e c1 heq
    have hw := doRequest_wire svc { c with calls := c.calls ++ [r] } r b
    rw [heq] at hw
    refine ⟨hw, ?_⟩
    intro s hs
    subst hs
    unfold doRequest at heq
    simp only at heq
    split at heq
    · simp at heq
    · next statusCode body hsvc =>
      have := h statusCode body hsvc
      split_ifs at heq with g1 g2 g3
      · simp at heq
      · omega
      · simp at heq
      · split at heq <;> simp at heq
  unfold clientCall doWithRetry
  split
  · next e1 c1 heq =>
    split at heq
    · next s c2 h2 => exact absurd rfl ((h1 _ _ h2).2 s)
    · next e2 c2 _ h2 =>
      have := (h1 _ _ h2).1
      cases heq; exact this
    · next id c2 h2 => cases heq
  · next id c1 heq =>
    split at heq
    · next s c2 h2 => exact absurd rfl ((h1 _ _ h2).2 s)
    · cases heq
    · next id2 c2 h2 =>
      have := (h1 _ _ h2).1
      cases heq; exact this

theorem clientCall_accepted (svc : Service) (c : GoonHubClient) (r : Request)
    (statusCode : Nat) (body : RespBody)
    (h : svc c.wire r = .response statusCode body) (hs : statusCode < 400)
    (hb : ∀ id, body ≠ .failed id) :
    clientCall svc c r true = (.ok body.id, ⟨c.calls ++ [r], c.wire ++ [r]⟩) := by
  have h2 : statusCode ≠ 409 := by omega
  have h3 : ¬ 500 ≤ statusCode := by omega
  have h4 : ¬ 400 ≤ statusCode := by omega
  have h1 : doRequest svc { c with calls := c.calls ++ [r] } r true =
      (.ok body.id, ⟨c.calls ++ [r], c.wire ++ [r]⟩) := by
    simp only [doRequest, h, h2, h3, h4, if_false, ge_iff_le]
    cases body with
    | empty => rfl
    | decoded id => rfl
    | failed id => exact absurd rfl (hb id)
  simp [clientCall, doWithRetry, h1]

theorem clientCall_accepted_on_retry (svc : Service) (c : GoonHubClient) (r : Request)
    (s1 statusCode : Nat) (b1 body : RespBody)
    (hfirst : svc c.wire r = .response s1 b1) (h500 : 500 ≤ s1)
    (h : svc (c.wire ++ [r]) r = .response statusCode body) (hs : statusCode < 400)
    (hb : ∀ id, body ≠ .failed id) :
    clientCall svc c r true = (.ok body.id, ⟨c.calls ++ [r], c.wire ++ [r, r]⟩) := by
  have g2 : s1 ≠ 409 := by omega
  have h2 : statusCode ≠ 409 := by omega
  have h3 : ¬ 500 ≤ statusCode := by omega
  have h4 : ¬ 400 ≤ statusCode := by omega
  have h0 : doRequest svc { c with calls := c.calls ++ [r] } r true =
      (.error (.serverError s1), ⟨c.calls ++ [r], c.wire ++ [r]⟩) := by
    simp [doRequest, hfirst, g2, h500]
  have h1 : doRequest svc ⟨c.calls ++ [r], c.wire ++ [r]⟩ r true =
      (.ok body.id, ⟨c.calls ++ [r], c.wire ++ [r, r]⟩) := by
    simp only [doRequest, h, h2, h3, h4, if_false, ge_iff_le]
    cases body with
    | empty => simp [RespBody.id]
    | decoded id => simp [RespBody.id]
    | failed id => exact absurd rfl (hb id)
  simp [clientCall, doWithRetry, h0, h1]

theorem isConflict_hasConflict (e : GoError) (h : isConflict e = true) : e.hasConflict = true := by
  cases e <;> simp_all [isConflict, GoError.hasConflict]

theorem doRequest_hasConflict (svc : Service) (c : GoonHubClient) (r : Request) (b : Bool)
    (hnc : svc.NoConflict) (e : GoError) (h : (doRequest svc c r b).1 = .error e) :
    e.hasConflict = false := by
  unfold doRequest at h
  simp only at h
  split at h
  · cases h; rfl
  · next statusCode body hsvc =>
    split_ifs at h with g1 g2 g3
    · subst g1; exact absurd hsvc (hnc _ _ _)
    · cases h; rfl
    · cases h; rfl
    · split at h
      · cases h
      · cases h; rfl
      · cases h

theorem doWithRetry_hasConflict (svc : Service) (c : GoonHubClient) (r : Request) (b : Bool)
    (hnc : svc.NoConflict) (e : GoError) (h : (doWithRetry svc c r b).1 = .error e) :
    e.hasConflict = false := by
  unfold doWithRetry at h
  split at h
  · exact doRequest_hasConflict svc _ r b hnc e h
  · next err c1 _ heq =>
    cases h
    exact doRequest_hasConflict svc c r b hnc _ (by rw [heq])
  · cases h

theorem clientCall_hasConflict (svc : Service) (c : GoonHubClient) (r : Request) (b : Bool)
    (hnc : svc.NoConflict) (e : GoError) (h : (clientCall svc c r b).1 = .error e) :
    e.hasConflict = false := by
  unfold clientCall at h
  split at h
  · next err c1 heq =>
    cases h
    exact doWithRetry_hasConflict svc _ r b hnc err (by rw [heq])
  · cases h

theorem clientCall_isConflict_false (svc : Service) (c c1 : GoonHubClient) (r : Request)
    (b : Bool) (hnc : svc.NoConflict) (e : GoError)
    (h : clientCall svc c r b = (.error e, c1)) : isConflict e = false := by
  have h1 := clientCall_hasConflict svc c r b hnc e (by rw [h])
  cases hc : isConflict e
  · rfl
  · rw [isConflict_hasConflict e hc] at h1; cases h1

/-! ## Loop bodies -/

theorem advances_refl (a : Importer) : Advances a a :=
  ⟨rfl, rfl, idMap_sub_refl _, goMap_sub_refl _, goMap_sub_refl _, goMap_sub_refl _, fun _ => rfl⟩

theorem advances_trans {a b c : Importer} (h1 : Advances a b) (h2 : Advances b c) :
    Advances a c :=
  ⟨h2.cfg.trans h1.cfg, h2.pathMapper.trans h1.pathMapper, idMap_sub_trans h1.idMap h2.idMap,
    goMap_sub_trans h1.ghTags h2.ghTags, goMap_sub_trans h1.ghStudios h2.ghStudios, goMap_sub_trans h1.ghActors h2.ghActors,
    fun h => (h2.dry (by rw [h1.cfg]; exact h)).trans (h1.dry h)⟩

theorem advances_of_gh (a : Importer) (gh : GoonHubClient) (h : a.cfg.DryRun = false) :
    Advances a { a with gh := gh } :=
  ⟨rfl, rfl, idMap_sub_refl _, goMap_sub_refl _, goMap_sub_refl _, goMap_sub_refl _,
    fun h' => by rw [h] at h'; cases h'⟩

theorem foldl_advances {α β : Type} (f : Importer → β → α → Importer × β)
    (hf : ∀ imp acc x, Advances imp (f imp acc x).1) (l : List α)
    (st : Importer × β) :
    Advances st.1 (l.foldl (fun st x => f st.1 st.2 x) st).1 := by
  induction l generalizing st with
  | nil => exact advances_refl _
  | cons x xs ih => exact advances_trans (hf st.1 st.2 x) (ih _)

theorem importTags_step_advances [UnicodeCase] (svc : Service) (imp : Importer) (stats : PhaseStats)
    (tag : StashTag) : Advances imp (ImportTags.step svc imp stats tag).1 := by
  unfold ImportTags.step
  split
  · exact advances_refl _
  · next hget =>
    split
    · exact ⟨rfl, rfl, ⟨goMap_sub_set _ _ _ hget, goMap_sub_refl _, goMap_sub_refl _,
        goMap_sub_refl _, goMap_sub_refl _⟩, goMap_sub_refl _, goMap_sub_refl _,
        goMap_sub_refl _, fun _ => rfl⟩
    · next hname =>
      split
      · exact advances_refl _
      · next hdry =>
        have hdry2 : imp.cfg.DryRun = false := by simpa using hdry
        split
        · split <;> exact advances_of_gh _ _ hdry2
        · exact ⟨rfl, rfl, ⟨goMap_sub_set _ _ _ hget, goMap_sub_refl _,
            goMap_sub_refl _, goMap_sub_refl _, goMap_sub_refl _⟩,
            goMap_sub_set _ _ _ hname, goMap_sub_refl _,
            goMap_sub_refl _, fun h' => by rw [hdry2] at h'; cases h'⟩

theorem importStudios_step_advances [UnicodeCase] (svc : Service) (imp : Importer) (stats : PhaseStats)
    (studio : StashStudio) : Advances imp (ImportStudios.step svc imp stats studio).1 := by
  unfold ImportStudios.step
  split
  · exact advances_refl _
  · next hget =>
    split
    · exact ⟨rfl, rfl, ⟨goMap_sub_refl _, goMap_sub_set _ _ _ hget, goMap_sub_refl _,
        goMap_sub_refl _, goMap_sub_refl _⟩, goMap_sub_refl _, goMap_sub_refl _,
        goMap_sub_refl _, fun _ => rfl⟩
    · next hname =>
      split
      · exact advances_refl _
      · next hdry =>
        have hdry2 : imp.cfg.DryRun = false := by simpa using hdry
        split
        · split <;> exact advances_of_gh _ _ hdry2
        · exact ⟨rfl, rfl, ⟨goMap_sub_refl _, goMap_sub_set _ _ _ hget,
            goMap_sub_refl _, goMap_sub_refl _, goMap_sub_refl _⟩,
            goMap_sub_refl _, goMap_sub_set _ _ _ hname,
            goMap_sub_refl _, fun h' => by rw [hdry2] at h'; cases h'⟩

theorem importStudios_parentStep_advances (svc : Service) (imp : Importer) (n : Nat)
    (studio : StashStudio) : Advances imp (ImportStudios.parentStep svc imp n studio).1 := by
  unfold ImportStudios.parentStep
  split
  · exact advances_refl _
  · split
    · exact advances_refl _
    · split
      · exact advances_refl _
      · split
        · exact advances_refl _
        · next hdry =>
          have hdry2 : imp.cfg.DryRun = false := by simpa using hdry
          split <;> exact advances_of_gh _ _ hdry2

theorem importPerformers_step_advances [UnicodeCase] (svc : Service) (imp : Importer) (stats : PhaseStats)
    (perf : StashPerformer) : Advances imp (ImportPerformers.step svc imp stats perf).1 := by
  unfold ImportPerformers.step
  split
  · exact advances_refl _
  · next hget =>
    split
    · exact ⟨rfl, rfl, ⟨goMap_sub_refl _, goMap_sub_refl _, goMap_sub_set _ _ _ hget,
        goMap_sub_refl _, goMap_sub_refl _⟩, goMap_sub_refl _, goMap_sub_refl _,
        goMap_sub_refl _, fun _ => rfl⟩
    · next hname =>
      split
      · exact advances_refl _
      · next hdry =>
        have hdry2 : imp.cfg.DryRun = false := by simpa using hdry
        split
        · split <;> exact advances_of_gh _ _ hdry2
        · exact ⟨rfl, rfl, ⟨goMap_sub_refl _, goMap_sub_refl _,
            goMap_sub_set _ _ _ hget, goMap_sub_refl _, goMap_sub_refl _⟩,
            goMap_sub_refl _, goMap_sub_refl _,
            goMap_sub_set _ _ _ hname, fun h' => by rw [hdry2] at h'; cases h'⟩

theorem importScenes_associate_advances (svc : Service) (imp : Importer) (scene : StashScene)
    (id : Nat) (hdry : imp.cfg.DryRun = false) :
    Advances imp (ImportScenes.associate svc imp scene id) := by
  unfold ImportScenes.associate
  simp only
  split
  · split
    · exact advances_of_gh _ _ hdry
    · exact advances_of_gh _ _ hdry
  · split
    · exact advances_of_gh _ _ hdry
    · exact advances_refl _

theorem importScenes_step_advances (svc : Service) (imp : Importer) (stats : PhaseStats)
    (scene : StashScene) : Advances imp (ImportScenes.step svc imp stats scene).1 := by
  unfold ImportScenes.step
  split
  · exact advances_refl _
  · next hget =>
    split
    · exact advances_refl _
    · split
      · exact advances_refl _
      · split
        · exact advances_refl _
        · next hdry =>
          have hdry2 : imp.cfg.DryRun = false := by simpa using hdry
          have hset : ∀ (gh : GoonHubClient) (v : Nat), Advances imp
              { imp with
                gh := gh
                idMap := { imp.idMap with Scenes := imp.idMap.Scenes.set scene.ID v } } :=
            fun gh v => ⟨rfl, rfl, ⟨goMap_sub_refl _, goMap_sub_refl _, goMap_sub_refl _,
              goMap_sub_set _ _ _ hget, goMap_sub_refl _⟩, goMap_sub_refl _,
              goMap_sub_refl _, goMap_sub_refl _, fun h' => by rw [hdry2] at h'; cases h'⟩
          split
          · split
            · exact hset _ _
            · exact advances_of_gh _ _ hdry2
          · exact advances_of_gh _ _ hdry2
          · exact advances_trans (hset _ _) (importScenes_associate_advances _ _ _ _ hdry2)

theorem importMarkers_markerStep_advances (svc : Service) (ghSceneID : Nat) (imp : Importer)
    (stats : PhaseStats) (marker : StashMarker) :
    Advances imp (ImportMarkers.markerStep svc ghSceneID imp stats marker).1 := by
  unfold ImportMarkers.markerStep
  split
  · exact advances_refl _
  · next hget =>
    split
    · exact advances_refl _
    · next hdry =>
      have hdry2 : imp.cfg.DryRun = false := by simpa using hdry
      have hset : ∀ (gh : GoonHubClient) (v : Nat), Advances imp
          { imp with
            gh := gh
            idMap := { imp.idMap with Markers := imp.idMap.Markers.set marker.ID v } } :=
        fun gh v => ⟨rfl, rfl, ⟨goMap_sub_refl _, goMap_sub_refl _, goMap_sub_refl _,
          goMap_sub_refl _, goMap_sub_set _ _ _ hget⟩, goMap_sub_refl _,
          goMap_sub_refl _, goMap_sub_refl _, fun h' => by rw [hdry2] at h'; cases h'⟩
      split
      · split <;> exact advances_of_gh _ _ hdry2
      · simp only
        split
        · exact hset _ _
        · exact hset _ _

theorem importMarkers_step_advances (svc : Service) (imp : Importer) (stats : PhaseStats)
    (scene : StashScene) : Advances imp (ImportMarkers.step svc imp stats scene).1 := by
  unfold ImportMarkers.step
  split
  · exact advances_refl _
  · exact foldl_advances _ (importMarkers_markerStep_advances svc _) _ (imp, stats)

theorem importTags_advances [UnicodeCase] (svc : Service) (imp : Importer) (l : List StashTag) :
    Advances imp (ImportTags svc imp l).1 :=
  foldl_advances _ (importTags_step_advances svc) l (imp, ⟨0, 0, 0⟩)

theorem importStudios_pass1_advances [UnicodeCase] (svc : Service) (imp : Importer) (l : List StashStudio) :
    Advances imp (ImportStudios.pass1 svc imp l).1 :=
  foldl_advances _ (importStudios_step_advances svc) l (imp, ⟨0, 0, 0⟩)

theorem importPerformers_advances [UnicodeCase] (svc : Service) (imp : Importer) (l : List StashPerformer) :
    Advances imp (ImportPerformers svc imp l).1 :=
  foldl_advances _ (importPerformers_step_advances svc) l (imp, ⟨0, 0, 0⟩)

theorem importScenes_advances (svc : Service) (imp : Importer) (l : List StashScene) :
    Advances imp (ImportScenes svc imp l).1 :=
  foldl_advances _ (importScenes_step_advances svc) l (imp, ⟨0, 0, 0⟩)

theorem importMarkers_advances (svc : Service) (imp : Importer) (l : List StashScene) :
    Advances imp (ImportMarkers svc imp l).1 :=
  foldl_advances _ (importMarkers_step_advances svc) l (imp, ⟨0, 0, 0⟩)

/-! ## The phases -/

theorem importStudios_pass2_advances (svc : Service) (imp : Importer) (l : List StashStudio) :
    Advances imp (ImportStudios.pass2 svc imp l).1 :=
  foldl_advances _ (importStudios_parentStep_advances svc) l (imp, 0)

theorem importStudios_advances [UnicodeCase] (svc : Service) (imp : Importer) (l : List StashStudio) :
    Advances imp (ImportStudios svc imp l).1 :=
  advances_trans (importStudios_pass1_advances svc imp l) (importStudios_pass2_advances svc _ l)

theorem goMap_sub_new {a b : GoMap} (h : a.Sub b) (k : String) (v : Nat)
    (hb : b.get k = some v) : a.get k = some v ∨ a.get k = none := by
  cases ha : a.get k with
  | none => exact Or.inr rfl
  | some w =>
    have := h k w ha
    rw [hb] at this
    exact Or.inl this.symm

/-- C4 (append-only map): whatever the inventory (repeated source ids included),
the mode and the behaviour of the destination service, every entry of each of the
five sub-maps of `idMap` before a phase is an entry of that sub-map, with the same
destination id, after the phase, for each of the five phase functions. -/
theorem idMap_append_only [UnicodeCase] (svc : Service) (imp : Importer) (stashTags : List StashTag)
    (stashStudios : List StashStudio) (stashPerformers : List StashPerformer)
    (stashScenes : List StashScene) :
    imp.idMap.Sub (ImportTags svc imp stashTags).1.idMap ∧
    imp.idMap.Sub (ImportStudios svc imp stashStudios).1.idMap ∧
    imp.idMap.Sub (ImportPerformers svc imp stashPerformers).1.idMap ∧
    imp.idMap.Sub (ImportScenes svc imp stashScenes).1.idMap ∧
    imp.idMap.Sub (ImportMarkers svc imp stashScenes).1.idMap :=
  ⟨(importTags_advances svc imp _).idMap, (importStudios_advances svc imp _).idMap,
    (importPerformers_advances svc imp _).idMap, (importScenes_advances svc imp _).idMap,
    (importMarkers_advances svc imp _).idMap⟩

theorem checkpoint_dry (fault : WriteFault) (imp : Importer) (file : MapFile)
    (h : imp.cfg.DryRun = true) : checkpoint fault imp file = file := by
  simp [checkpoint, h]

theorem runPhases_dry [UnicodeCase] (svc : Service) (fault : WriteFault) (imp : Importer) (file : MapFile)
    (inv : Inventory) (h : imp.cfg.DryRun = true) :
    (runPhases svc fault imp file inv).imp.gh = imp.gh ∧
    (runPhases svc fault imp file inv).file = file := by
  have a1 := importTags_advances svc imp inv.stashTags
  have a2 := advances_trans a1 (importStudios_advances svc _ inv.stashStudios)
  have a3 := advances_trans a2 (importPerformers_advances svc _ inv.stashPerformers)
  have a4 := advances_trans a3 (importScenes_advances svc _ inv.stashScenes)
  have a5 := advances_trans a4 (importMarkers_advances svc _ inv.stashScenes)
  refine ⟨a5.dry h, ?_⟩
  simp only [runPhases]
  rw [checkpoint_dry _ _ _ (by rw [a5.cfg]; exact h), checkpoint_dry _ _ _ (by rw [a4.cfg]; exact h),
    checkpoint_dry _ _ _ (by rw [a3.cfg]; exact h), checkpoint_dry _ _ _ (by rw [a2.cfg]; exact h),
    checkpoint_dry _ _ _ (by rw [a1.cfg]; exact h)]

/-- C6 (simulation mode): with `cfg.DryRun` set, for every inventory, starting
map and service behaviour, none of the five phases makes a client call or an HTTP
attempt (the client, with its record of calls and attempts, is unchanged), and
the run of the five phases with their checkpoints makes none either and leaves
the id-map file as it was. -/
theorem dryRun_no_mutation [UnicodeCase] (svc : Service) (fault : WriteFault) (imp : Importer)
    (file : MapFile) (inv : Inventory) (h : imp.cfg.DryRun = true) :
    (ImportTags svc imp inv.stashTags).1.gh = imp.gh ∧
    (ImportStudios svc imp inv.stashStudios).1.gh = imp.gh ∧
    (ImportPerformers svc imp inv.stashPerformers).1.gh = imp.gh ∧
    (ImportScenes svc imp inv.stashScenes).1.gh = imp.gh ∧
    (ImportMarkers svc imp inv.stashScenes).1.gh = imp.gh ∧
    (runPhases svc fault imp file inv).imp.gh = imp.gh ∧
    (runPhases svc fault imp file inv).file = file :=
  ⟨(importTags_advances svc imp _).dry h, (importStudios_advances svc imp _).dry h,
    (importPerformers_advances svc imp _).dry h, (importScenes_advances svc imp _).dry h,
    (importMarkers_advances svc imp _).dry h, runPhases_dry svc fault imp file inv h⟩

/-- A simulated run over a tag, a scene and its marker makes no call and leaves
an absent id-map file absent. -/
theorem dryRun_no_mutation_witness :
    (sampleImporter true).cfg.DryRun = true ∧
    (runPhases serviceAccepts noFault (sampleImporter true) .absent
      ⟨[⟨"t1", "anal"⟩], [], [],
        [sampleScene "s1" [sampleFile] [sampleMarker "m1" "intro"]]⟩).imp.gh = ⟨[], []⟩ ∧
    (runPhases serviceAccepts noFault (sampleImporter true) .absent
      ⟨[⟨"t1", "anal"⟩], [], [],
        [sampleScene "s1" [sampleFile] [sampleMarker "m1" "intro"]]⟩).file = .absent :=
  ⟨rfl, (dryRun_no_mutation serviceAccepts noFault (sampleImporter true) .absent
      ⟨[⟨"t1", "anal"⟩], [], [],
        [sampleScene "s1" [sampleFile] [sampleMarker "m1" "intro"]]⟩ rfl).2.2.2.2.2⟩

theorem foldl_frame {α β γ : Type} (proj : Importer → γ) (f : Importer → β → α → Importer × β)
    (hf : ∀ imp acc x, proj (f imp acc x).1 = proj imp) (l : List α) (st : Importer × β) :
    proj (l.foldl (fun st x => f st.1 st.2 x) st).1 = proj st.1 := by
  induction l generalizing st with
  | nil => rfl
  | cons x xs ih => exact (ih _).trans (hf st.1 st.2 x)

theorem importMarkers_markerStep_scenes (svc : Service) (g : Nat) (imp : Importer)
    (stats : PhaseStats) (marker : StashMarker) :
    (ImportMarkers.markerStep svc g imp stats marker).1.idMap.Scenes = imp.idMap.Scenes := by
  unfold ImportMarkers.markerStep
  split
  · rfl
  · split
    · rfl
    · split
      · split <;> rfl
      · simp only
        split <;> rfl

theorem importMarkers_step_scenes (svc : Service) (imp : Importer) (stats : PhaseStats)
    (scene : StashScene) :
    (ImportMarkers.step svc imp stats scene).1.idMap.Scenes = imp.idMap.Scenes := by
  unfold ImportMarkers.step
  split
  · rfl
  · exact foldl_frame (fun i => i.idMap.Scenes) _ (importMarkers_markerStep_scenes svc _) _ _

theorem importMarkers_scenes (svc : Service) (imp : Importer) (l : List StashScene) :
    (ImportMarkers svc imp l).1.idMap.Scenes = imp.idMap.Scenes :=
  foldl_frame (fun i => i.idMap.Scenes) _ (importMarkers_step_scenes svc) l _

/-- C7 (marker gating): for a scene whose id is not in `idMap.Scenes` when
`ImportMarkers` runs, wherever it stands in the inventory `pre ++ scene :: post`,
processing it leaves the engine state as it was after `pre` (no client call, no
entry recorded, in `idMap.Markers` or elsewhere), adds the number of its markers
to `Skipped` and nothing to `Created` or `Errors`; the phase then goes on with
`post` from there. -/
theorem markers_gated (svc : Service) (imp : Importer) (pre post : List StashScene)
    (scene : StashScene) (h : imp.idMap.Scenes.get scene.ID = none) :
    (ImportMarkers svc imp (pre ++ [scene])).1 = (ImportMarkers svc imp pre).1 ∧
    (ImportMarkers svc imp (pre ++ [scene])).2.Skipped =
      (ImportMarkers svc imp pre).2.Skipped + scene.SceneMarkers.length ∧
    (ImportMarkers svc imp (pre ++ [scene])).2.Created = (ImportMarkers svc imp pre).2.Created ∧
    (ImportMarkers svc imp (pre ++ [scene])).2.Errors = (ImportMarkers svc imp pre).2.Errors ∧
    ImportMarkers svc imp (pre ++ scene :: post) =
      post.foldl (fun st sc => ImportMarkers.step svc st.1 st.2 sc)
        (ImportMarkers svc imp (pre ++ [scene])) := by
  have hs : (ImportMarkers svc imp pre).1.idMap.Scenes.get scene.ID = none := by
    rw [importMarkers_scenes]; exact h
  have hstep : ImportMarkers svc imp (pre ++ [scene]) =
      ImportMarkers.step svc (ImportMarkers svc imp pre).1 (ImportMarkers svc imp pre).2 scene := by
    simp [ImportMarkers, List.foldl_append]
  have hval : ImportMarkers.step svc (ImportMarkers svc imp pre).1 (ImportMarkers svc imp pre).2
      scene = ((ImportMarkers svc imp pre).1,
        { (ImportMarkers svc imp pre).2 with
          Skipped := (ImportMarkers svc imp pre).2.Skipped + scene.SceneMarkers.length }) := by
    simp [ImportMarkers.step, hs]
  refine ⟨by rw [hstep, hval], by rw [hstep, hval], by rw [hstep, hval], by rw [hstep, hval], ?_⟩
  simp [ImportMarkers, List.foldl_append]

/-- With an empty scene map, a scene with two markers yields two `Skipped` and no call. -/
theorem markers_gated_witness :
    (sampleImporter false).idMap.Scenes.get "s1" = none ∧
    (ImportMarkers serviceAccepts (sampleImporter false)
      [sampleScene "s1" [sampleFile] [sampleMarker "m1" "a", sampleMarker "m2" "b"]]).2
        = ⟨0, 2, 0⟩ ∧
    (ImportMarkers serviceAccepts (sampleImporter false)
      [sampleScene "s1" [sampleFile] [sampleMarker "m1" "a", sampleMarker "m2" "b"]]).1
        = sampleImporter false := by
  have h := markers_gated serviceAccepts (sampleImporter false) [] []
    (sampleScene "s1" [sampleFile] [sampleMarker "m1" "a", sampleMarker "m2" "b"]) rfl
  exact ⟨rfl, by decide, h.1⟩

theorem indexByName_get [UnicodeCase] (cache : GoMap) (items : List GHListItem) (k : String)
    (h : ∃ e ∈ items, toLower e.Name = k) :
    ∃ e ∈ items, toLower e.Name = k ∧ (indexByName cache items).get k = some e.ID := by
  induction items using List.reverseRecOn with
  | nil => simp at h
  | append_singleton xs x ih =>
    have hfold : indexByName cache (xs ++ [x]) =
        (indexByName cache xs).set (toLower x.Name) x.ID := by
      simp [indexByName, List.foldl_append]
    by_cases hx : toLower x.Name = k
    · exact ⟨x, by simp, hx, by rw [hfold, hx, goMap_get_set_self]⟩
    · obtain ⟨e, he, hek⟩ := h
      have he2 : e ∈ xs := by
        rcases List.mem_append.mp he with h1 | h1
        · exact h1
        · simp at h1; subst h1; exact absurd hek hx
      obtain ⟨e', he', hk', hget⟩ := ih ⟨e, he2, hek⟩
      exact ⟨e', List.mem_append_left _ he', hk', by rw [hfold, goMap_get_set]; simp [hx, hget]⟩

theorem preFetchExisting_caches [UnicodeCase] (imp0 imp : Importer) (lt ls la : List GHListItem)
    (h : PreFetchExisting imp0 (.ok lt) (.ok ls) (.ok la) = .ok imp) :
    imp.ghTags = indexByName imp0.ghTags lt ∧ imp.ghStudios = indexByName imp0.ghStudios ls ∧
    imp.ghActors = indexByName imp0.ghActors la ∧ imp.idMap = imp0.idMap ∧ imp.cfg = imp0.cfg ∧
    imp.gh = imp0.gh := by
  simp only [PreFetchExisting, Except.ok.injEq] at h
  subst h
  exact ⟨rfl, rfl, rfl, rfl, rfl, rfl⟩

theorem importTags_snoc [UnicodeCase] (svc : Service) (imp : Importer) (pre : List StashTag) (tag : StashTag) :
    ImportTags svc imp (pre ++ [tag]) =
      ImportTags.step svc (ImportTags svc imp pre).1 (ImportTags svc imp pre).2 tag := by
  simp [ImportTags, List.foldl_append]

theorem importTags_append [UnicodeCase] (svc : Service) (imp : Importer) (l1 l2 : List StashTag) :
    Advances (ImportTags svc imp l1).1 (ImportTags svc imp (l1 ++ l2)).1 := by
  simp only [ImportTags, List.foldl_append]
  exact foldl_advances _ (importTags_step_advances svc) l2 _

theorem importTags_step_reuse [UnicodeCase] (svc : Service) (imp : Importer) (stats : PhaseStats)
    (tag : StashTag) (g : Nat) (hm : imp.idMap.Tags.get tag.ID = none)
    (hc : imp.ghTags.get (toLower tag.Name) = some g) :
    ImportTags.step svc imp stats tag =
      ({ imp with idMap := { imp.idMap with Tags := imp.idMap.Tags.set tag.ID g } },
        stats.incSkipped) := by
  simp [ImportTags.step, hm, hc]

theorem importStudios_pass1_snoc [UnicodeCase] (svc : Service) (imp : Importer) (pre : List StashStudio)
    (studio : StashStudio) :
    ImportStudios.pass1 svc imp (pre ++ [studio]) =
      ImportStudios.step svc (ImportStudios.pass1 svc imp pre).1
        (ImportStudios.pass1 svc imp pre).2 studio := by
  simp [ImportStudios.pass1, List.foldl_append]

theorem importStudios_pass1_append [UnicodeCase] (svc : Service) (imp : Importer) (l1 l2 : List StashStudio) :
    Advances (ImportStudios.pass1 svc imp l1).1 (ImportStudios.pass1 svc imp (l1 ++ l2)).1 := by
  simp only [ImportStudios.pass1, List.foldl_append]
  exact foldl_advances _ (importStudios_step_advances svc) l2 _

theorem importStudios_step_reuse [UnicodeCase] (svc : Service) (imp : Importer) (stats : PhaseStats)
    (studio : StashStudio) (g : Nat) (hm : imp.idMap.Studios.get studio.ID = none)
    (hc : imp.ghStudios.get (toLower studio.Name) = some g) :
    ImportStudios.step svc imp stats studio =
      ({ imp with idMap := { imp.idMap with Studios := imp.idMap.Studios.set studio.ID g } },
        stats.incSkipped) := by
  simp [ImportStudios.step, hm, hc]

theorem importPerformers_snoc [UnicodeCase] (svc : Service) (imp : Importer) (pre : List StashPerformer)
    (perf : StashPerformer) :
    ImportPerformers svc imp (pre ++ [perf]) =
      ImportPerformers.step svc (ImportPerformers svc imp pre).1
        (ImportPerformers svc imp pre).2 perf := by
  simp [ImportPerformers, List.foldl_append]

theorem importPerformers_append [UnicodeCase] (svc : Service) (imp : Importer)
    (l1 l2 : List StashPerformer) :
    Advances (ImportPerformers svc imp l1).1 (ImportPerformers svc imp (l1 ++ l2)).1 := by
  simp only [ImportPerformers, List.foldl_append]
  exact foldl_advances _ (importPerformers_step_advances svc) l2 _

theorem importPerformers_step_reuse [UnicodeCase] (svc : Service) (imp : Importer) (stats : PhaseStats)
    (perf : StashPerformer) (g : Nat) (hm : imp.idMap.Actors.get perf.ID = none)
    (hc : imp.ghActors.get (toLower perf.Name) = some g) :
    ImportPerformers.step svc imp stats perf =
      ({ imp with idMap := { imp.idMap with Actors := imp.idMap.Actors.set perf.ID g } },
        stats.incSkipped) := by
  simp [ImportPerformers.step, hm, hc]

theorem importTags_reuse [UnicodeCase] (svc : Service) (imp : Importer) (pre post : List StashTag)
    (tag : StashTag) (g : Nat) (hc : imp.ghTags.get (toLower tag.Name) = some g)
    (hm : (ImportTags svc imp pre).1.idMap.Tags.get tag.ID = none) :
    (ImportTags svc imp (pre ++ [tag])).1.idMap.Tags.get tag.ID = some g ∧
    (ImportTags svc imp (pre ++ [tag])).2 = (ImportTags svc imp pre).2.incSkipped ∧
    (ImportTags svc imp (pre ++ [tag])).1.gh = (ImportTags svc imp pre).1.gh ∧
    (ImportTags svc imp (pre ++ tag :: post)).1.idMap.Tags.get tag.ID = some g := by
  have hc1 := (importTags_advances svc imp pre).ghTags _ _ hc
  have hstep := importTags_step_reuse svc _ (ImportTags svc imp pre).2 tag g hm hc1
  have hsnoc := importTags_snoc svc imp pre tag
  have h1 : (ImportTags svc imp (pre ++ [tag])).1.idMap.Tags.get tag.ID = some g := by
    rw [hsnoc, hstep]; exact goMap_get_set_self _ _ _
  refine ⟨h1, by rw [hsnoc, hstep], by rw [hsnoc, hstep], ?_⟩
  have := (importTags_append svc imp (pre ++ [tag]) post).idMap.Tags _ _ h1
  simpa using this

theorem importStudios_reuse [UnicodeCase] (svc : Service) (imp : Importer) (pre post : List StashStudio)
    (studio : StashStudio) (g : Nat) (hc : imp.ghStudios.get (toLower studio.Name) = some g)
    (hm : (ImportStudios.pass1 svc imp pre).1.idMap.Studios.get studio.ID = none) :
    (ImportStudios.pass1 svc imp (pre ++ [studio])).1.idMap.Studios.get studio.ID = some g ∧
    (ImportStudios.pass1 svc imp (pre ++ [studio])).2 =
      (ImportStudios.pass1 svc imp pre).2.incSkipped ∧
    (ImportStudios.pass1 svc imp (pre ++ [studio])).1.gh = (ImportStudios.pass1 svc imp pre).1.gh ∧
    (ImportStudios svc imp (pre ++ studio :: post)).1.idMap.Studios.get studio.ID = some g := by
  have hc1 := (importStudios_pass1_advances svc imp pre).ghStudios _ _ hc
  have hstep := importStudios_step_reuse svc _ (ImportStudios.pass1 svc imp pre).2 studio g hm hc1
  have hsnoc := importStudios_pass1_snoc svc imp pre studio
  have h1 : (ImportStudios.pass1 svc imp (pre ++ [studio])).1.idMap.Studios.get studio.ID
      = some g := by
    rw [hsnoc, hstep]; exact goMap_get_set_self _ _ _
  refine ⟨h1, by rw [hsnoc, hstep], by rw [hsnoc, hstep], ?_⟩
  have h2 := (importStudios_pass1_append svc imp (pre ++ [studio]) post).idMap.Studios _ _ h1
  have h3 : (ImportStudios.pass1 svc imp (pre ++ studio :: post)).1.idMap.Studios.get studio.ID
      = some g := by simpa using h2
  exact (importStudios_pass2_advances svc _ _).idMap.Studios _ _ h3

theorem importPerformers_reuse [UnicodeCase] (svc : Service) (imp : Importer)
    (pre post : List StashPerformer) (perf : StashPerformer) (g : Nat)
    (hc : imp.ghActors.get (toLower perf.Name) = some g)
    (hm : (ImportPerformers svc imp pre).1.idMap.Actors.get perf.ID = none) :
    (ImportPerformers svc imp (pre ++ [perf])).1.idMap.Actors.get perf.ID = some g ∧
    (ImportPerformers svc imp (pre ++ [perf])).2 = (ImportPerformers svc imp pre).2.incSkipped ∧
    (ImportPerformers svc imp (pre ++ [perf])).1.gh = (ImportPerformers svc imp pre).1.gh ∧
    (ImportPerformers svc imp (pre ++ perf :: post)).1.idMap.Actors.get perf.ID = some g := by
  have hc1 := (importPerformers_advances svc imp pre).ghActors _ _ hc
  have hstep := importPerformers_step_reuse svc _ (ImportPerformers svc imp pre).2 perf g hm hc1
  have hsnoc := importPerformers_snoc svc imp pre perf
  have h1 : (ImportPerformers svc imp (pre ++ [perf])).1.idMap.Actors.get perf.ID = some g := by
    rw [hsnoc, hstep]; exact goMap_get_set_self _ _ _
  refine ⟨h1, by rw [hsnoc, hstep], by rw [hsnoc, hstep], ?_⟩
  have := (importPerformers_append svc imp (pre ++ [perf]) post).idMap.Actors _ _ h1
  simpa using this

/-- C5 (name-dedup precedence): let the caches be those `PreFetchExisting` builds
from the destination's listings, and let names be lower-cased by `strings.ToLower`
over any case tables (Go's fold every Unicode letter).  In either mode, when
`ImportTags` reaches a tag whose id is not in `idMap.Tags` and whose lower-cased
name is the lower-cased name of a listed destination tag, it records the tag's id
against the id of a listed tag of that lower-cased name, increments `Skipped`
only, and leaves the client untouched (no call, no HTTP attempt); the entry is
still there when the phase ends.  Likewise for `ImportStudios` (run after the tag
phase) and `ImportPerformers` (run after the studio phase). -/
theorem name_dedup_precedence [UnicodeCase] (svc : Service) (imp0 imp : Importer)
    (listedTags listedStudios listedActors : List GHListItem)
    (hpre : PreFetchExisting imp0 (.ok listedTags) (.ok listedStudios) (.ok listedActors)
      = .ok imp)
    (stashTags : List StashTag) (stashStudios : List StashStudio) :
    (∀ (pre post : List StashTag) (tag : StashTag),
      (∃ e ∈ listedTags, toLower e.Name = toLower tag.Name) →
      (ImportTags svc imp pre).1.idMap.Tags.get tag.ID = none →
      ∃ e ∈ listedTags, toLower e.Name = toLower tag.Name ∧
        (ImportTags svc imp (pre ++ [tag])).1.idMap.Tags.get tag.ID = some e.ID ∧
        (ImportTags svc imp (pre ++ [tag])).2 = (ImportTags svc imp pre).2.incSkipped ∧
        (ImportTags svc imp (pre ++ [tag])).1.gh = (ImportTags svc imp pre).1.gh ∧
        (ImportTags svc imp (pre ++ tag :: post)).1.idMap.Tags.get tag.ID = some e.ID) ∧
    (∀ (pre post : List StashStudio) (studio : StashStudio),
      (∃ e ∈ listedStudios, toLower e.Name = toLower studio.Name) →
      (ImportStudios.pass1 svc (ImportTags svc imp stashTags).1 pre).1.idMap.Studios.get
        studio.ID = none →
      ∃ e ∈ listedStudios, toLower e.Name = toLower studio.Name ∧
        (ImportStudios.pass1 svc (ImportTags svc imp stashTags).1
          (pre ++ [studio])).1.idMap.Studios.get studio.ID = some e.ID ∧
        (ImportStudios.pass1 svc (ImportTags svc imp stashTags).1 (pre ++ [studio])).2 =
          (ImportStudios.pass1 svc (ImportTags svc imp stashTags).1 pre).2.incSkipped ∧
        (ImportStudios.pass1 svc (ImportTags svc imp stashTags).1 (pre ++ [studio])).1.gh =
          (ImportStudios.pass1 svc (ImportTags svc imp stashTags).1 pre).1.gh ∧
        (ImportStudios svc (ImportTags svc imp stashTags).1
          (pre ++ studio :: post)).1.idMap.Studios.get studio.ID = some e.ID) ∧
    (∀ (pre post : List StashPerformer) (perf : StashPerformer),
      (∃ e ∈ listedActors, toLower e.Name = toLower perf.Name) →
      (ImportPerformers svc
        (ImportStudios svc (ImportTags svc imp stashTags).1 stashStudios).1 pre).1.idMap.Actors.get
          perf.ID = none →
      ∃ e ∈ listedActors, toLower e.Name = toLower perf.Name ∧
        (ImportPerformers svc (ImportStudios svc (ImportTags svc imp stashTags).1 stashStudios).1
          (pre ++ [perf])).1.idMap.Actors.get perf.ID = some e.ID ∧
        (ImportPerformers svc (ImportStudios svc (ImportTags svc imp stashTags).1 stashStudios).1
          (pre ++ [perf])).2 =
          (ImportPerformers svc (ImportStudios svc (ImportTags svc imp stashTags).1
            stashStudios).1 pre).2.incSkipped ∧
        (ImportPerformers svc (ImportStudios svc (ImportTags svc imp stashTags).1 stashStudios).1
          (pre ++ [perf])).1.gh =
          (ImportPerformers svc (ImportStudios svc (ImportTags svc imp stashTags).1
            stashStudios).1 pre).1.gh ∧
        (ImportPerformers svc (ImportStudios svc (ImportTags svc imp stashTags).1 stashStudios).1
          (pre ++ perf :: post)).1.idMap.Actors.get perf.ID = some e.ID) := by
  obtain ⟨hT, hS, hA, -, -, -⟩ := preFetchExisting_caches imp0 imp _ _ _ hpre
  have a1 := importTags_advances svc imp stashTags
  have a2 := advances_trans a1 (importStudios_advances svc _ stashStudios)
  refine ⟨?_, ?_, ?_⟩
  · intro pre post tag hex hm
    obtain ⟨e, he, hk, hget⟩ := indexByName_get imp0.ghTags listedTags _ hex
    rw [← hT] at hget
    exact ⟨e, he, hk, importTags_reuse svc imp pre post tag e.ID hget hm⟩
  · intro pre post studio hex hm
    obtain ⟨e, he, hk, hget⟩ := indexByName_get imp0.ghStudios listedStudios _ hex
    rw [← hS] at hget
    exact ⟨e, he, hk, importStudios_reuse svc _ pre post studio e.ID (a1.ghStudios _ _ hget) hm⟩
  · intro pre post perf hex hm
    obtain ⟨e, he, hk, hget⟩ := indexByName_get imp0.ghActors listedActors _ hex
    rw [← hA] at hget
    exact ⟨e, he, hk, importPerformers_reuse svc _ pre post perf e.ID (a2.ghActors _ _ hget) hm⟩

/-- Destination tags `Anal` (id 7) and `école` (id 8), studio `Studio A` (id 21)
and performer `JANE` (id 31) are listed.  The source tag `ÉCOLE`, reached after the
tag `anal`, the studio `STUDIO A` and the performer `Jane` are reuses: mapped to
8, 21 and 31, counted as `Skipped`, no call. -/
theorem name_dedup_precedence_witness :
    (PreFetchExisting (sampleImporter false) (.ok [⟨7, "Anal"⟩, ⟨8, "école"⟩])
        (.ok [⟨21, "Studio A"⟩]) (.ok [⟨31, "JANE"⟩])
      = .ok { sampleImporter false with
          ghTags := [("école", 8), ("anal", 7)], ghStudios := [("studio a", 21)]
          ghActors := [("jane", 31)] } ∧
      toLower "école" = toLower "ÉCOLE" ∧ toLower "Studio A" = toLower "STUDIO A" ∧
      toLower "JANE" = toLower "Jane") ∧
    ((ImportTags serviceAccepts
        { sampleImporter false with
          ghTags := [("école", 8), ("anal", 7)], ghStudios := [("studio a", 21)]
          ghActors := [("jane", 31)] }
        [⟨"t1", "anal"⟩, ⟨"t2", "ÉCOLE"⟩]).1.idMap.Tags.get "t2" = some 8 ∧
      (ImportTags serviceAccepts
        { sampleImporter false with
          ghTags := [("école", 8), ("anal", 7)], ghStudios := [("studio a", 21)]
          ghActors := [("jane", 31)] }
        [⟨"t1", "anal"⟩, ⟨"t2", "ÉCOLE"⟩]) =
        ({ sampleImporter false with
            idMap := { NewIDMap with Tags := [("t2", 8), ("t1", 7)] }
            ghTags := [("école", 8), ("anal", 7)], ghStudios := [("studio a", 21)]
            ghActors := [("jane", 31)] }, ⟨0, 2, 0⟩)) ∧
    ((ImportStudios serviceAccepts
        { sampleImporter false with
          idMap := { NewIDMap with Tags := [("t2", 8), ("t1", 7)] }
          ghTags := [("école", 8), ("anal", 7)], ghStudios := [("studio a", 21)]
          ghActors := [("jane", 31)] }
        [sampleStudio "1" "STUDIO A" none]).1.idMap.Studios.get "1" = some 21 ∧
      (ImportStudios serviceAccepts
        { sampleImporter false with
          idMap := { NewIDMap with Tags := [("t2", 8), ("t1", 7)] }
          ghTags := [("école", 8), ("anal", 7)], ghStudios := [("studio a", 21)]
          ghActors := [("jane", 31)] }
        [sampleStudio "1" "STUDIO A" none]) =
        ({ sampleImporter false with
            idMap := { NewIDMap with Tags := [("t2", 8), ("t1", 7)], Studios := [("1", 21)] }
            ghTags := [("école", 8), ("anal", 7)], ghStudios := [("studio a", 21)]
            ghActors := [("jane", 31)] }, ⟨0, 1, 0⟩)) ∧
    ((ImportPerformers serviceAccepts
        { sampleImporter false with
          idMap := { NewIDMap with Tags := [("t2", 8), ("t1", 7)], Studios := [("1", 21)] }
          ghTags := [("école", 8), ("anal", 7)], ghStudios := [("studio a", 21)]
          ghActors := [("jane", 31)] }
        [samplePerformer "p1" "Jane"]).1.idMap.Actors.get "p1" = some 31 ∧
      (ImportPerformers serviceAccepts
        { sampleImporter false with
          idMap := { NewIDMap with Tags := [("t2", 8), ("t1", 7)], Studios := [("1", 21)] }
          ghTags := [("école", 8), ("anal", 7)], ghStudios := [("studio a", 21)]
          ghActors := [("jane", 31)] }
        [samplePerformer "p1" "Jane"]) =
        ({ sampleImporter false with
            idMap := { NewIDMap with
              Tags := [("t2", 8), ("t1", 7)], Studios := [("1", 21)], Actors := [("p1", 31)] }
            ghTags := [("école", 8), ("anal", 7)], ghStudios := [("studio a", 21)]
            ghActors := [("jane", 31)] }, ⟨0, 1, 0⟩)) := by
  have hpre : PreFetchExisting (sampleImporter false) (.ok [⟨7, "Anal"⟩, ⟨8, "école"⟩])
        (.ok [⟨21, "Studio A"⟩]) (.ok [⟨31, "JANE"⟩])
      = .ok { sampleImporter false with
          ghTags := [("école", 8), ("anal", 7)], ghStudios := [("studio a", 21)]
          ghActors := [("jane", 31)] } := by decide
  have hT : ImportTags serviceAccepts
        { sampleImporter false with
          ghTags := [("école", 8), ("anal", 7)], ghStudios := [("studio a", 21)]
          ghActors := [("jane", 31)] }
        [⟨"t1", "anal"⟩, ⟨"t2", "ÉCOLE"⟩] =
        ({ sampleImporter false with
            idMap := { NewIDMap with Tags := [("t2", 8), ("t1", 7)] }
            ghTags := [("école", 8), ("anal", 7)], ghStudios := [("studio a", 21)]
            ghActors := [("jane", 31)] }, ⟨0, 2, 0⟩) := by decide
  have hS : ImportStudios serviceAccepts
        { sampleImporter false with
          idMap := { NewIDMap with Tags := [("t2", 8), ("t1", 7)] }
          ghTags := [("école", 8), ("anal", 7)], ghStudios := [("studio a", 21)]
          ghActors := [("jane", 31)] }
        [sampleStudio "1" "STUDIO A" none] =
        ({ sampleImporter false with
            idMap := { NewIDMap with Tags := [("t2", 8), ("t1", 7)], Studios := [("1", 21)] }
            ghTags := [("école", 8), ("anal", 7)], ghStudios := [("studio a", 21)]
            ghActors := [("jane", 31)] }, ⟨0, 1, 0⟩) := by decide
  have h := name_dedup_precedence serviceAccepts (sampleImporter false) _
    [⟨7, "Anal"⟩, ⟨8, "école"⟩] [⟨21, "Studio A"⟩] [⟨31, "JANE"⟩] hpre
    [⟨"t1", "anal"⟩, ⟨"t2", "ÉCOLE"⟩] [sampleStudio "1" "STUDIO A" none]
  obtain ⟨e1, he1, hk1, -, -, -, h1⟩ := h.1 [⟨"t1", "anal"⟩] [] ⟨"t2", "ÉCOLE"⟩
    ⟨⟨8, "école"⟩, by simp, by decide⟩ (by decide)
  obtain ⟨e2, he2, -, -, -, -, h2⟩ := h.2.1 [] [] (sampleStudio "1" "STUDIO A" none)
    ⟨⟨21, "Studio A"⟩, by simp, by decide⟩ (by decide)
  obtain ⟨e3, he3, -, -, -, -, h3⟩ := h.2.2 [] [] (samplePerformer "p1" "Jane")
    ⟨⟨31, "JANE"⟩, by simp, by decide⟩ (by decide)
  have g1 : e1 = ⟨8, "école"⟩ := by
    rcases List.mem_cons.mp he1 with rfl | he1
    · exact absurd hk1 (by decide)
    · simpa using he1
  have g2 : e2 = ⟨21, "Studio A"⟩ := by simpa using he2
  have g3 : e3 = ⟨31, "JANE"⟩ := by simpa using he3
  subst g1 g2 g3
  rw [hT] at h2 h3
  rw [hS] at h3
  exact ⟨⟨hpre, by decide, by decide, by decide⟩, ⟨h1, hT⟩, ⟨h2, hS⟩, ⟨h3, by decide⟩⟩

theorem foldl_calls {α β : Type} (P : Request → Prop) (f : Importer → β → α → Importer × β)
    (hf : ∀ imp acc x, ∃ t, (f imp acc x).1.gh.calls = imp.gh.calls ++ t ∧ ∀ r ∈ t, P r)
    (l : List α) (st : Importer × β) :
    ∃ t, (l.foldl (fun st x => f st.1 st.2 x) st).1.gh.calls = st.1.gh.calls ++ t ∧
      ∀ r ∈ t, P r := by
  induction l generalizing st with
  | nil => exact ⟨[], by simp⟩
  | cons x xs ih =>
    obtain ⟨t1, h1, p1⟩ := hf st.1 st.2 x
    obtain ⟨t2, h2, p2⟩ := ih (f st.1 st.2 x)
    refine ⟨t1 ++ t2, ?_, ?_⟩
    · rw [List.foldl_cons, h2, h1, List.append_assoc]
    · intro r hr
      rcases List.mem_append.mp hr with h | h
      · exact p1 r h
      · exact p2 r h

theorem importStudios_step_calls [UnicodeCase] (svc : Service) (imp : Importer) (stats : PhaseStats)
    (studio : StashStudio) :
    ∃ t, (ImportStudios.step svc imp stats studio).1.gh.calls = imp.gh.calls ++ t ∧
      ∀ r ∈ t, ∃ req, r = Request.createStudio req := by
  have hcall := clientCall_calls svc imp.gh (.createStudio (ImportStudios.request studio)) true
  have hone : ∀ r ∈ [Request.createStudio (ImportStudios.request studio)],
      ∃ req, r = Request.createStudio req := by
    intro r hr
    exact ⟨_, by simpa using hr⟩
  unfold ImportStudios.step
  split
  · exact ⟨[], by simp⟩
  · split
    · exact ⟨[], by simp⟩
    · split
      · exact ⟨[], by simp⟩
      · split
        · next gh heq =>
          have : gh.calls = imp.gh.calls ++ [.createStudio (ImportStudios.request studio)] := by
            have h2 := hcall
            unfold CreateStudio at heq
            rw [heq] at h2
            exact h2
          split <;> exact ⟨_, this, hone⟩
        · next gh heq =>
          have : gh.calls = imp.gh.calls ++ [.createStudio (ImportStudios.request studio)] := by
            have h2 := hcall
            unfold CreateStudio at heq
            rw [heq] at h2
            exact h2
          exact ⟨_, this, hone⟩

theorem importStudios_parentStep_idMap (svc : Service) (imp : Importer) (n : Nat)
    (studio : StashStudio) :
    (ImportStudios.parentStep svc imp n studio).1.idMap = imp.idMap := by
  unfold ImportStudios.parentStep
  split
  · rfl
  · split
    · rfl
    · split
      · rfl
      · split
        · rfl
        · split <;> rfl

theorem importStudios_pass2_idMap (svc : Service) (imp : Importer) (l : List StashStudio) :
    (ImportStudios.pass2 svc imp l).1.idMap = imp.idMap :=
  foldl_frame (fun i => i.idMap) _ (importStudios_parentStep_idMap svc) l _

theorem importStudios_parentStep_linked (svc : Service) (imp : Importer) (n : Nat)
    (studio : StashStudio) (parent : StashIDRef) (b a : Nat)
    (hdry : imp.cfg.DryRun = false) (hp : studio.ParentStudio = some parent)
    (hb : imp.idMap.Studios.get studio.ID = some b)
    (ha : imp.idMap.Studios.get parent.ID = some a) :
    (ImportStudios.parentStep svc imp n studio).1.gh.calls =
      imp.gh.calls ++ [.updateStudio b { ParentID := some a }] := by
  have hcall := clientCall_calls svc imp.gh (.updateStudio b { ParentID := some a }) false
  unfold ImportStudios.parentStep
  simp only [hp, hb, ha, hdry, Bool.false_eq_true, ↓reduceIte]
  unfold UpdateStudio
  split
  · next heq => rw [heq] at hcall; exact hcall
  · next heq => rw [heq] at hcall; exact hcall

theorem importStudios_parentStep_orphan (svc : Service) (imp : Importer) (n : Nat)
    (studio : StashStudio) (hp : studio.ParentStudio = none) :
    ImportStudios.parentStep svc imp n studio = (imp, n) := by
  simp [ImportStudios.parentStep, hp]

theorem importStudios_pass2_snoc (svc : Service) (imp : Importer) (pre : List StashStudio)
    (studio : StashStudio) :
    ImportStudios.pass2 svc imp (pre ++ [studio]) =
      ImportStudios.parentStep svc (ImportStudios.pass2 svc imp pre).1
        (ImportStudios.pass2 svc imp pre).2 studio := by
  simp [ImportStudios.pass2, List.foldl_append]

/-- C10 (parent linking): in a non-simulation run over the inventory
`pre ++ B :: post` (so `B` stands anywhere with respect to its parent), the first
pass makes only create-studio calls; if `B` refers to a parent `A` and after the
first pass `idMap.Studios` holds `b` for `B.ID` and `a` for `A.ID`, then when the
second pass processes `B` it makes exactly one call, `UpdateStudio(b, ParentID = a)`;
if `B` has no parent reference, processing it changes nothing (no call); and the
phase ends by processing `post` from there. -/
theorem parent_linking [UnicodeCase] (svc : Service) (imp : Importer) (pre post : List StashStudio)
    (B : StashStudio) (hdry : imp.cfg.DryRun = false) :
    (∃ created, (ImportStudios.pass1 svc imp (pre ++ B :: post)).1.gh.calls =
        imp.gh.calls ++ created ∧ ∀ r ∈ created, ∃ req, r = Request.createStudio req) ∧
    (∀ (A : StashIDRef) (b a : Nat), B.ParentStudio = some A →
      (ImportStudios.pass1 svc imp (pre ++ B :: post)).1.idMap.Studios.get B.ID = some b →
      (ImportStudios.pass1 svc imp (pre ++ B :: post)).1.idMap.Studios.get A.ID = some a →
      (ImportStudios.pass2 svc (ImportStudios.pass1 svc imp (pre ++ B :: post)).1
          (pre ++ [B])).1.gh.calls =
        (ImportStudios.pass2 svc (ImportStudios.pass1 svc imp (pre ++ B :: post)).1
          pre).1.gh.calls ++ [.updateStudio b { ParentID := some a }]) ∧
    (B.ParentStudio = none →
      (ImportStudios.pass2 svc (ImportStudios.pass1 svc imp (pre ++ B :: post)).1
          (pre ++ [B])).1 =
        (ImportStudios.pass2 svc (ImportStudios.pass1 svc imp (pre ++ B :: post)).1 pre).1) ∧
    (ImportStudios svc imp (pre ++ B :: post)).1 =
      (post.foldl (fun st studio => ImportStudios.parentStep svc st.1 st.2 studio)
        (ImportStudios.pass2 svc (ImportStudios.pass1 svc imp (pre ++ B :: post)).1
          (pre ++ [B]))).1 := by
  refine ⟨?_, ?_, ?_, ?_⟩
  · exact foldl_calls _ _ (importStudios_step_calls svc) _ (imp, ⟨0, 0, 0⟩)
  · intro A b a hp hb ha
    have a1 := importStudios_pass1_advances svc imp (pre ++ B :: post)
    have a2 := importStudios_pass2_advances svc
      (ImportStudios.pass1 svc imp (pre ++ B :: post)).1 pre
    have hid := importStudios_pass2_idMap svc
      (ImportStudios.pass1 svc imp (pre ++ B :: post)).1 pre
    rw [importStudios_pass2_snoc]
    apply importStudios_parentStep_linked svc _ _ B A b a
    · rw [a2.cfg, a1.cfg]; exact hdry
    · exact hp
    · rw [hid]; exact hb
    · rw [hid]; exact ha
  · intro hp
    rw [importStudios_pass2_snoc, importStudios_parentStep_orphan _ _ _ _ hp]
  · simp [ImportStudios, ImportStudios.pass2, List.foldl_append]

/-- Studio A (id 1, no parent) and studio B (id 2, parent A), both created (as
10 and 11): one update call, for 11 with parent 10, in either inventory order. -/
theorem parent_linking_witness :
    ((sampleImporter false).cfg.DryRun = false ∧
      (sampleStudio "2" "Studio B" (some ⟨"1"⟩)).ParentStudio = some ⟨"1"⟩) ∧
    (ImportStudios.pass2 serviceAccepts
        (ImportStudios.pass1 serviceAccepts (sampleImporter false)
          [sampleStudio "1" "Studio A" none, sampleStudio "2" "Studio B" (some ⟨"1"⟩)]).1
        [sampleStudio "1" "Studio A" none, sampleStudio "2" "Studio B" (some ⟨"1"⟩)]).1.gh.calls =
      (ImportStudios.pass2 serviceAccepts
        (ImportStudios.pass1 serviceAccepts (sampleImporter false)
          [sampleStudio "1" "Studio A" none, sampleStudio "2" "Studio B" (some ⟨"1"⟩)]).1
        [sampleStudio "1" "Studio A" none]).1.gh.calls ++
        [.updateStudio 11 { ParentID := some 10 }] ∧
    (ImportStudios serviceAccepts (sampleImporter false)
        [sampleStudio "1" "Studio A" none, sampleStudio "2" "Studio B" (some ⟨"1"⟩)]).1.gh.calls =
      [.createStudio (ImportStudios.request (sampleStudio "1" "Studio A" none)),
        .createStudio (ImportStudios.request (sampleStudio "2" "Studio B" (some ⟨"1"⟩))),
        .updateStudio 11 { ParentID := some 10 }] ∧
    (ImportStudios serviceAccepts (sampleImporter false)
        [sampleStudio "2" "Studio B" (some ⟨"1"⟩), sampleStudio "1" "Studio A" none]).1.gh.calls =
      [.createStudio (ImportStudios.request (sampleStudio "2" "Studio B" (some ⟨"1"⟩))),
        .createStudio (ImportStudios.request (sampleStudio "1" "Studio A" none)),
        .updateStudio 10 { ParentID := some 11 }] :=
  ⟨⟨rfl, rfl⟩,
    (parent_linking serviceAccepts (sampleImporter false) [sampleStudio "1" "Studio A" none] []
      (sampleStudio "2" "Studio B" (some ⟨"1"⟩)) rfl).2.1 ⟨"1"⟩ 11 10 rfl (by decide) (by decide),
    by decide, by decide⟩

theorem importTags_step_errors [UnicodeCase] (svc : Service) (imp : Importer) (stats : PhaseStats)
    (tag : StashTag) : stats.Errors ≤ (ImportTags.step svc imp stats tag).2.Errors := by
  unfold ImportTags.step
  repeat' split
  all_goals simp [PhaseStats.incSkipped, PhaseStats.incCreated, PhaseStats.incErrors]

theorem importStudios_step_errors [UnicodeCase] (svc : Service) (imp : Importer) (stats : PhaseStats)
    (studio : StashStudio) : stats.Errors ≤ (ImportStudios.step svc imp stats studio).2.Errors := by
  unfold ImportStudios.step
  repeat' split
  all_goals simp [PhaseStats.incSkipped, PhaseStats.incCreated, PhaseStats.incErrors]

theorem importPerformers_step_errors [UnicodeCase] (svc : Service) (imp : Importer) (stats : PhaseStats)
    (perf : StashPerformer) :
    stats.Errors ≤ (ImportPerformers.step svc imp stats perf).2.Errors := by
  unfold ImportPerformers.step
  repeat' split
  all_goals simp [PhaseStats.incSkipped, PhaseStats.incCreated, PhaseStats.incErrors]

theorem importScenes_step_errors (svc : Service) (imp : Importer) (stats : PhaseStats)
    (scene : StashScene) : stats.Errors ≤ (ImportScenes.step svc imp stats scene).2.Errors := by
  unfold ImportScenes.step
  repeat' split
  all_goals simp [PhaseStats.incSkipped, PhaseStats.incCreated, PhaseStats.incErrors]

theorem importMarkers_markerStep_errors (svc : Service) (g : Nat) (imp : Importer)
    (stats : PhaseStats) (marker : StashMarker) :
    stats.Errors ≤ (ImportMarkers.markerStep svc g imp stats marker).2.Errors := by
  unfold ImportMarkers.markerStep
  repeat' split
  all_goals first
    | (simp [PhaseStats.incSkipped, PhaseStats.incCreated, PhaseStats.incErrors]; done)
    | (simp only []; split <;> simp [PhaseStats.incCreated])

theorem foldl_errors_mono {α : Type} (f : Importer → PhaseStats → α → Importer × PhaseStats)
    (hmono : ∀ imp stats x, stats.Errors ≤ (f imp stats x).2.Errors) (l : List α)
    (st : Importer × PhaseStats) :
    st.2.Errors ≤ (l.foldl (fun st x => f st.1 st.2 x) st).2.Errors := by
  induction l generalizing st with
  | nil => exact Nat.le_refl _
  | cons x xs ih => exact Nat.le_trans (hmono st.1 st.2 x) (ih _)

theorem importMarkers_step_errors (svc : Service) (imp : Importer) (stats : PhaseStats)
    (scene : StashScene) : stats.Errors ≤ (ImportMarkers.step svc imp stats scene).2.Errors := by
  unfold ImportMarkers.step
  split
  · exact Nat.le_refl _
  · exact foldl_errors_mono _ (importMarkers_markerStep_errors svc _) _ (imp, stats)

theorem foldl_clean {α : Type} (f : Importer → PhaseStats → α → Importer × PhaseStats)
    (Pre M : Importer → α → Prop)
    (hadv : ∀ imp stats x, Advances imp (f imp stats x).1)
    (hmono : ∀ imp stats x, stats.Errors ≤ (f imp stats x).2.Errors)
    (hPre : ∀ a b y, Advances a b → Pre a y → Pre b y)
    (hM : ∀ a b y, Advances a b → M a y → M b y)
    (hstep : ∀ imp stats x, imp.cfg.DryRun = false → Pre imp x →
      (f imp stats x).2.Errors = stats.Errors → M (f imp stats x).1 x)
    (l : List α) (st : Importer × PhaseStats) (hdry : st.1.cfg.DryRun = false)
    (hpre : ∀ x ∈ l, Pre st.1 x)
    (h : (l.foldl (fun st x => f st.1 st.2 x) st).2.Errors = st.2.Errors) :
    ∀ x ∈ l, M (l.foldl (fun st x => f st.1 st.2 x) st).1 x := by
  induction l generalizing st with
  | nil => intro x hx; cases hx
  | cons x xs ih =>
    have h1 := hmono st.1 st.2 x
    have h2 := foldl_errors_mono f hmono xs (f st.1 st.2 x)
    rw [List.foldl_cons] at h
    have e1 : (f st.1 st.2 x).2.Errors = st.2.Errors := by omega
    have e2 : (xs.foldl (fun st x => f st.1 st.2 x) (f st.1 st.2 x)).2.Errors
        = (f st.1 st.2 x).2.Errors := by omega
    have adv := hadv st.1 st.2 x
    have hdry1 : (f st.1 st.2 x).1.cfg.DryRun = false := by rw [adv.cfg]; exact hdry
    have hrest := ih (f st.1 st.2 x) hdry1
      (fun y hy => hPre _ _ y adv (hpre y (List.mem_cons_of_mem _ hy))) e2
    intro y hy
    rw [List.foldl_cons]
    rcases List.mem_cons.mp hy with rfl | hy
    · exact hM _ _ _ (foldl_advances f hadv xs _)
        (hstep st.1 st.2 y hdry (hpre y (List.mem_cons_self _ _)) e1)
    · exact hrest y hy

theorem foldl_all_skipped {α : Type} (f : Importer → PhaseStats → α → Importer × PhaseStats)
    (M : Importer → α → Prop) (w : α → Nat)
    (hskip : ∀ imp stats x, M imp x →
      f imp stats x = (imp, { stats with Skipped := stats.Skipped + w x }))
    (l : List α) (st : Importer × PhaseStats) (h : ∀ x ∈ l, M st.1 x) :
    l.foldl (fun st x => f st.1 st.2 x) st =
      (st.1, { st.2 with Skipped := st.2.Skipped + (l.map w).sum }) := by
  induction l generalizing st with
  | nil => simp
  | cons x xs ih =>
    rw [List.foldl_cons, hskip st.1 st.2 x (h x (List.mem_cons_self _ _))]
    have hih := ih (st.1, { st.2 with Skipped := st.2.Skipped + w x })
      (fun y hy => h y (List.mem_cons_of_mem _ hy))
    rw [hih]
    simp [Nat.add_assoc]

theorem goMap_sub_isSome {a b : GoMap} (h : a.Sub b) (k : String)
    (hk : (a.get k).isSome = true) : (b.get k).isSome = true := by
  obtain ⟨v, hv⟩ := Option.isSome_iff_exists.mp hk
  rw [h k v hv]; rfl

theorem importTags_step_clean [UnicodeCase] (svc : Service) (imp : Importer) (stats : PhaseStats)
    (tag : StashTag) (hnc : svc.NoConflict) (hdry : imp.cfg.DryRun = false)
    (h : (ImportTags.step svc imp stats tag).2.Errors = stats.Errors) :
    ((ImportTags.step svc imp stats tag).1.idMap.Tags.get tag.ID).isSome = true := by
  unfold ImportTags.step at h ⊢
  split
  · next heq => simp [heq]
  · next h1 =>
    simp only [h1] at h
    split
    · simp [goMap_get_set_self]
    · next h2 =>
      simp only [h2] at h
      rw [if_neg (by simp [hdry])] at h ⊢
      split
      · next err gh heq =>
        have hc := clientCall_isConflict_false svc _ _ _ _ hnc _ heq
        simp [heq, hc, PhaseStats.incErrors] at h
      · simp [goMap_get_set_self]

theorem importStudios_step_clean [UnicodeCase] (svc : Service) (imp : Importer) (stats : PhaseStats)
    (studio : StashStudio) (hnc : svc.NoConflict) (hdry : imp.cfg.DryRun = false)
    (h : (ImportStudios.step svc imp stats studio).2.Errors = stats.Errors) :
    ((ImportStudios.step svc imp stats studio).1.idMap.Studios.get studio.ID).isSome = true := by
  unfold ImportStudios.step at h ⊢
  split
  · next heq => simp [heq]
  · next h1 =>
    simp only [h1] at h
    split
    · simp [goMap_get_set_self]
    · next h2 =>
      simp only [h2] at h
      rw [if_neg (by simp [hdry])] at h ⊢
      split
      · next err gh heq =>
        have hc := clientCall_isConflict_false svc _ _ _ _ hnc _ heq
        simp [heq, hc, PhaseStats.incErrors] at h
      · simp [goMap_get_set_self]

theorem importPerformers_step_clean [UnicodeCase] (svc : Service) (imp : Importer) (stats : PhaseStats)
    (perf : StashPerformer) (hnc : svc.NoConflict) (hdry : imp.cfg.DryRun = false)
    (h : (ImportPerformers.step svc imp stats perf).2.Errors = stats.Errors) :
    ((ImportPerformers.step svc imp stats perf).1.idMap.Actors.get perf.ID).isSome = true := by
  unfold ImportPerformers.step at h ⊢
  split
  · next heq => simp [heq]
  · next h1 =>
    simp only [h1] at h
    split
    · simp [goMap_get_set_self]
    · next h2 =>
      simp only [h2] at h
      rw [if_neg (by simp [hdry])] at h ⊢
      split
      · next err gh heq =>
        have hc := clientCall_isConflict_false svc _ _ _ _ hnc _ heq
        simp [heq, hc, PhaseStats.incErrors] at h
      · simp [goMap_get_set_self]

theorem importMarkers_markerStep_clean (svc : Service) (g : Nat) (imp : Importer)
    (stats : PhaseStats) (marker : StashMarker) (hnc : svc.NoConflict) (hdry : imp.cfg.DryRun = false)
    (h : (ImportMarkers.markerStep svc g imp stats marker).2.Errors = stats.Errors) :
    ((ImportMarkers.markerStep svc g imp stats marker).1.idMap.Markers.get marker.ID).isSome
      = true := by
  unfold ImportMarkers.markerStep at h ⊢
  split
  · next heq => simp [heq]
  · next h1 =>
    simp only [h1] at h
    rw [if_neg (by simp [hdry])] at h ⊢
    split
    · next err gh heq =>
      have hc := clientCall_isConflict_false svc _ _ _ _ hnc _ heq
      simp [heq, hc, PhaseStats.incErrors] at h
    · simp only
      split <;> simp [goMap_get_set_self]

theorem importScenes_step_clean (svc : Service) (imp : Importer) (stats : PhaseStats)
    (scene : StashScene) (hnc : svc.NoConflict) (hdry : imp.cfg.DryRun = false)
    (h : (ImportScenes.step svc imp stats scene).2.Errors = stats.Errors) :
    ((ImportScenes.step svc imp stats scene).1.idMap.Scenes.get scene.ID).isSome = true := by
  unfold ImportScenes.step at h ⊢
  split
  · next heq => simp [heq]
  · next h1 =>
    simp only [h1] at h
    split
    · next hf => simp [hf, PhaseStats.incErrors] at h
    · next file rest hf =>
      simp only [hf] at h
      split
      · next hmp => simp [hmp, PhaseStats.incErrors] at h
      · next mapped hmp =>
        simp only [hmp] at h
        rw [if_neg (by simp [hdry])] at h ⊢
        split
        · next k gh heq =>
          have := clientCall_isConflict_false svc _ _ _ _ hnc _ heq
          simp [isConflict] at this
        · next err gh hne heq =>
          rw [heq] at h
          cases err <;> first
            | exact absurd rfl (hne _)
            | simp [PhaseStats.incErrors] at h
        · next id gh heq =>
          have hadv := importScenes_associate_advances svc
            { imp with
              gh := gh
              idMap := { imp.idMap with Scenes := imp.idMap.Scenes.set scene.ID id } }
            scene id hdry
          exact goMap_sub_isSome hadv.idMap.Scenes _ (by simp [goMap_get_set_self])

theorem importTags_clean [UnicodeCase] (svc : Service) (imp : Importer) (l : List StashTag)
    (hnc : svc.NoConflict) (hdry : imp.cfg.DryRun = false) (h : (ImportTags svc imp l).2.Errors = 0) :
    ∀ t ∈ l, ((ImportTags svc imp l).1.idMap.Tags.get t.ID).isSome = true :=
  foldl_clean (ImportTags.step svc) (fun _ _ => True)
    (fun i t => (i.idMap.Tags.get t.ID).isSome = true)
    (importTags_step_advances svc) (importTags_step_errors svc) (fun _ _ _ _ _ => trivial)
    (fun _ _ y adv hy => goMap_sub_isSome adv.idMap.Tags y.ID hy)
    (fun i s x hd _ he => importTags_step_clean svc i s x hnc hd he)
    l (imp, ⟨0, 0, 0⟩) hdry (fun _ _ => trivial) h

theorem importStudios_pass1_clean [UnicodeCase] (svc : Service) (imp : Importer) (l : List StashStudio)
    (hnc : svc.NoConflict) (hdry : imp.cfg.DryRun = false) (h : (ImportStudios.pass1 svc imp l).2.Errors = 0) :
    ∀ t ∈ l, ((ImportStudios.pass1 svc imp l).1.idMap.Studios.get t.ID).isSome = true :=
  foldl_clean (ImportStudios.step svc) (fun _ _ => True)
    (fun i t => (i.idMap.Studios.get t.ID).isSome = true)
    (importStudios_step_advances svc) (importStudios_step_errors svc) (fun _ _ _ _ _ => trivial)
    (fun _ _ y adv hy => goMap_sub_isSome adv.idMap.Studios y.ID hy)
    (fun i s x hd _ he => importStudios_step_clean svc i s x hnc hd he)
    l (imp, ⟨0, 0, 0⟩) hdry (fun _ _ => trivial) h

theorem importPerformers_clean [UnicodeCase] (svc : Service) (imp : Importer) (l : List StashPerformer)
    (hnc : svc.NoConflict) (hdry : imp.cfg.DryRun = false) (h : (ImportPerformers svc imp l).2.Errors = 0) :
    ∀ t ∈ l, ((ImportPerformers svc imp l).1.idMap.Actors.get t.ID).isSome = true :=
  foldl_clean (ImportPerformers.step svc) (fun _ _ => True)
    (fun i t => (i.idMap.Actors.get t.ID).isSome = true)
    (importPerformers_step_advances svc) (importPerformers_step_errors svc)
    (fun _ _ _ _ _ => trivial)
    (fun _ _ y adv hy => goMap_sub_isSome adv.idMap.Actors y.ID hy)
    (fun i s x hd _ he => importPerformers_step_clean svc i s x hnc hd he)
    l (imp, ⟨0, 0, 0⟩) hdry (fun _ _ => trivial) h

theorem importScenes_clean (svc : Service) (imp : Importer) (l : List StashScene)
    (hnc : svc.NoConflict) (hdry : imp.cfg.DryRun = false) (h : (ImportScenes svc imp l).2.Errors = 0) :
    ∀ t ∈ l, ((ImportScenes svc imp l).1.idMap.Scenes.get t.ID).isSome = true :=
  foldl_clean (ImportScenes.step svc) (fun _ _ => True)
    (fun i t => (i.idMap.Scenes.get t.ID).isSome = true)
    (importScenes_step_advances svc) (importScenes_step_errors svc) (fun _ _ _ _ _ => trivial)
    (fun _ _ y adv hy => goMap_sub_isSome adv.idMap.Scenes y.ID hy)
    (fun i s x hd _ he => importScenes_step_clean svc i s x hnc hd he)
    l (imp, ⟨0, 0, 0⟩) hdry (fun _ _ => trivial) h

theorem importMarkers_step_clean (svc : Service) (imp : Importer) (stats : PhaseStats)
    (scene : StashScene) (hnc : svc.NoConflict) (hdry : imp.cfg.DryRun = false)
    (hs : (imp.idMap.Scenes.get scene.ID).isSome = true)
    (h : (ImportMarkers.step svc imp stats scene).2.Errors = stats.Errors) :
    ∀ m ∈ scene.SceneMarkers,
      ((ImportMarkers.step svc imp stats scene).1.idMap.Markers.get m.ID).isSome = true := by
  obtain ⟨g, hg⟩ := Option.isSome_iff_exists.mp hs
  have hstep : ImportMarkers.step svc imp stats scene =
      scene.SceneMarkers.foldl
        (fun st marker => ImportMarkers.markerStep svc g st.1 st.2 marker) (imp, stats) := by
    simp [ImportMarkers.step, hg]
  rw [hstep] at h ⊢
  exact foldl_clean (ImportMarkers.markerStep svc g) (fun _ _ => True)
    (fun i m => (i.idMap.Markers.get m.ID).isSome = true)
    (importMarkers_markerStep_advances svc g) (importMarkers_markerStep_errors svc g)
    (fun _ _ _ _ _ => trivial)
    (fun _ _ y adv hy => goMap_sub_isSome adv.idMap.Markers y.ID hy)
    (fun i s x hd _ he => importMarkers_markerStep_clean svc g i s x hnc hd he)
    scene.SceneMarkers (imp, stats) hdry (fun _ _ => trivial) h

theorem importMarkers_clean (svc : Service) (imp : Importer) (l : List StashScene)
    (hnc : svc.NoConflict) (hdry : imp.cfg.DryRun = false)
    (hs : ∀ sc ∈ l, (imp.idMap.Scenes.get sc.ID).isSome = true)
    (h : (ImportMarkers svc imp l).2.Errors = 0) :
    ∀ sc ∈ l, ∀ m ∈ sc.SceneMarkers,
      ((ImportMarkers svc imp l).1.idMap.Markers.get m.ID).isSome = true :=
  foldl_clean (ImportMarkers.step svc)
    (fun i sc => (i.idMap.Scenes.get sc.ID).isSome = true)
    (fun i sc => ∀ m ∈ sc.SceneMarkers, (i.idMap.Markers.get m.ID).isSome = true)
    (importMarkers_step_advances svc) (importMarkers_step_errors svc)
    (fun _ _ y adv hy => goMap_sub_isSome adv.idMap.Scenes y.ID hy)
    (fun _ _ _ adv hy m hm => goMap_sub_isSome adv.idMap.Markers m.ID (hy m hm))
    (fun i s x hd hp he => importMarkers_step_clean svc i s x hnc hd hp he)
    l (imp, ⟨0, 0, 0⟩) hdry hs h

theorem importTags_all_mapped [UnicodeCase] (svc : Service) (imp : Importer) (l : List StashTag)
    (h : ∀ t ∈ l, (imp.idMap.Tags.get t.ID).isSome = true) :
    ImportTags svc imp l = (imp, ⟨0, l.length, 0⟩) := by
  have := foldl_all_skipped (ImportTags.step svc)
    (fun i t => (i.idMap.Tags.get t.ID).isSome = true) (fun _ => 1)
    (fun i s x hx => by
      obtain ⟨v, hv⟩ := Option.isSome_iff_exists.mp hx
      simp [ImportTags.step, hv, PhaseStats.incSkipped])
    l (imp, ⟨0, 0, 0⟩) h
  simpa [ImportTags] using this

theorem importStudios_pass1_all_mapped [UnicodeCase] (svc : Service) (imp : Importer) (l : List StashStudio)
    (h : ∀ t ∈ l, (imp.idMap.Studios.get t.ID).isSome = true) :
    ImportStudios.pass1 svc imp l = (imp, ⟨0, l.length, 0⟩) := by
  have := foldl_all_skipped (ImportStudios.step svc)
    (fun i t => (i.idMap.Studios.get t.ID).isSome = true) (fun _ => 1)
    (fun i s x hx => by
      obtain ⟨v, hv⟩ := Option.isSome_iff_exists.mp hx
      simp [ImportStudios.step, hv, PhaseStats.incSkipped])
    l (imp, ⟨0, 0, 0⟩) h
  simpa [ImportStudios.pass1] using this

theorem importPerformers_all_mapped [UnicodeCase] (svc : Service) (imp : Importer) (l : List StashPerformer)
    (h : ∀ t ∈ l, (imp.idMap.Actors.get t.ID).isSome = true) :
    ImportPerformers svc imp l = (imp, ⟨0, l.length, 0⟩) := by
  have := foldl_all_skipped (ImportPerformers.step svc)
    (fun i t => (i.idMap.Actors.get t.ID).isSome = true) (fun _ => 1)
    (fun i s x hx => by
      obtain ⟨v, hv⟩ := Option.isSome_iff_exists.mp hx
      simp [ImportPerformers.step, hv, PhaseStats.incSkipped])
    l (imp, ⟨0, 0, 0⟩) h
  simpa [ImportPerformers] using this

theorem importScenes_all_mapped (svc : Service) (imp : Importer) (l : List StashScene)
    (h : ∀ t ∈ l, (imp.idMap.Scenes.get t.ID).isSome = true) :
    ImportScenes svc imp l = (imp, ⟨0, l.length, 0⟩) := by
  have := foldl_all_skipped (ImportScenes.step svc)
    (fun i t => (i.idMap.Scenes.get t.ID).isSome = true) (fun _ => 1)
    (fun i s x hx => by
      obtain ⟨v, hv⟩ := Option.isSome_iff_exists.mp hx
      simp [ImportScenes.step, hv, PhaseStats.incSkipped])
    l (imp, ⟨0, 0, 0⟩) h
  simpa [ImportScenes] using this

theorem importMarkers_all_mapped (svc : Service) (imp : Importer) (l : List StashScene)
    (hs : ∀ sc ∈ l, (imp.idMap.Scenes.get sc.ID).isSome = true)
    (hm : ∀ sc ∈ l, ∀ m ∈ sc.SceneMarkers, (imp.idMap.Markers.get m.ID).isSome = true) :
    ImportMarkers svc imp l = (imp, ⟨0, (l.map (fun sc => sc.SceneMarkers.length)).sum, 0⟩) := by
  have := foldl_all_skipped (ImportMarkers.step svc)
    (fun i sc => (i.idMap.Scenes.get sc.ID).isSome = true ∧
      ∀ m ∈ sc.SceneMarkers, (i.idMap.Markers.get m.ID).isSome = true)
    (fun sc => sc.SceneMarkers.length)
    (fun i s x hx => by
      obtain ⟨g, hg⟩ := Option.isSome_iff_exists.mp hx.1
      have hin := foldl_all_skipped (ImportMarkers.markerStep svc g)
        (fun i m => (i.idMap.Markers.get m.ID).isSome = true) (fun _ => 1)
        (fun i s m hm => by
          obtain ⟨v, hv⟩ := Option.isSome_iff_exists.mp hm
          simp [ImportMarkers.markerStep, hv, PhaseStats.incSkipped])
        x.SceneMarkers (i, s) hx.2
      simp only [ImportMarkers.step, hg]
      rw [hin]
      simp)
    l (imp, ⟨0, 0, 0⟩) (fun sc hsc => ⟨hs sc hsc, hm sc hsc⟩)
  simpa [ImportMarkers] using this

theorem importStudios_all_mapped [UnicodeCase] (svc : Service) (imp : Importer) (l : List StashStudio)
    (h : ∀ t ∈ l, (imp.idMap.Studios.get t.ID).isSome = true) :
    (ImportStudios svc imp l).2 = ⟨0, l.length, 0⟩ ∧
    (ImportStudios svc imp l).1.idMap = imp.idMap := by
  have h1 := importStudios_pass1_all_mapped svc imp l h
  constructor
  · simp [ImportStudios, h1]
  · simp only [ImportStudios, h1]
    exact importStudios_pass2_idMap svc imp l

theorem runPhases_cfg [UnicodeCase] (svc : Service) (fault : WriteFault) (imp : Importer)
    (file : MapFile) (inv : Inventory) : (runPhases svc fault imp file inv).imp.cfg = imp.cfg := by
  simp only [runPhases]
  rw [(importMarkers_advances svc _ _).cfg, (importScenes_advances svc _ _).cfg,
    (importPerformers_advances svc _ _).cfg, (importStudios_advances svc _ _).cfg,
    (importTags_advances svc _ _).cfg]

theorem runPhases_clean_maps [UnicodeCase] (svc : Service) (fault : WriteFault) (imp : Importer)
    (file : MapFile) (inv : Inventory) (hnc : svc.NoConflict)
    (hdry : imp.cfg.DryRun = false)
    (hclean : (runPhases svc fault imp file inv).totalErrors = 0) :
    (∀ t ∈ inv.stashTags,
      ((runPhases svc fault imp file inv).imp.idMap.Tags.get t.ID).isSome = true) ∧
    (∀ t ∈ inv.stashStudios,
      ((runPhases svc fault imp file inv).imp.idMap.Studios.get t.ID).isSome = true) ∧
    (∀ t ∈ inv.stashPerformers,
      ((runPhases svc fault imp file inv).imp.idMap.Actors.get t.ID).isSome = true) ∧
    (∀ t ∈ inv.stashScenes,
      ((runPhases svc fault imp file inv).imp.idMap.Scenes.get t.ID).isSome = true) ∧
    (∀ sc ∈ inv.stashScenes, ∀ m ∈ sc.SceneMarkers,
      ((runPhases svc fault imp file inv).imp.idMap.Markers.get m.ID).isSome = true) := by
  simp only [RunResult.totalErrors, runPhases] at hclean
  simp only [runPhases]
  have aT := importTags_advances svc imp inv.stashTags
  have aS1 := importStudios_pass1_advances svc (ImportTags svc imp inv.stashTags).1
    inv.stashStudios
  have aS2 := importStudios_pass2_advances svc
    (ImportStudios.pass1 svc (ImportTags svc imp inv.stashTags).1 inv.stashStudios).1
    inv.stashStudios
  have aS := importStudios_advances svc (ImportTags svc imp inv.stashTags).1 inv.stashStudios
  have aA := importPerformers_advances svc
    (ImportStudios svc (ImportTags svc imp inv.stashTags).1 inv.stashStudios).1
    inv.stashPerformers
  have aSc := importScenes_advances svc
    (ImportPerformers svc
      (ImportStudios svc (ImportTags svc imp inv.stashTags).1 inv.stashStudios).1
      inv.stashPerformers).1 inv.stashScenes
  have aM := importMarkers_advances svc
    (ImportScenes svc (ImportPerformers svc
      (ImportStudios svc (ImportTags svc imp inv.stashTags).1 inv.stashStudios).1
      inv.stashPerformers).1 inv.stashScenes).1 inv.stashScenes
  have dT : (ImportTags svc imp inv.stashTags).1.cfg.DryRun = false := by rw [aT.cfg]; exact hdry
  have dS : (ImportStudios svc (ImportTags svc imp inv.stashTags).1
      inv.stashStudios).1.cfg.DryRun = false := by rw [aS.cfg]; exact dT
  have dA : (ImportPerformers svc
      (ImportStudios svc (ImportTags svc imp inv.stashTags).1 inv.stashStudios).1
      inv.stashPerformers).1.cfg.DryRun = false := by rw [aA.cfg]; exact dS
  have dSc : (ImportScenes svc (ImportPerformers svc
      (ImportStudios svc (ImportTags svc imp inv.stashTags).1 inv.stashStudios).1
      inv.stashPerformers).1 inv.stashScenes).1.cfg.DryRun = false := by rw [aSc.cfg]; exact dA
  have eT : (ImportTags svc imp inv.stashTags).2.Errors = 0 := by omega
  have eS : (ImportStudios.pass1 svc (ImportTags svc imp inv.stashTags).1
      inv.stashStudios).2.Errors = 0 := by
    have : (ImportStudios svc (ImportTags svc imp inv.stashTags).1 inv.stashStudios).2.Errors
        = 0 := by omega
    exact this
  have eA : (ImportPerformers svc
      (ImportStudios svc (ImportTags svc imp inv.stashTags).1 inv.stashStudios).1
      inv.stashPerformers).2.Errors = 0 := by omega
  have eSc : (ImportScenes svc (ImportPerformers svc
      (ImportStudios svc (ImportTags svc imp inv.stashTags).1 inv.stashStudios).1
      inv.stashPerformers).1 inv.stashScenes).2.Errors = 0 := by omega
  have eM : (ImportMarkers svc (ImportScenes svc (ImportPerformers svc
      (ImportStudios svc (ImportTags svc imp inv.stashTags).1 inv.stashStudios).1
      inv.stashPerformers).1 inv.stashScenes).1 inv.stashScenes).2.Errors = 0 := by omega
  have mSc := importScenes_clean svc _ inv.stashScenes hnc dA eSc
  refine ⟨?_, ?_, ?_, ?_, ?_⟩
  · intro t ht
    exact goMap_sub_isSome
      (advances_trans aS (advances_trans aA (advances_trans aSc aM))).idMap.Tags _
      (importTags_clean svc imp inv.stashTags hnc hdry eT t ht)
  · intro t ht
    exact goMap_sub_isSome
      (advances_trans aS2 (advances_trans aA (advances_trans aSc aM))).idMap.Studios _
      (importStudios_pass1_clean svc _ inv.stashStudios hnc dT eS t ht)
  · intro t ht
    exact goMap_sub_isSome (advances_trans aSc aM).idMap.Actors _
      (importPerformers_clean svc _ inv.stashPerformers hnc dS eA t ht)
  · intro t ht
    exact goMap_sub_isSome aM.idMap.Scenes _ (mSc t ht)
  · exact importMarkers_clean svc _ inv.stashScenes hnc dSc mSc eM

/-- C3, as amended (idempotence after a clean run without conflicts): for every
inventory and every behaviour of the destination service and of the file system in
either run, if the destination of the first run is one that answers no request
with 409 Conflict and the first run, not simulated, reports `Errors` in no phase,
then a second run over
the same inventory that starts from the map the first run left (with whatever
caches, mode and client) reports, in every phase, `Created = 0`, `Errors = 0` and
`Skipped` equal to the number of entities of that phase; and when no write of the
first run fails, the map it left is the one its last checkpoint saved in the file. -/
theorem second_run_all_skipped [UnicodeCase] (svc1 svc2 : Service) (fault1 fault2 : WriteFault)
    (imp1 imp2 : Importer) (file1 file2 : MapFile) (inv : Inventory)
    (hdry : imp1.cfg.DryRun = false)
    (hnc : svc1.NoConflict)
    (hclean : (runPhases svc1 fault1 imp1 file1 inv).totalErrors = 0)
    (hmap : imp2.idMap = (runPhases svc1 fault1 imp1 file1 inv).imp.idMap) :
    ((runPhases svc2 fault2 imp2 file2 inv).tagStats = ⟨0, inv.stashTags.length, 0⟩ ∧
      (runPhases svc2 fault2 imp2 file2 inv).studioStats = ⟨0, inv.stashStudios.length, 0⟩ ∧
      (runPhases svc2 fault2 imp2 file2 inv).actorStats = ⟨0, inv.stashPerformers.length, 0⟩ ∧
      (runPhases svc2 fault2 imp2 file2 inv).sceneStats = ⟨0, inv.stashScenes.length, 0⟩ ∧
      (runPhases svc2 fault2 imp2 file2 inv).markerStats =
        ⟨0, (inv.stashScenes.map (fun sc => sc.SceneMarkers.length)).sum, 0⟩) ∧
    ((∀ f m, fault1 f m = none) →
      (runPhases svc1 fault1 imp1 file1 inv).file = .holds imp2.idMap) := by
  obtain ⟨mT, mS, mA, mSc, mM⟩ :=
    runPhases_clean_maps svc1 fault1 imp1 file1 inv hnc hdry hclean
  rw [← hmap] at mT mS mA mSc mM
  have hT := importTags_all_mapped svc2 imp2 inv.stashTags mT
  obtain ⟨hS, hSid⟩ := importStudios_all_mapped svc2 imp2 inv.stashStudios mS
  have hA := importPerformers_all_mapped svc2 (ImportStudios svc2 imp2 inv.stashStudios).1
    inv.stashPerformers (by rw [hSid]; exact mA)
  have hSc := importScenes_all_mapped svc2 (ImportStudios svc2 imp2 inv.stashStudios).1
    inv.stashScenes (by rw [hSid]; exact mSc)
  have hM := importMarkers_all_mapped svc2 (ImportStudios svc2 imp2 inv.stashStudios).1
    inv.stashScenes (by rw [hSid]; exact mSc) (by rw [hSid]; exact mM)
  refine ⟨by simp only [runPhases, hT, hS, hA, hSc, hM, and_self], ?_⟩
  intro hw
  have hd : (runPhases svc1 fault1 imp1 file1 inv).imp.cfg.DryRun = false := by
    rw [runPhases_cfg]; exact hdry
  rw [hmap]
  simp only [runPhases] at hd ⊢
  simp only [checkpoint, hd, IDMap.Save, hw, Bool.false_eq_true, if_false]

/-- A clean first run over a tag, two studios, a performer and a scene with a
marker, with no conflict answered, then a second run from the map it left:
everything is skipped, and the file holds the map the second run starts from. -/
theorem second_run_all_skipped_witness :
    ((sampleImporter false).cfg.DryRun = false ∧ serviceAccepts.NoConflict ∧
      (runPhases serviceAccepts noFault (sampleImporter false) .absent
        sampleInventory).totalErrors = 0 ∧
      ∀ f m, noFault f m = none) ∧
    (runPhases serviceAccepts noFault
      { sampleImporter false with
        idMap := (runPhases serviceAccepts noFault (sampleImporter false) .absent
          sampleInventory).imp.idMap }
      .absent sampleInventory).studioStats = ⟨0, 2, 0⟩ ∧
    (runPhases serviceAccepts noFault
      { sampleImporter false with
        idMap := (runPhases serviceAccepts noFault (sampleImporter false) .absent
          sampleInventory).imp.idMap }
      .absent sampleInventory).markerStats = ⟨0, 1, 0⟩ ∧
    (runPhases serviceAccepts noFault (sampleImporter false) .absent sampleInventory).file =
      .holds (runPhases serviceAccepts noFault (sampleImporter false) .absent
        sampleInventory).imp.idMap :=
  have hnc : serviceAccepts.NoConflict := fun _ _ _ h => by simp [serviceAccepts] at h
  have hclean : (runPhases serviceAccepts noFault (sampleImporter false) .absent
      sampleInventory).totalErrors = 0 := by decide
  have h := second_run_all_skipped serviceAccepts serviceAccepts noFault noFault
    (sampleImporter false)
    { sampleImporter false with
      idMap := (runPhases serviceAccepts noFault (sampleImporter false) .absent
        sampleInventory).imp.idMap }
    .absent .absent sampleInventory rfl hnc hclean rfl
  ⟨⟨rfl, hnc, hclean, fun _ _ => rfl⟩, h.1.2.1, h.1.2.2.2.2, h.2 (fun _ _ => rfl)⟩

/-- C3 as stated fails: a scene without files is an error in the first run and
again in the second (never `Skipped`), and a tag the destination refused in the
first run (status 500 twice) is `Created` in the second. -/
theorem second_run_counterexample :
    (sampleImporter false).cfg.DryRun = false ∧
    (runPhases serviceAccepts noFault
      { sampleImporter false with
        idMap := (runPhases serviceDown noFault (sampleImporter false) .absent
          ⟨[⟨"t1", "anal"⟩], [], [], [sampleScene "s1" [] []]⟩).imp.idMap }
      .absent ⟨[⟨"t1", "anal"⟩], [], [], [sampleScene "s1" [] []]⟩).tagStats = ⟨1, 0, 0⟩ ∧
    (runPhases serviceAccepts noFault
      { sampleImporter false with
        idMap := (runPhases serviceDown noFault (sampleImporter false) .absent
          ⟨[⟨"t1", "anal"⟩], [], [], [sampleScene "s1" [] []]⟩).imp.idMap }
      .absent ⟨[⟨"t1", "anal"⟩], [], [], [sampleScene "s1" [] []]⟩).sceneStats = ⟨0, 0, 1⟩ ∧
    (runPhases serviceAccepts noFault
      { sampleImporter false with
        idMap := (runPhases serviceAccepts noFault (sampleImporter false) .absent
          ⟨[], [], [], [sampleScene "s1" [] []]⟩).imp.idMap }
      .absent ⟨[], [], [], [sampleScene "s1" [] []]⟩).sceneStats = ⟨0, 0, 1⟩ := by
  decide

/-- C1, the code at the failing input: the destination answers the import-scene
request with 409 and id 42; `ImportScene` returns the `*ConflictError` wrapped by
`fmt.Errorf`, the type assertion in `ImportScenes` does not see it, and the scene
is counted in `Errors`, not in `Skipped`, with no entry recorded. -/
theorem importScenes_conflict_counted_as_error :
    (ImportScene (serviceConflicts 42) ⟨[], []⟩
      (ImportScenes.request (sampleImporter false) (sampleScene "s1" [sampleFile] [])
        sampleFile ⟨"/data/videos/clip.mp4", 3⟩)).1
      = .error (.wrapError (.conflictError 42)) ∧
    (ImportScenes (serviceConflicts 42) (sampleImporter false)
      [sampleScene "s1" [sampleFile] []]).2 = ⟨0, 0, 1⟩ ∧
    (ImportScenes (serviceConflicts 42) (sampleImporter false)
      [sampleScene "s1" [sampleFile] []]).1.idMap.Scenes.get "s1" = none := by
  decide

/-- C2, the code at the failing inputs: a tag, a studio, a performer and a marker
whose create request is answered with 409 are each counted in `Errors`, not in
`Skipped`, because `isConflict` is applied to the wrapped error. -/
theorem create_conflict_counted_as_error :
    (CreateTag (serviceConflicts 0) ⟨[], []⟩ "anal" "").1
      = .error (.wrapError (.conflictError 0)) ∧
    isConflict (.wrapError (.conflictError 0)) = false ∧
    (ImportTags (serviceConflicts 0) (sampleImporter false) [⟨"t1", "anal"⟩]).2 = ⟨0, 0, 1⟩ ∧
    (ImportStudios (serviceConflicts 0) (sampleImporter false)
      [sampleStudio "1" "Studio A" none]).2 = ⟨0, 0, 1⟩ ∧
    (ImportPerformers (serviceConflicts 0) (sampleImporter false)
      [samplePerformer "p1" "Jane"]).2 = ⟨0, 0, 1⟩ ∧
    (ImportMarkers (serviceConflicts 0)
      { sampleImporter false with idMap := { NewIDMap with Scenes := [("s1", 5)] } }
      [sampleScene "s1" [sampleFile] [sampleMarker "m1" "intro"]]).2 = ⟨0, 0, 1⟩ := by
  decide

theorem doRequest_server_error (svc : Service) (c : GoonHubClient) (r : Request)
    (hasResult : Bool) (statusCode : Nat) (body : RespBody)
    (h : svc c.wire r = .response statusCode body) (h1 : 500 ≤ statusCode) :
    (doRequest svc c r hasResult).1 = .error (.serverError statusCode) := by
  have h2 : statusCode ≠ 409 := by omega
  simp [doRequest, h, h1, h2]

/-- C13, as amended (status classification in `doRequest`): for a completed
response, status 409 yields a `*ConflictError` carrying the id decoded from the
body, every status of 500 or more a `*ServerError` with that status, every other
status of 400 or more a plain error, and every status below 400 (2xx or not)
takes the success path: nil, with the decoded id in the result, unless a
non-empty body fails to decode into a non-nil result. -/
theorem doRequest_classification (svc : Service) (c : GoonHubClient) (r : Request)
    (hasResult : Bool) (statusCode : Nat) (body : RespBody)
    (h : svc c.wire r = .response statusCode body) :
    (statusCode = 409 → (doRequest svc c r hasResult).1 = .error (.conflictError body.id)) ∧
    (500 ≤ statusCode → (doRequest svc c r hasResult).1 = .error (.serverError statusCode)) ∧
    (400 ≤ statusCode → statusCode < 500 → statusCode ≠ 409 →
      (doRequest svc c r hasResult).1 = .error .errorString) ∧
    (statusCode < 400 →
      (doRequest svc c r hasResult).1 =
        match hasResult, body with
        | true, .decoded id => .ok id
        | true, .failed _ => .error (.wrapError .libraryError)
        | _, _ => .ok 0) := by
  refine ⟨?_, ?_, ?_, ?_⟩
  · intro h1
    simp [doRequest, h, h1]
  · intro h1
    have h2 : statusCode ≠ 409 := by omega
    simp [doRequest, h, h1, h2]
  · intro h1 h2 h3
    have h4 : ¬ 500 ≤ statusCode := by omega
    simp [doRequest, h, h1, h3, h4]
  · intro h1
    have h2 : statusCode ≠ 409 := by omega
    have h3 : ¬ 500 ≤ statusCode := by omega
    have h4 : ¬ 400 ≤ statusCode := by omega
    simp only [doRequest, h, h2, h3, h4, if_false, ge_iff_le]
    cases hasResult <;> cases body <;> rfl

/-- A 201 answer to a create-tag request whose body decodes to id 10 is a
success carrying that id. -/
theorem doRequest_classification_witness :
    (serviceAccepts [] (.createTag ⟨"anal", ""⟩) = .response 201 (.decoded 10) ∧ 201 < 400) ∧
    (doRequest serviceAccepts ⟨[], []⟩ (.createTag ⟨"anal", ""⟩) true).1 = .ok 10 :=
  ⟨⟨rfl, by decide⟩,
    (doRequest_classification serviceAccepts ⟨[], []⟩ (.createTag ⟨"anal", ""⟩) true 201
      (.decoded 10) rfl).2.2.2 (by decide)⟩

/-- C13 as stated fails: status 304 (or 100, or 399) is outside 200..299 and yet
`doRequest` returns nil for it. -/
theorem doRequest_not_modified_succeeds :
    (doRequest (fun _ _ => .response 304 .empty) ⟨[], []⟩ (.updateStudio 1 ⟨some 2⟩) false).1
      = .ok 0 ∧
    (doRequest (fun _ _ => .response 100 .empty) ⟨[], []⟩ (.createTag ⟨"anal", ""⟩) true).1
      = .ok 0 ∧
    (doRequest (fun _ _ => .response 399 (.decoded 7)) ⟨[], []⟩ (.createTag ⟨"anal", ""⟩) true).1
      = .ok 7 := by
  decide

/-- C14 (exactly one retry): `doWithRetry` makes a first attempt; if and only if
that attempt returns a `*ServerError`, which happens exactly when the response
completed with a status of 500 or more, it makes a second attempt of the same
request and returns its outcome, whatever it is; otherwise (success, conflict,
plain error, transport error) it returns the outcome of the first attempt.  The
attempts on the wire are therefore the request once or twice, never three times. -/
theorem doWithRetry_one_retry (svc : Service) (c : GoonHubClient) (r : Request)
    (hasResult : Bool) :
    (isServerError (doRequest svc c r hasResult).1 = true ↔
      ∃ s body, svc c.wire r = .response s body ∧ 500 ≤ s) ∧
    doWithRetry svc c r hasResult =
      (if isServerError (doRequest svc c r hasResult).1 then
        doRequest svc (doRequest svc c r hasResult).2 r hasResult
      else doRequest svc c r hasResult) ∧
    (doWithRetry svc c r hasResult).2.wire =
      (if isServerError (doRequest svc c r hasResult).1 then c.wire ++ [r, r]
      else c.wire ++ [r]) := by
  have hiff : isServerError (doRequest svc c r hasResult).1 = true ↔
      ∃ s body, svc c.wire r = .response s body ∧ 500 ≤ s := by
    constructor
    · intro hs
      unfold doRequest at hs
      split at hs
      · simp [isServerError] at hs
      · next statusCode body heq =>
        split_ifs at hs with h1 h2 h3
        · simp [isServerError] at hs
        · exact ⟨statusCode, body, heq, h2⟩
        · simp [isServerError] at hs
        · split at hs <;> simp [isServerError] at hs
    · rintro ⟨s, body, heq, hs⟩
      rw [doRequest_server_error svc c r hasResult s body heq hs]
      rfl
  have hret : doWithRetry svc c r hasResult =
      (if isServerError (doRequest svc c r hasResult).1 then
        doRequest svc (doRequest svc c r hasResult).2 r hasResult
      else doRequest svc c r hasResult) := by
    unfold doWithRetry
    split
    · next s c1 heq => simp [heq, isServerError]
    · next err c1 hne heq =>
      have : isServerError (Except.error err) = false := by
        cases err <;> simp [isServerError]
        exact hne _ rfl
      simp [heq, this]
    · next id c1 heq => simp [heq, isServerError]
  refine ⟨hiff, hret, ?_⟩
  rw [hret]
  split_ifs
  · rw [doRequest_wire, doRequest_wire, List.append_assoc]; rfl
  · rw [doRequest_wire]

/-- C15 (exit status): after the five phases, the exit status of `main` is zero
if and only if the `Errors` counters of the five phases sum to zero; it is 1
otherwise, and it is the same whatever the file system does at the checkpoints
(the `Created` and `Skipped` counters do not enter it). -/
theorem exit_status_zero_iff [UnicodeCase] (svc : Service) (fault : WriteFault) (imp : Importer)
    (file : MapFile) (inv : Inventory) :
    ((runPhases svc fault imp file inv).exitStatus = 0 ↔
      (runPhases svc fault imp file inv).tagStats.Errors +
        (runPhases svc fault imp file inv).studioStats.Errors +
        (runPhases svc fault imp file inv).actorStats.Errors +
        (runPhases svc fault imp file inv).sceneStats.Errors +
        (runPhases svc fault imp file inv).markerStats.Errors = 0) ∧
    ((runPhases svc fault imp file inv).exitStatus = 0 ∨
      (runPhases svc fault imp file inv).exitStatus = 1) ∧
    (∀ (fault2 : WriteFault) (file2 : MapFile),
      (runPhases svc fault2 imp file2 inv).exitStatus =
        (runPhases svc fault imp file inv).exitStatus) := by
  refine ⟨?_, ?_, ?_⟩
  · simp only [RunResult.exitStatus, RunResult.totalErrors]
    split_ifs with h
    · constructor
      · intro h0; cases h0
      · intro h0; omega
    · constructor
      · intro _; omega
      · intro _; rfl
  · simp only [RunResult.exitStatus]
    split_ifs
    · exact Or.inr rfl
    · exact Or.inl rfl
  · intro fault2 file2
    rfl

theorem ensureMap_isSome (f : Option GoMap) : (ensureMap f).isSome = true := by
  cases f <;> rfl

/-- C20 (`LoadIDMap`): when the file does not exist, `LoadIDMap` returns without
error the map whose five sub-maps are initialised and empty; and whenever
`LoadIDMap` returns a map, for whatever the file holds (keys omitted or `null`
included), none of its five sub-maps is nil. -/
theorem loadIDMap_total (read : ReadResult) (m : NullableIDMap)
    (h : LoadIDMap read = .ok m) :
    LoadIDMap .notExist = .ok
      { Tags := some [], Studios := some [], Actors := some [], Scenes := some []
        Markers := some [] } ∧
    m.Tags.isSome = true ∧ m.Studios.isSome = true ∧ m.Actors.isSome = true ∧
    m.Scenes.isSome = true ∧ m.Markers.isSome = true := by
  refine ⟨rfl, ?_⟩
  cases read with
  | notExist =>
    simp only [LoadIDMap, Except.ok.injEq] at h
    subst h
    exact ⟨rfl, rfl, rfl, rfl, rfl⟩
  | ioError => simp [LoadIDMap] at h
  | data d =>
    cases d with
    | malformed => simp [LoadIDMap] at h
    | document t s a sc mk =>
      simp only [LoadIDMap, Except.ok.injEq] at h
      subst h
      exact ⟨ensureMap_isSome _, ensureMap_isSome _, ensureMap_isSome _, ensureMap_isSome _,
        ensureMap_isSome _⟩

/-- A document with `"tags": null`, no `studios` key and one scene entry loads
with every sub-map present. -/
theorem loadIDMap_total_witness :
    LoadIDMap (.data (.document .null .missing (.object []) (.object [("s1", 5)]) .missing))
      = .ok { Tags := some [], Studios := some [], Actors := some [], Scenes := some [("s1", 5)]
              Markers := some [] } ∧
    (some ([] : GoMap)).isSome = true :=
  ⟨by decide,
    (loadIDMap_total
      (.data (.document .null .missing (.object []) (.object [("s1", 5)]) .missing))
      { Tags := some [], Studios := some [], Actors := some [], Scenes := some [("s1", 5)]
        Markers := some [] } (by decide)).2.1⟩

theorem importTags_step_one [UnicodeCase] (svc : Service) (imp : Importer) (stats : PhaseStats)
    (tag : StashTag) :
    (ImportTags.step svc imp stats tag).2 = stats.incCreated ∨
    (ImportTags.step svc imp stats tag).2 = stats.incSkipped ∨
    (ImportTags.step svc imp stats tag).2 = stats.incErrors := by
  unfold ImportTags.step
  repeat' split
  all_goals simp

theorem importStudios_step_one [UnicodeCase] (svc : Service) (imp : Importer) (stats : PhaseStats)
    (studio : StashStudio) :
    (ImportStudios.step svc imp stats studio).2 = stats.incCreated ∨
    (ImportStudios.step svc imp stats studio).2 = stats.incSkipped ∨
    (ImportStudios.step svc imp stats studio).2 = stats.incErrors := by
  unfold ImportStudios.step
  repeat' split
  all_goals simp

theorem importPerformers_step_one [UnicodeCase] (svc : Service) (imp : Importer) (stats : PhaseStats)
    (perf : StashPerformer) :
    (ImportPerformers.step svc imp stats perf).2 = stats.incCreated ∨
    (ImportPerformers.step svc imp stats perf).2 = stats.incSkipped ∨
    (ImportPerformers.step svc imp stats perf).2 = stats.incErrors := by
  unfold ImportPerformers.step
  repeat' split
  all_goals simp

theorem importScenes_step_one (svc : Service) (imp : Importer) (stats : PhaseStats)
    (scene : StashScene) :
    (ImportScenes.step svc imp stats scene).2 = stats.incCreated ∨
    (ImportScenes.step svc imp stats scene).2 = stats.incSkipped ∨
    (ImportScenes.step svc imp stats scene).2 = stats.incErrors := by
  unfold ImportScenes.step
  repeat' split
  all_goals simp

theorem importMarkers_markerStep_one (svc : Service) (g : Nat) (imp : Importer)
    (stats : PhaseStats) (marker : StashMarker) :
    (ImportMarkers.markerStep svc g imp stats marker).2 = stats.incCreated ∨
    (ImportMarkers.markerStep svc g imp stats marker).2 = stats.incSkipped ∨
    (ImportMarkers.markerStep svc g imp stats marker).2 = stats.incErrors := by
  unfold ImportMarkers.markerStep
  repeat' split
  all_goals first
    | (simp; done)
    | (simp only []; split <;> simp)

theorem stats_one_total (s t : PhaseStats)
    (h : t = s.incCreated ∨ t = s.incSkipped ∨ t = s.incErrors) :
    t.Created + t.Skipped + t.Errors = s.Created + s.Skipped + s.Errors + 1 := by
  rcases h with h | h | h <;> subst h <;>
    simp [PhaseStats.incCreated, PhaseStats.incSkipped, PhaseStats.incErrors] <;> omega

theorem foldl_total {α : Type} (f : Importer → PhaseStats → α → Importer × PhaseStats)
    (w : α → Nat)
    (hf : ∀ imp stats x, (f imp stats x).2.Created + (f imp stats x).2.Skipped +
      (f imp stats x).2.Errors = stats.Created + stats.Skipped + stats.Errors + w x)
    (l : List α) (st : Importer × PhaseStats) :
    (l.foldl (fun st x => f st.1 st.2 x) st).2.Created +
      (l.foldl (fun st x => f st.1 st.2 x) st).2.Skipped +
      (l.foldl (fun st x => f st.1 st.2 x) st).2.Errors =
      st.2.Created + st.2.Skipped + st.2.Errors + (l.map w).sum := by
  induction l generalizing st with
  | nil => simp
  | cons x xs ih =>
    rw [List.foldl_cons, ih, hf]
    simp [Nat.add_assoc]

theorem sum_map_one {α : Type} (l : List α) : (l.map (fun _ => 1)).sum = l.length := by
  induction l with
  | nil => rfl
  | cons x xs ih => simp [ih, Nat.add_comm]

theorem importMarkers_step_total (svc : Service) (imp : Importer) (stats : PhaseStats)
    (scene : StashScene) :
    (ImportMarkers.step svc imp stats scene).2.Created +
      (ImportMarkers.step svc imp stats scene).2.Skipped +
      (ImportMarkers.step svc imp stats scene).2.Errors =
      stats.Created + stats.Skipped + stats.Errors + scene.SceneMarkers.length := by
  unfold ImportMarkers.step
  split
  · simp only; omega
  · next g _ =>
    have := foldl_total (ImportMarkers.markerStep svc g) (fun _ => 1)
      (fun i s m => stats_one_total s _ (importMarkers_markerStep_one svc g i s m))
      scene.SceneMarkers (imp, stats)
    rw [sum_map_one] at this
    exact this

/-- C12 (a phase never stops early): for every inventory, mode and behaviour of
the destination service, the counters returned by `ImportTags`, `ImportStudios`,
`ImportPerformers` and `ImportScenes` sum to the number of entities of the
inventory, and those returned by `ImportMarkers` to the total number of markers
over all scenes; each loop body increments exactly one of the three counters
(the outcome of parent-link and association calls never enters them). -/
theorem phase_counts_every_entity [UnicodeCase] (svc : Service) (imp : Importer) (stashTags : List StashTag)
    (stashStudios : List StashStudio) (stashPerformers : List StashPerformer)
    (stashScenes : List StashScene) :
    ((ImportTags svc imp stashTags).2.Created + (ImportTags svc imp stashTags).2.Skipped +
      (ImportTags svc imp stashTags).2.Errors = stashTags.length) ∧
    ((ImportStudios svc imp stashStudios).2.Created +
      (ImportStudios svc imp stashStudios).2.Skipped +
      (ImportStudios svc imp stashStudios).2.Errors = stashStudios.length) ∧
    ((ImportPerformers svc imp stashPerformers).2.Created +
      (ImportPerformers svc imp stashPerformers).2.Skipped +
      (ImportPerformers svc imp stashPerformers).2.Errors = stashPerformers.length) ∧
    ((ImportScenes svc imp stashScenes).2.Created + (ImportScenes svc imp stashScenes).2.Skipped +
      (ImportScenes svc imp stashScenes).2.Errors = stashScenes.length) ∧
    ((ImportMarkers svc imp stashScenes).2.Created +
      (ImportMarkers svc imp stashScenes).2.Skipped +
      (ImportMarkers svc imp stashScenes).2.Errors =
        (stashScenes.map (fun sc => sc.SceneMarkers.length)).sum) ∧
    (∀ (i : Importer) (s : PhaseStats) (x : StashTag),
      (ImportTags.step svc i s x).2 = s.incCreated ∨
      (ImportTags.step svc i s x).2 = s.incSkipped ∨
      (ImportTags.step svc i s x).2 = s.incErrors) ∧
    (∀ (i : Importer) (s : PhaseStats) (x : StashStudio),
      (ImportStudios.step svc i s x).2 = s.incCreated ∨
      (ImportStudios.step svc i s x).2 = s.incSkipped ∨
      (ImportStudios.step svc i s x).2 = s.incErrors) ∧
    (∀ (i : Importer) (s : PhaseStats) (x : StashPerformer),
      (ImportPerformers.step svc i s x).2 = s.incCreated ∨
      (ImportPerformers.step svc i s x).2 = s.incSkipped ∨
      (ImportPerformers.step svc i s x).2 = s.incErrors) ∧
    (∀ (i : Importer) (s : PhaseStats) (x : StashScene),
      (ImportScenes.step svc i s x).2 = s.incCreated ∨
      (ImportScenes.step svc i s x).2 = s.incSkipped ∨
      (ImportScenes.step svc i s x).2 = s.incErrors) ∧
    (∀ (g : Nat) (i : Importer) (s : PhaseStats) (x : StashMarker),
      (ImportMarkers.markerStep svc g i s x).2 = s.incCreated ∨
      (ImportMarkers.markerStep svc g i s x).2 = s.incSkipped ∨
      (ImportMarkers.markerStep svc g i s x).2 = s.incErrors) := by
  refine ⟨?_, ?_, ?_, ?_, ?_, importTags_step_one svc, importStudios_step_one svc,
    importPerformers_step_one svc, importScenes_step_one svc,
    importMarkers_markerStep_one svc⟩
  · have := foldl_total (ImportTags.step svc) (fun _ => 1)
      (fun i s x => stats_one_total s _ (importTags_step_one svc i s x)) stashTags
      (imp, ⟨0, 0, 0⟩)
    rw [sum_map_one] at this
    simpa [ImportTags] using this
  · have := foldl_total (ImportStudios.step svc) (fun _ => 1)
      (fun i s x => stats_one_total s _ (importStudios_step_one svc i s x)) stashStudios
      (imp, ⟨0, 0, 0⟩)
    rw [sum_map_one] at this
    simpa [ImportStudios, ImportStudios.pass1] using this
  · have := foldl_total (ImportPerformers.step svc) (fun _ => 1)
      (fun i s x => stats_one_total s _ (importPerformers_step_one svc i s x)) stashPerformers
      (imp, ⟨0, 0, 0⟩)
    rw [sum_map_one] at this
    simpa [ImportPerformers] using this
  · have := foldl_total (ImportScenes.step svc) (fun _ => 1)
      (fun i s x => stats_one_total s _ (importScenes_step_one svc i s x)) stashScenes
      (imp, ⟨0, 0, 0⟩)
    rw [sum_map_one] at this
    simpa [ImportScenes] using this
  · have := foldl_total (ImportMarkers.step svc) (fun sc => sc.SceneMarkers.length)
      (importMarkers_step_total svc) stashScenes (imp, ⟨0, 0, 0⟩)
    simpa [ImportMarkers] using this

theorem importScenes_snoc (svc : Service) (imp : Importer) (pre : List StashScene)
    (scene : StashScene) :
    ImportScenes svc imp (pre ++ [scene]) =
      ImportScenes.step svc (ImportScenes svc imp pre).1 (ImportScenes svc imp pre).2 scene := by
  simp [ImportScenes, List.foldl_append]

theorem importScenes_cons_split (svc : Service) (imp : Importer) (pre post : List StashScene)
    (scene : StashScene) :
    ImportScenes svc imp (pre ++ scene :: post) =
      post.foldl (fun st sc => ImportScenes.step svc st.1 st.2 sc)
        (ImportScenes svc imp (pre ++ [scene])) := by
  simp [ImportScenes, List.foldl_append]

theorem importScenes_step_no_file (svc : Service) (imp : Importer) (stats : PhaseStats)
    (scene : StashScene) (hm : imp.idMap.Scenes.get scene.ID = none)
    (hf : scene.Files = []) :
    ImportScenes.step svc imp stats scene = (imp, stats.incErrors) := by
  simp [ImportScenes.step, hm, hf]

theorem importScenes_step_no_rule (svc : Service) (imp : Importer) (stats : PhaseStats)
    (scene : StashScene) (file : StashFile) (rest : List StashFile)
    (hm : imp.idMap.Scenes.get scene.ID = none) (hf : scene.Files = file :: rest)
    (hr : ∀ m ∈ imp.pathMapper, hasPrefix file.Path m.StashPrefix = false) :
    ImportScenes.step svc imp stats scene = (imp, stats.incErrors) := by
  obtain ⟨e, he⟩ := (MapPath_error_iff imp.pathMapper file.Path).mpr hr
  simp [ImportScenes.step, hm, hf, he]

theorem importScenes_step_first_file (svc : Service) (imp : Importer) (stats : PhaseStats)
    (scene : StashScene) :
    ImportScenes.step svc imp stats scene =
      ImportScenes.step svc imp stats { scene with Files := scene.Files.take 1 } := by
  cases hf : scene.Files with
  | nil => simp [ImportScenes.step, hf]
  | cons file rest =>
    simp [ImportScenes.step, hf, ImportScenes.request, ImportScenes.title,
      ImportScenes.associate]

/-- C19 (scene pre-create failures): in either mode, when `ImportScenes` reaches
a scene that is not in `idMap.Scenes` and that has no file, or whose first file's
path has no rule's `StashPrefix` as a prefix, it leaves the engine state as it
was (no call, no mapping), increments `Errors` only, and goes on with the
following scenes; and the loop body gives the same result for a scene as for
that scene stripped of all files but the first. -/
theorem scene_precreate_failure (svc : Service) (imp : Importer) (pre post : List StashScene)
    (scene : StashScene)
    (hm : (ImportScenes svc imp pre).1.idMap.Scenes.get scene.ID = none)
    (hf : scene.Files = [] ∨ ∃ file rest, scene.Files = file :: rest ∧
      ∀ m ∈ imp.pathMapper, hasPrefix file.Path m.StashPrefix = false) :
    ImportScenes svc imp (pre ++ [scene]) =
      ((ImportScenes svc imp pre).1, (ImportScenes svc imp pre).2.incErrors) ∧
    ImportScenes svc imp (pre ++ scene :: post) =
      post.foldl (fun st sc => ImportScenes.step svc st.1 st.2 sc)
        (ImportScenes svc imp (pre ++ [scene])) ∧
    (∀ (i : Importer) (s : PhaseStats) (sc : StashScene),
      ImportScenes.step svc i s sc =
        ImportScenes.step svc i s { sc with Files := sc.Files.take 1 }) := by
  refine ⟨?_, importScenes_cons_split svc imp pre post scene,
    importScenes_step_first_file svc⟩
  rw [importScenes_snoc]
  rcases hf with hf | ⟨file, rest, hf, hr⟩
  · exact importScenes_step_no_file svc _ _ scene hm hf
  · refine importScenes_step_no_rule svc _ _ scene file rest hm hf ?_
    rw [(importScenes_advances svc imp pre).pathMapper]
    exact hr

/-- A scene without files and a scene stored outside every rule are both counted
in `Errors`, in simulation mode too, with no call and no mapping. -/
theorem scene_precreate_failure_witness :
    ((ImportScenes serviceAccepts (sampleImporter true) []).1.idMap.Scenes.get "s1" = none ∧
      (sampleScene "s1" [] []).Files = []) ∧
    ImportScenes serviceAccepts (sampleImporter true) [sampleScene "s1" [] []] =
      (sampleImporter true, ⟨0, 0, 1⟩) ∧
    ImportScenes serviceAccepts (sampleImporter false)
        [sampleScene "s2" [{ sampleFile with Path := "/srv/other/clip.mp4" }] []] =
      (sampleImporter false, ⟨0, 0, 1⟩) :=
  ⟨⟨rfl, rfl⟩,
    (scene_precreate_failure serviceAccepts (sampleImporter true) [] []
      (sampleScene "s1" [] []) rfl (Or.inl rfl)).1,
    by decide⟩

theorem importScenes_associate_calls (svc : Service) (imp : Importer) (scene : StashScene)
    (id : Nat) : ∃ t, (ImportScenes.associate svc imp scene id).gh.calls = imp.gh.calls ++ t := by
  unfold ImportScenes.associate
  simp only
  split
  · split
    · exact ⟨_, by
        simp only [SetSceneActors, SetSceneTags, clientCall_calls, List.append_assoc]; rfl⟩
    · exact ⟨_, by simp only [SetSceneTags, clientCall_calls]; rfl⟩
  · split
    · exact ⟨_, by simp only [SetSceneActors, clientCall_calls]; rfl⟩
    · exact ⟨[], by simp⟩

theorem importScenes_associate_frame (svc : Service) (imp : Importer) (scene : StashScene)
    (id : Nat) : (ImportScenes.associate svc imp scene id).idMap = imp.idMap := by
  unfold ImportScenes.associate
  simp only
  split <;> split <;> rfl

theorem importScenes_step_studios (svc : Service) (imp : Importer) (stats : PhaseStats)
    (scene : StashScene) :
    (ImportScenes.step svc imp stats scene).1.idMap.Studios = imp.idMap.Studios := by
  unfold ImportScenes.step
  repeat' split
  all_goals first
    | rfl
    | (rw [importScenes_associate_frame])

theorem importScenes_studios (svc : Service) (imp : Importer) (l : List StashScene) :
    (ImportScenes svc imp l).1.idMap.Studios = imp.idMap.Studios :=
  foldl_frame (fun i => i.idMap.Studios) _ (importScenes_step_studios svc) l _

theorem importScenes_step_request (svc : Service) (imp : Importer) (stats : PhaseStats)
    (scene : StashScene) (file : StashFile) (rest : List StashFile) (mapped : MappedPath)
    (hdry : imp.cfg.DryRun = false) (hm : imp.idMap.Scenes.get scene.ID = none)
    (hf : scene.Files = file :: rest) (hp : MapPath imp.pathMapper file.Path = .ok mapped) :
    (∃ t, (ImportScenes.step svc imp stats scene).1.gh.calls =
      imp.gh.calls ++ Request.importScene (ImportScenes.request imp scene file mapped) :: t) ∧
    (∀ id gh, ImportScene svc imp.gh (ImportScenes.request imp scene file mapped) = (.ok id, gh) →
      (ImportScenes.step svc imp stats scene).2 = stats.incCreated ∧
      (ImportScenes.step svc imp stats scene).1.idMap.Scenes.get scene.ID = some id) := by
  have hcall := clientCall_calls svc imp.gh
    (.importScene (ImportScenes.request imp scene file mapped)) true
  have hstep : ImportScenes.step svc imp stats scene =
      match ImportScene svc imp.gh (ImportScenes.request imp scene file mapped) with
      | (.error (.conflictError existingID), gh) =>
        if existingID > 0 then
          ({ imp with
              gh := gh
              idMap := { imp.idMap with Scenes := imp.idMap.Scenes.set scene.ID existingID } },
            stats.incSkipped)
        else ({ imp with gh := gh }, stats.incSkipped)
      | (.error _, gh) => ({ imp with gh := gh }, stats.incErrors)
      | (.ok createdID, gh) =>
        (ImportScenes.associate svc
            { imp with
              gh := gh
              idMap := { imp.idMap with Scenes := imp.idMap.Scenes.set scene.ID createdID } }
            scene createdID,
          stats.incCreated) := by
    simp [ImportScenes.step, hm, hf, hp, hdry]
  rw [hstep]
  constructor
  · split
    · next k gh heq =>
      have h2 : gh.calls = imp.gh.calls ++
          [.importScene (ImportScenes.request imp scene file mapped)] := by
        unfold ImportScene at heq; rw [heq] at hcall; exact hcall
      split <;> exact ⟨[], by simp [h2]⟩
    · next err gh _ heq =>
      have h2 : gh.calls = imp.gh.calls ++
          [.importScene (ImportScenes.request imp scene file mapped)] := by
        unfold ImportScene at heq; rw [heq] at hcall; exact hcall
      exact ⟨[], by simp [h2]⟩
    · next id gh heq =>
      have h2 : gh.calls = imp.gh.calls ++
          [.importScene (ImportScenes.request imp scene file mapped)] := by
        unfold ImportScene at heq; rw [heq] at hcall; exact hcall
      obtain ⟨t, ht⟩ := importScenes_associate_calls svc
        { imp with
          gh := gh
          idMap := { imp.idMap with Scenes := imp.idMap.Scenes.set scene.ID id } } scene id
      exact ⟨t, by simp [ht, h2]⟩
  · intro id gh heq
    rw [heq]
    simp only
    refine ⟨trivial, ?_⟩
    rw [importScenes_associate_frame]
    exact goMap_get_set_self _ _ _

theorem clientCall_wire_extends (svc : Service) (c : GoonHubClient) (r : Request) (b : Bool) :
    ∃ t, (clientCall svc c r b).2.wire = c.wire ++ r :: t := by
  rcases clientCall_wire_cases svc c r b with h | h
  · exact ⟨[], h⟩
  · exact ⟨[r], h⟩

theorem importScenes_associate_wire (svc : Service) (imp : Importer) (scene : StashScene)
    (id : Nat) : ∃ t, (ImportScenes.associate svc imp scene id).gh.wire = imp.gh.wire ++ t := by
  unfold ImportScenes.associate
  simp only
  split
  · split
    · obtain ⟨t1, h1⟩ := clientCall_wire_extends svc imp.gh
        (.setSceneTags id (mapTagIDs imp scene.Tags)) false
      obtain ⟨t2, h2⟩ := clientCall_wire_extends svc
        (SetSceneTags svc imp.gh id (mapTagIDs imp scene.Tags)).2
        (.setSceneActors id (mapActorIDs
          { imp with gh := (SetSceneTags svc imp.gh id (mapTagIDs imp scene.Tags)).2 }
          scene.Performers)) false
      simp only [SetSceneActors]
      rw [h2]
      simp only [SetSceneTags]
      rw [h1]
      exact ⟨_, List.append_assoc _ _ _⟩
    · obtain ⟨t1, h1⟩ := clientCall_wire_extends svc imp.gh
        (.setSceneTags id (mapTagIDs imp scene.Tags)) false
      exact ⟨_ :: t1, by simp only [SetSceneTags]; rw [h1]⟩
  · split
    · obtain ⟨t2, h2⟩ := clientCall_wire_extends svc imp.gh
        (.setSceneActors id (mapActorIDs imp scene.Performers)) false
      exact ⟨_ :: t2, by simp only [SetSceneActors]; rw [h2]⟩
    · exact ⟨[], by simp⟩

theorem importScenes_step_wire (svc : Service) (imp : Importer) (stats : PhaseStats)
    (scene : StashScene) (file : StashFile) (rest : List StashFile) (mapped : MappedPath)
    (hdry : imp.cfg.DryRun = false) (hm : imp.idMap.Scenes.get scene.ID = none)
    (hf : scene.Files = file :: rest) (hp : MapPath imp.pathMapper file.Path = .ok mapped) :
    ∃ t, (ImportScenes.step svc imp stats scene).1.gh.wire =
      imp.gh.wire ++ Request.importScene (ImportScenes.request imp scene file mapped) :: t := by
  obtain ⟨t0, hwire⟩ := clientCall_wire_extends svc imp.gh
    (.importScene (ImportScenes.request imp scene file mapped)) true
  have hstep : ImportScenes.step svc imp stats scene =
      match ImportScene svc imp.gh (ImportScenes.request imp scene file mapped) with
      | (.error (.conflictError existingID), gh) =>
        if existingID > 0 then
          ({ imp with
              gh := gh
              idMap := { imp.idMap with Scenes := imp.idMap.Scenes.set scene.ID existingID } },
            stats.incSkipped)
        else ({ imp with gh := gh }, stats.incSkipped)
      | (.error _, gh) => ({ imp with gh := gh }, stats.incErrors)
      | (.ok createdID, gh) =>
        (ImportScenes.associate svc
            { imp with
              gh := gh
              idMap := { imp.idMap with Scenes := imp.idMap.Scenes.set scene.ID createdID } }
            scene createdID,
          stats.incCreated) := by
    simp [ImportScenes.step, hm, hf, hp, hdry]
  rw [hstep]
  split
  · next k gh heq =>
    have h2 : gh.wire = imp.gh.wire ++
        Request.importScene (ImportScenes.request imp scene file mapped) :: t0 := by
      unfold ImportScene at heq; rw [heq] at hwire; exact hwire
    split <;> exact ⟨t0, h2⟩
  · next err gh _ heq =>
    have h2 : gh.wire = imp.gh.wire ++
        Request.importScene (ImportScenes.request imp scene file mapped) :: t0 := by
      unfold ImportScene at heq; rw [heq] at hwire; exact hwire
    exact ⟨t0, h2⟩
  · next id gh heq =>
    have h2 : gh.wire = imp.gh.wire ++
        Request.importScene (ImportScenes.request imp scene file mapped) :: t0 := by
      unfold ImportScene at heq; rw [heq] at hwire; exact hwire
    obtain ⟨t, ht⟩ := importScenes_associate_wire svc
      { imp with
        gh := gh
        idMap := { imp.idMap with Scenes := imp.idMap.Scenes.set scene.ID id } } scene id
    exact ⟨t0 ++ t, by simp [ht, h2]⟩

/-- C11 (studio miss tolerated): in a non-simulation run, when `ImportScenes`
reaches a scene that is not in `idMap.Scenes` and whose first file translates, it
makes the import-scene call whatever the scene's studio reference, and the
request is the next HTTP attempt sent to the destination.  The request's
`StudioID` is absent when the scene has no studio or its studio is not in
`idMap.Studios`, and is exactly the mapped destination id when it is.  If the
destination answers that attempt with a status below 400 and a body that decodes
(or is empty), or answers it with a status of 500 or more and the second attempt
so, the scene is mapped to the id of that body and counted in `Created` only; and
so it is whenever `ImportScene` returns an id. -/
theorem studio_miss_tolerated (svc : Service) (imp : Importer) (pre : List StashScene)
    (scene : StashScene) (file : StashFile) (rest : List StashFile) (mapped : MappedPath)
    (hdry : imp.cfg.DryRun = false)
    (hm : (ImportScenes svc imp pre).1.idMap.Scenes.get scene.ID = none)
    (hf : scene.Files = file :: rest)
    (hp : MapPath imp.pathMapper file.Path = .ok mapped) :
    (∃ t, (ImportScenes svc imp (pre ++ [scene])).1.gh.calls =
      (ImportScenes svc imp pre).1.gh.calls ++
        Request.importScene
          (ImportScenes.request (ImportScenes svc imp pre).1 scene file mapped) :: t) ∧
    (∃ t, (ImportScenes svc imp (pre ++ [scene])).1.gh.wire =
      (ImportScenes svc imp pre).1.gh.wire ++
        Request.importScene
          (ImportScenes.request (ImportScenes svc imp pre).1 scene file mapped) :: t) ∧
    (ImportScenes.request (ImportScenes svc imp pre).1 scene file mapped).StudioID =
      (match scene.Studio with
        | none => none
        | some studio => imp.idMap.Studios.get studio.ID) ∧
    (∀ statusCode body,
      svc (ImportScenes svc imp pre).1.gh.wire
        (.importScene (ImportScenes.request (ImportScenes svc imp pre).1 scene file mapped))
        = .response statusCode body →
      statusCode < 400 → (∀ id, body ≠ .failed id) →
      (ImportScenes svc imp (pre ++ [scene])).2 = (ImportScenes svc imp pre).2.incCreated ∧
      (ImportScenes svc imp (pre ++ [scene])).1.idMap.Scenes.get scene.ID = some body.id) ∧
    (∀ firstStatus firstBody statusCode body,
      svc (ImportScenes svc imp pre).1.gh.wire
        (.importScene (ImportScenes.request (ImportScenes svc imp pre).1 scene file mapped))
        = .response firstStatus firstBody →
      500 ≤ firstStatus →
      svc ((ImportScenes svc imp pre).1.gh.wire ++
          [.importScene (ImportScenes.request (ImportScenes svc imp pre).1 scene file mapped)])
        (.importScene (ImportScenes.request (ImportScenes svc imp pre).1 scene file mapped))
        = .response statusCode body →
      statusCode < 400 → (∀ id, body ≠ .failed id) →
      (ImportScenes svc imp (pre ++ [scene])).2 = (ImportScenes svc imp pre).2.incCreated ∧
      (ImportScenes svc imp (pre ++ [scene])).1.idMap.Scenes.get scene.ID = some body.id) ∧
    (∀ id gh,
      ImportScene svc (ImportScenes svc imp pre).1.gh
        (ImportScenes.request (ImportScenes svc imp pre).1 scene file mapped) = (.ok id, gh) →
      (ImportScenes svc imp (pre ++ [scene])).2 = (ImportScenes svc imp pre).2.incCreated ∧
      (ImportScenes svc imp (pre ++ [scene])).1.idMap.Scenes.get scene.ID = some id) := by
  have adv := importScenes_advances svc imp pre
  have hd : (ImportScenes svc imp pre).1.cfg.DryRun = false := by rw [adv.cfg]; exact hdry
  have hp1 : MapPath (ImportScenes svc imp pre).1.pathMapper file.Path = .ok mapped := by
    rw [adv.pathMapper]; exact hp
  have h := importScenes_step_request svc (ImportScenes svc imp pre).1
    (ImportScenes svc imp pre).2 scene file rest mapped hd hm hf hp1
  have hw := importScenes_step_wire svc (ImportScenes svc imp pre).1
    (ImportScenes svc imp pre).2 scene file rest mapped hd hm hf hp1
  rw [importScenes_snoc]
  refine ⟨h.1, hw, ?_, ?_, ?_, h.2⟩
  · simp only [ImportScenes.request, importScenes_studios]
  · intro statusCode body hsvc hs hb
    exact h.2 _ _ (clientCall_accepted svc _ _ statusCode body hsvc hs hb)
  · intro s1 b1 statusCode body hfirst h500 hsvc hs hb
    exact h.2 _ _ (clientCall_accepted_on_retry svc _ _ s1 statusCode b1 body hfirst h500 hsvc
      hs hb)

/-- A scene whose studio `st9` is not mapped is sent to the destination without
`StudioID`; the destination answers 201 with id 10, and the scene is mapped to 10
and counted as `Created`, after one HTTP attempt.  With `st9` mapped to 4 the request carries
`StudioID = 4`. -/
theorem studio_miss_tolerated_witness :
    ((sampleImporter false).cfg.DryRun = false ∧
      MapPath (sampleImporter false).pathMapper sampleFile.Path
        = .ok ⟨"/data/videos/clip.mp4", 3⟩ ∧
      serviceAccepts (ImportScenes serviceAccepts (sampleImporter false) []).1.gh.wire
        (.importScene (ImportScenes.request
          (ImportScenes serviceAccepts (sampleImporter false) []).1
          { sampleScene "s1" [sampleFile] [] with Studio := some ⟨"st9"⟩ } sampleFile
          ⟨"/data/videos/clip.mp4", 3⟩)) = .response 201 (.decoded 10)) ∧
    (ImportScenes.request (sampleImporter false)
      { sampleScene "s1" [sampleFile] [] with Studio := some ⟨"st9"⟩ } sampleFile
      ⟨"/data/videos/clip.mp4", 3⟩).StudioID = none ∧
    ((ImportScenes serviceAccepts (sampleImporter false)
        ([] ++ [{ sampleScene "s1" [sampleFile] [] with Studio := some ⟨"st9"⟩ }])).2
        = PhaseStats.incCreated ⟨0, 0, 0⟩ ∧
      (ImportScenes serviceAccepts (sampleImporter false)
        ([] ++ [{ sampleScene "s1" [sampleFile] [] with
          Studio := some ⟨"st9"⟩ }])).1.idMap.Scenes.get "s1" = some 10) ∧
    ((∃ t, (ImportScenes serviceAccepts (sampleImporter false)
        ([] ++ [{ sampleScene "s1" [sampleFile] [] with Studio := some ⟨"st9"⟩ }])).1.gh.wire =
        (ImportScenes serviceAccepts (sampleImporter false) []).1.gh.wire ++
          Request.importScene (ImportScenes.request
            (ImportScenes serviceAccepts (sampleImporter false) []).1
            { sampleScene "s1" [sampleFile] [] with Studio := some ⟨"st9"⟩ } sampleFile
            ⟨"/data/videos/clip.mp4", 3⟩) :: t) ∧
      (ImportScenes serviceAccepts (sampleImporter false)
        [{ sampleScene "s1" [sampleFile] [] with Studio := some ⟨"st9"⟩ }]).1.gh.wire.length
        = 1) ∧
    (ImportScenes.request
      { sampleImporter false with idMap := { NewIDMap with Studios := [("st9", 4)] } }
      { sampleScene "s1" [sampleFile] [] with Studio := some ⟨"st9"⟩ } sampleFile
      ⟨"/data/videos/clip.mp4", 3⟩).StudioID = some 4 :=
  ⟨⟨rfl, by decide, rfl⟩,
    (studio_miss_tolerated serviceAccepts (sampleImporter false) []
      { sampleScene "s1" [sampleFile] [] with Studio := some ⟨"st9"⟩ } sampleFile []
      ⟨"/data/videos/clip.mp4", 3⟩ rfl rfl rfl (by decide)).2.2.1,
    (studio_miss_tolerated serviceAccepts (sampleImporter false) []
      { sampleScene "s1" [sampleFile] [] with Studio := some ⟨"st9"⟩ } sampleFile []
      ⟨"/data/videos/clip.mp4", 3⟩ rfl rfl rfl (by decide)).2.2.2.1 201 (.decoded 10) rfl
      (by decide) (fun _ h => by cases h),
    ⟨(studio_miss_tolerated serviceAccepts (sampleImporter false) []
      { sampleScene "s1" [sampleFile] [] with Studio := some ⟨"st9"⟩ } sampleFile []
      ⟨"/data/videos/clip.mp4", 3⟩ rfl rfl rfl (by decide)).2.1, by decide⟩,
    by decide⟩

theorem importTags_step_created [UnicodeCase] (svc : Service) (imp : Importer) (stats : PhaseStats)
    (tag : StashTag) (hdry : imp.cfg.DryRun = false)
    (h : (ImportTags.step svc imp stats tag).2.Created = stats.Created + 1) :
    ∃ m, (ImportTags.step svc imp stats tag).1.idMap.Tags.get tag.ID = some m ∧
      (ImportTags.step svc imp stats tag).1.ghTags.get (toLower tag.Name) = some m := by
  unfold ImportTags.step at h ⊢
  split
  · next h1 => simp [h1, PhaseStats.incSkipped] at h
  · next h1 =>
    simp only [h1] at h
    split
    · next h2 => simp [h2, PhaseStats.incSkipped] at h
    · next h2 =>
      simp only [h2] at h
      rw [if_neg (by simp [hdry])] at h ⊢
      split
      · next err gh heq =>
        rw [heq] at h
        simp only at h
        split at h <;> simp [PhaseStats.incSkipped, PhaseStats.incErrors] at h
      · next id gh heq => exact ⟨id, goMap_get_set_self _ _ _, goMap_get_set_self _ _ _⟩

theorem importStudios_step_created [UnicodeCase] (svc : Service) (imp : Importer) (stats : PhaseStats)
    (studio : StashStudio) (hdry : imp.cfg.DryRun = false)
    (h : (ImportStudios.step svc imp stats studio).2.Created = stats.Created + 1) :
    ∃ m, (ImportStudios.step svc imp stats studio).1.idMap.Studios.get studio.ID = some m ∧
      (ImportStudios.step svc imp stats studio).1.ghStudios.get (toLower studio.Name)
        = some m := by
  unfold ImportStudios.step at h ⊢
  split
  · next h1 => simp [h1, PhaseStats.incSkipped] at h
  · next h1 =>
    simp only [h1] at h
    split
    · next h2 => simp [h2, PhaseStats.incSkipped] at h
    · next h2 =>
      simp only [h2] at h
      rw [if_neg (by simp [hdry])] at h ⊢
      split
      · next err gh heq =>
        rw [heq] at h
        simp only at h
        split at h <;> simp [PhaseStats.incSkipped, PhaseStats.incErrors] at h
      · next id gh heq => exact ⟨id, goMap_get_set_self _ _ _, goMap_get_set_self _ _ _⟩

theorem importPerformers_step_created [UnicodeCase] (svc : Service) (imp : Importer) (stats : PhaseStats)
    (perf : StashPerformer) (hdry : imp.cfg.DryRun = false)
    (h : (ImportPerformers.step svc imp stats perf).2.Created = stats.Created + 1) :
    ∃ m, (ImportPerformers.step svc imp stats perf).1.idMap.Actors.get perf.ID = some m ∧
      (ImportPerformers.step svc imp stats perf).1.ghActors.get (toLower perf.Name)
        = some m := by
  unfold ImportPerformers.step at h ⊢
  split
  · next h1 => simp [h1, PhaseStats.incSkipped] at h
  · next h1 =>
    simp only [h1] at h
    split
    · next h2 => simp [h2, PhaseStats.incSkipped] at h
    · next h2 =>
      simp only [h2] at h
      rw [if_neg (by simp [hdry])] at h ⊢
      split
      · next err gh heq =>
        rw [heq] at h
        simp only at h
        split at h <;> simp [PhaseStats.incSkipped, PhaseStats.incErrors] at h
      · next id gh heq => exact ⟨id, goMap_get_set_self _ _ _, goMap_get_set_self _ _ _⟩

theorem importTags_visible [UnicodeCase] (svc : Service) (imp : Importer) (pre mid post : List StashTag)
    (t1 t2 : StashTag) (n : Nat) (hdry : imp.cfg.DryRun = false)
    (hc : (ImportTags svc imp (pre ++ [t1])).2.Created = (ImportTags svc imp pre).2.Created + 1)
    (hn : (ImportTags svc imp (pre ++ [t1])).1.idMap.Tags.get t1.ID = some n)
    (hname : toLower t2.Name = toLower t1.Name)
    (hm : (ImportTags svc imp (pre ++ t1 :: mid)).1.idMap.Tags.get t2.ID = none) :
    (ImportTags svc imp (pre ++ t1 :: mid ++ [t2])).1.idMap.Tags.get t2.ID = some n ∧
    (ImportTags svc imp (pre ++ t1 :: mid ++ [t2])).2 =
      (ImportTags svc imp (pre ++ t1 :: mid)).2.incSkipped ∧
    (ImportTags svc imp (pre ++ t1 :: mid ++ [t2])).1.gh =
      (ImportTags svc imp (pre ++ t1 :: mid)).1.gh ∧
    (ImportTags svc imp (pre ++ t1 :: mid ++ t2 :: post)).1.idMap.Tags.get t2.ID = some n := by
  have adv := importTags_advances svc imp pre
  rw [importTags_snoc] at hc hn
  obtain ⟨m, h1, h2⟩ := importTags_step_created svc _ _ t1 (by rw [adv.cfg]; exact hdry) hc
  rw [h1] at hn
  have hmn : m = n := Option.some.inj hn
  rw [hmn] at h2
  rw [← importTags_snoc] at h2
  have hcache : (ImportTags svc imp (pre ++ t1 :: mid)).1.ghTags.get (toLower t2.Name)
      = some n := by
    have := (importTags_append svc imp (pre ++ [t1]) mid).ghTags _ _ h2
    rw [hname]
    simpa using this
  have hstep := importTags_step_reuse svc _ (ImportTags svc imp (pre ++ t1 :: mid)).2 t2 n
    hm hcache
  have hsnoc := importTags_snoc svc imp (pre ++ t1 :: mid) t2
  have r1 : (ImportTags svc imp (pre ++ t1 :: mid ++ [t2])).1.idMap.Tags.get t2.ID = some n := by
    rw [hsnoc, hstep]; exact goMap_get_set_self _ _ _
  refine ⟨r1, by rw [hsnoc, hstep], by rw [hsnoc, hstep], ?_⟩
  have := (importTags_append svc imp (pre ++ t1 :: mid ++ [t2]) post).idMap.Tags _ _ r1
  simpa using this

theorem importStudios_visible [UnicodeCase] (svc : Service) (imp : Importer) (pre mid post : List StashStudio)
    (t1 t2 : StashStudio) (n : Nat) (hdry : imp.cfg.DryRun = false)
    (hc : (ImportStudios.pass1 svc imp (pre ++ [t1])).2.Created = (ImportStudios.pass1 svc imp pre).2.Created + 1)
    (hn : (ImportStudios.pass1 svc imp (pre ++ [t1])).1.idMap.Studios.get t1.ID = some n)
    (hname : toLower t2.Name = toLower t1.Name)
    (hm : (ImportStudios.pass1 svc imp (pre ++ t1 :: mid)).1.idMap.Studios.get t2.ID = none) :
    (ImportStudios.pass1 svc imp (pre ++ t1 :: mid ++ [t2])).1.idMap.Studios.get t2.ID = some n ∧
    (ImportStudios.pass1 svc imp (pre ++ t1 :: mid ++ [t2])).2 =
      (ImportStudios.pass1 svc imp (pre ++ t1 :: mid)).2.incSkipped ∧
    (ImportStudios.pass1 svc imp (pre ++ t1 :: mid ++ [t2])).1.gh =
      (ImportStudios.pass1 svc imp (pre ++ t1 :: mid)).1.gh ∧
    (ImportStudios svc imp (pre ++ t1 :: mid ++ t2 :: post)).1.idMap.Studios.get t2.ID = some n := by
  have adv := importStudios_pass1_advances svc imp pre
  rw [importStudios_pass1_snoc] at hc hn
  obtain ⟨m, h1, h2⟩ := importStudios_step_created svc _ _ t1 (by rw [adv.cfg]; exact hdry) hc
  rw [h1] at hn
  have hmn : m = n := Option.some.inj hn
  rw [hmn] at h2
  rw [← importStudios_pass1_snoc] at h2
  have hcache : (ImportStudios.pass1 svc imp (pre ++ t1 :: mid)).1.ghStudios.get (toLower t2.Name)
      = some n := by
    have := (importStudios_pass1_append svc imp (pre ++ [t1]) mid).ghStudios _ _ h2
    rw [hname]
    simpa using this
  have hstep := importStudios_step_reuse svc _ (ImportStudios.pass1 svc imp (pre ++ t1 :: mid)).2 t2 n
    hm hcache
  have hsnoc := importStudios_pass1_snoc svc imp (pre ++ t1 :: mid) t2
  have r1 : (ImportStudios.pass1 svc imp (pre ++ t1 :: mid ++ [t2])).1.idMap.Studios.get t2.ID = some n := by
    rw [hsnoc, hstep]; exact goMap_get_set_self _ _ _
  refine ⟨r1, by rw [hsnoc, hstep], by rw [hsnoc, hstep], ?_⟩
  have h3 := (importStudios_pass1_append svc imp (pre ++ t1 :: mid ++ [t2]) post).idMap.Studios
    _ _ r1
  have h4 : (ImportStudios.pass1 svc imp (pre ++ t1 :: mid ++ t2 :: post)).1.idMap.Studios.get
      t2.ID = some n := by simpa using h3
  exact (importStudios_pass2_advances svc _ _).idMap.Studios _ _ h4

theorem importPerformers_visible [UnicodeCase] (svc : Service) (imp : Importer) (pre mid post : List StashPerformer)
    (t1 t2 : StashPerformer) (n : Nat) (hdry : imp.cfg.DryRun = false)
    (hc : (ImportPerformers svc imp (pre ++ [t1])).2.Created = (ImportPerformers svc imp pre).2.Created + 1)
    (hn : (ImportPerformers svc imp (pre ++ [t1])).1.idMap.Actors.get t1.ID = some n)
    (hname : toLower t2.Name = toLower t1.Name)
    (hm : (ImportPerformers svc imp (pre ++ t1 :: mid)).1.idMap.Actors.get t2.ID = none) :
    (ImportPerformers svc imp (pre ++ t1 :: mid ++ [t2])).1.idMap.Actors.get t2.ID = some n ∧
    (ImportPerformers svc imp (pre ++ t1 :: mid ++ [t2])).2 =
      (ImportPerformers svc imp (pre ++ t1 :: mid)).2.incSkipped ∧
    (ImportPerformers svc imp (pre ++ t1 :: mid ++ [t2])).1.gh =
      (ImportPerformers svc imp (pre ++ t1 :: mid)).1.gh ∧
    (ImportPerformers svc imp (pre ++ t1 :: mid ++ t2 :: post)).1.idMap.Actors.get t2.ID = some n := by
  have adv := importPerformers_advances svc imp pre
  rw [importPerformers_snoc] at hc hn
  obtain ⟨m, h1, h2⟩ := importPerformers_step_created svc _ _ t1 (by rw [adv.cfg]; exact hdry) hc
  rw [h1] at hn
  have hmn : m = n := Option.some.inj hn
  rw [hmn] at h2
  rw [← importPerformers_snoc] at h2
  have hcache : (ImportPerformers svc imp (pre ++ t1 :: mid)).1.ghActors.get (toLower t2.Name)
      = some n := by
    have := (importPerformers_append svc imp (pre ++ [t1]) mid).ghActors _ _ h2
    rw [hname]
    simpa using this
  have hstep := importPerformers_step_reuse svc _ (ImportPerformers svc imp (pre ++ t1 :: mid)).2 t2 n
    hm hcache
  have hsnoc := importPerformers_snoc svc imp (pre ++ t1 :: mid) t2
  have r1 : (ImportPerformers svc imp (pre ++ t1 :: mid ++ [t2])).1.idMap.Actors.get t2.ID = some n := by
    rw [hsnoc, hstep]; exact goMap_get_set_self _ _ _
  refine ⟨r1, by rw [hsnoc, hstep], by rw [hsnoc, hstep], ?_⟩
  have := (importPerformers_append svc imp (pre ++ t1 :: mid ++ [t2]) post).idMap.Actors _ _ r1
  simpa using this

/-- C17 (in-phase visibility of created names): in a non-simulation run over the
inventory `pre ++ t1 :: mid ++ t2 :: post`, if processing the tag `t1` increments
`Created` and maps `t1` to `n`, and the later tag `t2` has the same name once both
are lower-cased by `strings.ToLower` (over any case tables, Go's among them) and
is not in `idMap.Tags` when it is reached, then processing `t2` maps it to `n`,
increments `Skipped` only and leaves the client untouched (no call, no HTTP
attempt), and the entry is still there when the phase ends; likewise for studios
and for performers. -/
theorem created_name_visible [UnicodeCase] (svc : Service) (imp : Importer) (hdry : imp.cfg.DryRun = false)
    (n : Nat) :
    (∀ (pre mid post : List StashTag) (t1 t2 : StashTag),
      (ImportTags svc imp (pre ++ [t1])).2.Created = (ImportTags svc imp pre).2.Created + 1 →
      (ImportTags svc imp (pre ++ [t1])).1.idMap.Tags.get t1.ID = some n →
      toLower t2.Name = toLower t1.Name →
      (ImportTags svc imp (pre ++ t1 :: mid)).1.idMap.Tags.get t2.ID = none →
      (ImportTags svc imp (pre ++ t1 :: mid ++ [t2])).1.idMap.Tags.get t2.ID = some n ∧
      (ImportTags svc imp (pre ++ t1 :: mid ++ [t2])).2 =
        (ImportTags svc imp (pre ++ t1 :: mid)).2.incSkipped ∧
      (ImportTags svc imp (pre ++ t1 :: mid ++ [t2])).1.gh =
        (ImportTags svc imp (pre ++ t1 :: mid)).1.gh ∧
      (ImportTags svc imp (pre ++ t1 :: mid ++ t2 :: post)).1.idMap.Tags.get t2.ID = some n) ∧
    (∀ (pre mid post : List StashStudio) (t1 t2 : StashStudio),
      (ImportStudios.pass1 svc imp (pre ++ [t1])).2.Created =
        (ImportStudios.pass1 svc imp pre).2.Created + 1 →
      (ImportStudios.pass1 svc imp (pre ++ [t1])).1.idMap.Studios.get t1.ID = some n →
      toLower t2.Name = toLower t1.Name →
      (ImportStudios.pass1 svc imp (pre ++ t1 :: mid)).1.idMap.Studios.get t2.ID = none →
      (ImportStudios.pass1 svc imp (pre ++ t1 :: mid ++ [t2])).1.idMap.Studios.get t2.ID
        = some n ∧
      (ImportStudios.pass1 svc imp (pre ++ t1 :: mid ++ [t2])).2 =
        (ImportStudios.pass1 svc imp (pre ++ t1 :: mid)).2.incSkipped ∧
      (ImportStudios.pass1 svc imp (pre ++ t1 :: mid ++ [t2])).1.gh =
        (ImportStudios.pass1 svc imp (pre ++ t1 :: mid)).1.gh ∧
      (ImportStudios svc imp (pre ++ t1 :: mid ++ t2 :: post)).1.idMap.Studios.get t2.ID
        = some n) ∧
    (∀ (pre mid post : List StashPerformer) (t1 t2 : StashPerformer),
      (ImportPerformers svc imp (pre ++ [t1])).2.Created =
        (ImportPerformers svc imp pre).2.Created + 1 →
      (ImportPerformers svc imp (pre ++ [t1])).1.idMap.Actors.get t1.ID = some n →
      toLower t2.Name = toLower t1.Name →
      (ImportPerformers svc imp (pre ++ t1 :: mid)).1.idMap.Actors.get t2.ID = none →
      (ImportPerformers svc imp (pre ++ t1 :: mid ++ [t2])).1.idMap.Actors.get t2.ID = some n ∧
      (ImportPerformers svc imp (pre ++ t1 :: mid ++ [t2])).2 =
        (ImportPerformers svc imp (pre ++ t1 :: mid)).2.incSkipped ∧
      (ImportPerformers svc imp (pre ++ t1 :: mid ++ [t2])).1.gh =
        (ImportPerformers svc imp (pre ++ t1 :: mid)).1.gh ∧
      (ImportPerformers svc imp (pre ++ t1 :: mid ++ t2 :: post)).1.idMap.Actors.get t2.ID
        = some n) :=
  ⟨fun pre mid post t1 t2 hc hn hname hm =>
      importTags_visible svc imp pre mid post t1 t2 n hdry hc hn hname hm,
    fun pre mid post t1 t2 hc hn hname hm =>
      importStudios_visible svc imp pre mid post t1 t2 n hdry hc hn hname hm,
    fun pre mid post t1 t2 hc hn hname hm =>
      importPerformers_visible svc imp pre mid post t1 t2 n hdry hc hn hname hm⟩

/-- The tag `École` is created as 10 and the later tag `ÉCOLE`, with another
source id, is mapped to 10 and skipped; likewise the studios `Studio A` and
`STUDIO A` and the performers `Jane` and `JANE`.  One create call and one HTTP
attempt are made in each phase. -/
theorem created_name_visible_witness :
    ((sampleImporter false).cfg.DryRun = false ∧ toLower "ÉCOLE" = toLower "École" ∧
      toLower "STUDIO A" = toLower "Studio A" ∧ toLower "JANE" = toLower "Jane") ∧
    ((ImportTags serviceAccepts (sampleImporter false)
        ([] ++ (⟨"t1", "École"⟩ : StashTag) :: [] ++ [⟨"t2", "ÉCOLE"⟩])).1.idMap.Tags.get "t2"
        = some 10 ∧
      (ImportTags serviceAccepts (sampleImporter false)
        [⟨"t1", "École"⟩, ⟨"t2", "ÉCOLE"⟩]).2 = ⟨1, 1, 0⟩ ∧
      (ImportTags serviceAccepts (sampleImporter false)
        [⟨"t1", "École"⟩, ⟨"t2", "ÉCOLE"⟩]).1.gh =
        ⟨[.createTag ⟨"École", ""⟩], [.createTag ⟨"École", ""⟩]⟩) ∧
    ((ImportStudios.pass1 serviceAccepts (sampleImporter false)
        ([] ++ sampleStudio "1" "Studio A" none :: [] ++
          [sampleStudio "2" "STUDIO A" none])).1.idMap.Studios.get "2" = some 10 ∧
      (ImportStudios serviceAccepts (sampleImporter false)
        [sampleStudio "1" "Studio A" none, sampleStudio "2" "STUDIO A" none]).2 = ⟨1, 1, 0⟩ ∧
      (ImportStudios serviceAccepts (sampleImporter false)
        [sampleStudio "1" "Studio A" none, sampleStudio "2" "STUDIO A" none]).1.gh =
        ⟨[.createStudio (ImportStudios.request (sampleStudio "1" "Studio A" none))],
          [.createStudio (ImportStudios.request (sampleStudio "1" "Studio A" none))]⟩) ∧
    ((ImportPerformers serviceAccepts (sampleImporter false)
        ([] ++ samplePerformer "p1" "Jane" :: [] ++
          [samplePerformer "p2" "JANE"])).1.idMap.Actors.get "p2" = some 10 ∧
      (ImportPerformers serviceAccepts (sampleImporter false)
        [samplePerformer "p1" "Jane", samplePerformer "p2" "JANE"]).2 = ⟨1, 1, 0⟩ ∧
      (ImportPerformers serviceAccepts (sampleImporter false)
        [samplePerformer "p1" "Jane", samplePerformer "p2" "JANE"]).1.gh =
        ⟨[.createActor (ImportPerformers.request (samplePerformer "p1" "Jane"))],
          [.createActor (ImportPerformers.request (samplePerformer "p1" "Jane"))]⟩) :=
  ⟨⟨rfl, by decide, by decide, by decide⟩,
    ⟨((created_name_visible serviceAccepts (sampleImporter false) rfl 10).1 [] [] []
        ⟨"t1", "École"⟩ ⟨"t2", "ÉCOLE"⟩ (by decide) (by decide) (by decide) (by decide)).1,
      by decide, by decide⟩,
    ⟨((created_name_visible serviceAccepts (sampleImporter false) rfl 10).2.1 [] [] []
        (sampleStudio "1" "Studio A" none) (sampleStudio "2" "STUDIO A" none)
        (by decide) (by decide) (by decide) (by decide)).1,
      by decide, by decide⟩,
    ⟨((created_name_visible serviceAccepts (sampleImporter false) rfl 10).2.2 [] [] []
        (samplePerformer "p1" "Jane") (samplePerformer "p2" "JANE")
        (by decide) (by decide) (by decide) (by decide)).1,
      by decide, by decide⟩⟩

theorem clientCall_conflict (svc : Service) (c : GoonHubClient) (r : Request) (b : Bool)
    (body : RespBody) (h : svc c.wire r = .response 409 body) :
    clientCall svc c r b =
      (.error (.wrapError (.conflictError body.id)), ⟨c.calls ++ [r], c.wire ++ [r]⟩) := by
  have h1 : doRequest svc { c with calls := c.calls ++ [r] } r b =
      (.error (.conflictError body.id), ⟨c.calls ++ [r], c.wire ++ [r]⟩) := by
    simp [doRequest, h]
  simp [clientCall, doWithRetry, h1]

/-- A conflict answered to the create request of a tag, studio, performer or
marker leaves `idMap` and the name caches as they were, whatever id the body of
the answer carries: the conflict branches of these four loops test `isConflict`
only, and none reads `ExistingID`. -/
theorem create_conflict_records_nothing [UnicodeCase] (svc : Service) (imp : Importer)
    (stats : PhaseStats) (body : RespBody) (hdry : imp.cfg.DryRun = false) :
    (∀ tag : StashTag, imp.idMap.Tags.get tag.ID = none →
      imp.ghTags.get (toLower tag.Name) = none →
      svc imp.gh.wire (.createTag ⟨tag.Name, ""⟩) = .response 409 body →
      (ImportTags.step svc imp stats tag).1.idMap = imp.idMap ∧
      (ImportTags.step svc imp stats tag).1.ghTags = imp.ghTags) ∧
    (∀ studio : StashStudio, imp.idMap.Studios.get studio.ID = none →
      imp.ghStudios.get (toLower studio.Name) = none →
      svc imp.gh.wire (.createStudio (ImportStudios.request studio)) = .response 409 body →
      (ImportStudios.step svc imp stats studio).1.idMap = imp.idMap ∧
      (ImportStudios.step svc imp stats studio).1.ghStudios = imp.ghStudios) ∧
    (∀ perf : StashPerformer, imp.idMap.Actors.get perf.ID = none →
      imp.ghActors.get (toLower perf.Name) = none →
      svc imp.gh.wire (.createActor (ImportPerformers.request perf)) = .response 409 body →
      (ImportPerformers.step svc imp stats perf).1.idMap = imp.idMap ∧
      (ImportPerformers.step svc imp stats perf).1.ghActors = imp.ghActors) ∧
    (∀ (ghSceneID : Nat) (marker : StashMarker), imp.idMap.Markers.get marker.ID = none →
      svc imp.gh.wire
        (.importMarker
          { SceneID := ghSceneID, UserID := imp.cfg.MarkerUserID
            Timestamp := truncToInt marker.Seconds, Label := marker.Title, Color := "#FFFFFF" })
        = .response 409 body →
      (ImportMarkers.markerStep svc ghSceneID imp stats marker).1.idMap = imp.idMap) := by
  refine ⟨?_, ?_, ?_, ?_⟩
  · intro tag h1 h2 h3
    have hc := clientCall_conflict svc imp.gh _ true body h3
    simp only [ImportTags.step, h1, h2, hdry, CreateTag, hc, Bool.false_eq_true, if_false]
    split <;> exact ⟨rfl, rfl⟩
  · intro studio h1 h2 h3
    have hc := clientCall_conflict svc imp.gh _ true body h3
    simp only [ImportStudios.step, h1, h2, hdry, CreateStudio, hc, Bool.false_eq_true, if_false]
    split <;> exact ⟨rfl, rfl⟩
  · intro perf h1 h2 h3
    have hc := clientCall_conflict svc imp.gh _ true body h3
    simp only [ImportPerformers.step, h1, h2, hdry, CreateActor, hc, Bool.false_eq_true,
      if_false]
    split <;> exact ⟨rfl, rfl⟩
  · intro g marker h1 h3
    have hc := clientCall_conflict svc imp.gh _ true body h3
    simp only [ImportMarkers.markerStep, h1, hdry, ImportMarker, hc, Bool.false_eq_true,
      if_false]
    split <;> rfl

/-- C18, the code at the failing inputs: the destination answers the create
request of a tag, a studio, a performer and a marker with 409 and the existing
id 42.  The client method returns the `*ConflictError` that carries 42, wrapped;
no phase records 42, or anything, for the source id, and each counts the entity in
`Errors`, not in `Skipped`. -/
theorem conflict_hint_dropped :
    ((CreateTag (serviceConflicts 42) ⟨[], []⟩ "anal" "").1
        = .error (.wrapError (.conflictError 42)) ∧
      (ImportTags (serviceConflicts 42) (sampleImporter false)
        [⟨"t1", "anal"⟩]).1.idMap.Tags.get "t1" = none ∧
      (ImportTags (serviceConflicts 42) (sampleImporter false) [⟨"t1", "anal"⟩]).2
        = ⟨0, 0, 1⟩) ∧
    ((CreateStudio (serviceConflicts 42) ⟨[], []⟩
        (ImportStudios.request (sampleStudio "1" "Studio A" none))).1
        = .error (.wrapError (.conflictError 42)) ∧
      (ImportStudios (serviceConflicts 42) (sampleImporter false)
        [sampleStudio "1" "Studio A" none]).1.idMap.Studios.get "1" = none ∧
      (ImportStudios (serviceConflicts 42) (sampleImporter false)
        [sampleStudio "1" "Studio A" none]).2 = ⟨0, 0, 1⟩) ∧
    ((CreateActor (serviceConflicts 42) ⟨[], []⟩
        (ImportPerformers.request (samplePerformer "p1" "Jane"))).1
        = .error (.wrapError (.conflictError 42)) ∧
      (ImportPerformers (serviceConflicts 42) (sampleImporter false)
        [samplePerformer "p1" "Jane"]).1.idMap.Actors.get "p1" = none ∧
      (ImportPerformers (serviceConflicts 42) (sampleImporter false)
        [samplePerformer "p1" "Jane"]).2 = ⟨0, 0, 1⟩) ∧
    ((ImportMarker (serviceConflicts 42) ⟨[], []⟩
        { SceneID := 5, UserID := 1, Timestamp := 12, Label := "intro", Color := "#FFFFFF" }).1
        = .error (.wrapError (.conflictError 42)) ∧
      (ImportMarkers (serviceConflicts 42)
        { sampleImporter false with idMap := { NewIDMap with Scenes := [("s1", 5)] } }
        [sampleScene "s1" [sampleFile] [sampleMarker "m1" "intro"]]).1.idMap.Markers.get "m1"
          = none ∧
      (ImportMarkers (serviceConflicts 42)
        { sampleImporter false with idMap := { NewIDMap with Scenes := [("s1", 5)] } }
        [sampleScene "s1" [sampleFile] [sampleMarker "m1" "intro"]]).2 = ⟨0, 0, 1⟩) := by
  decide

theorem goMap_nonZero_set (m : GoMap) (k : String) (v : Nat) (hm : m.NonZero) (hv : v ≠ 0) :
    (m.set k v).NonZero := by
  intro k' v' h
  rw [goMap_get_set] at h
  split_ifs at h
  · cases h; exact hv
  · exact hm k' v' h

theorem goMap_nonZero_nil : GoMap.NonZero [] := by
  intro k v h
  simp [GoMap.get] at h

theorem doRequest_ok_nonzero (svc : Service) (hsvc : svc.ReturnsIDs) (c c1 : GoonHubClient)
    (r : Request) (hr : r.isCreate = true) (id : Nat)
    (h : doRequest svc c r true = (.ok id, c1)) : id ≠ 0 := by
  unfold doRequest at h
  split at h
  · simp at h
  · next statusCode body heq =>
    split_ifs at h with h1 h2 h3
    · simp at h
    · simp at h
    · simp at h
    · have hlt : statusCode < 400 := by omega
      have hb := hsvc c.wire r statusCode hr hlt
      rw [heq] at hb
      cases body with
      | empty => exact absurd rfl hb.1
      | decoded n =>
        simp only [Prod.mk.injEq, Except.ok.injEq] at h
        intro h0
        rw [← h.1] at h0
        rw [h0] at hb
        exact absurd rfl hb.2
      | failed n => simp at h

theorem clientCall_ok_nonzero (svc : Service) (hsvc : svc.ReturnsIDs) (c c1 : GoonHubClient)
    (r : Request) (id : Nat) (h : clientCall svc c r true = (.ok id, c1))
    (hr : r.isCreate = true) : id ≠ 0 := by
  unfold clientCall at h
  split at h
  · simp at h
  · next id2 c2 heq =>
    simp only [Prod.mk.injEq, Except.ok.injEq] at h
    rw [← h.1]
    unfold doWithRetry at heq
    split at heq
    · next s c3 heq1 => exact doRequest_ok_nonzero svc hsvc _ _ r hr id2 heq
    · simp at heq
    · next id3 c3 heq1 =>
      simp only [Prod.mk.injEq, Except.ok.injEq] at heq
      rw [← heq.1]
      exact doRequest_ok_nonzero svc hsvc _ _ r hr id3 heq1

theorem foldl_inv {α β : Type} (P : Importer → Prop) (f : Importer → β → α → Importer × β)
    (hf : ∀ imp acc x, P imp → P (f imp acc x).1) (l : List α) (st : Importer × β)
    (h : P st.1) : P (l.foldl (fun st x => f st.1 st.2 x) st).1 := by
  induction l generalizing st with
  | nil => exact h
  | cons x xs ih => exact ih _ (hf st.1 st.2 x h)

theorem nonZero_of_gh (imp : Importer) (gh : GoonHubClient) (h : imp.NonZero) :
    Importer.NonZero { imp with gh := gh } :=
  ⟨h.Tags, h.Studios, h.Actors, h.Scenes, h.Markers, h.ghTags, h.ghStudios, h.ghActors⟩

theorem importTags_step_nonZero [UnicodeCase] (svc : Service) (hsvc : svc.ReturnsIDs) (imp : Importer)
    (stats : PhaseStats) (tag : StashTag) (h : imp.NonZero) :
    (ImportTags.step svc imp stats tag).1.NonZero := by
  unfold ImportTags.step
  split
  · exact h
  · split
    · next g hg =>
      exact ⟨goMap_nonZero_set _ _ _ h.Tags (h.ghTags _ _ hg), h.Studios, h.Actors, h.Scenes,
        h.Markers, h.ghTags, h.ghStudios, h.ghActors⟩
    · split
      · exact h
      · split
        · split <;> exact nonZero_of_gh _ _ h
        · next id gh heq =>
          have hid := clientCall_ok_nonzero svc hsvc _ _ _ id heq rfl
          exact ⟨goMap_nonZero_set _ _ _ h.Tags hid, h.Studios, h.Actors, h.Scenes,
            h.Markers, goMap_nonZero_set _ _ _ h.ghTags hid, h.ghStudios, h.ghActors⟩

theorem importStudios_step_nonZero [UnicodeCase] (svc : Service) (hsvc : svc.ReturnsIDs) (imp : Importer)
    (stats : PhaseStats) (studio : StashStudio) (h : imp.NonZero) :
    (ImportStudios.step svc imp stats studio).1.NonZero := by
  unfold ImportStudios.step
  split
  · exact h
  · split
    · next g hg =>
      exact ⟨h.Tags, goMap_nonZero_set _ _ _ h.Studios (h.ghStudios _ _ hg), h.Actors, h.Scenes,
        h.Markers, h.ghTags, h.ghStudios, h.ghActors⟩
    · split
      · exact h
      · split
        · split <;> exact nonZero_of_gh _ _ h
        · next id gh heq =>
          have hid := clientCall_ok_nonzero svc hsvc _ _ _ id heq rfl
          exact ⟨h.Tags, goMap_nonZero_set _ _ _ h.Studios hid, h.Actors, h.Scenes,
            h.Markers, h.ghTags, goMap_nonZero_set _ _ _ h.ghStudios hid, h.ghActors⟩

theorem importStudios_parentStep_nonZero (svc : Service) (imp : Importer) (n : Nat)
    (studio : StashStudio) (h : imp.NonZero) :
    (ImportStudios.parentStep svc imp n studio).1.NonZero := by
  unfold ImportStudios.parentStep
  repeat' split
  all_goals first
    | exact h
    | exact nonZero_of_gh _ _ h

theorem importPerformers_step_nonZero [UnicodeCase] (svc : Service) (hsvc : svc.ReturnsIDs) (imp : Importer)
    (stats : PhaseStats) (perf : StashPerformer) (h : imp.NonZero) :
    (ImportPerformers.step svc imp stats perf).1.NonZero := by
  unfold ImportPerformers.step
  split
  · exact h
  · split
    · next g hg =>
      exact ⟨h.Tags, h.Studios, goMap_nonZero_set _ _ _ h.Actors (h.ghActors _ _ hg), h.Scenes,
        h.Markers, h.ghTags, h.ghStudios, h.ghActors⟩
    · split
      · exact h
      · split
        · split <;> exact nonZero_of_gh _ _ h
        · next id gh heq =>
          have hid := clientCall_ok_nonzero svc hsvc _ _ _ id heq rfl
          exact ⟨h.Tags, h.Studios, goMap_nonZero_set _ _ _ h.Actors hid, h.Scenes,
            h.Markers, h.ghTags, h.ghStudios, goMap_nonZero_set _ _ _ h.ghActors hid⟩

theorem importScenes_associate_nonZero (svc : Service) (imp : Importer) (scene : StashScene)
    (id : Nat) (h : imp.NonZero) : (ImportScenes.associate svc imp scene id).NonZero := by
  unfold ImportScenes.associate
  simp only
  split <;> split <;> first
    | exact h
    | exact nonZero_of_gh _ _ h
    | exact nonZero_of_gh _ _ (nonZero_of_gh _ _ h)

theorem importScenes_step_nonZero (svc : Service) (hsvc : svc.ReturnsIDs) (imp : Importer)
    (stats : PhaseStats) (scene : StashScene) (h : imp.NonZero) :
    (ImportScenes.step svc imp stats scene).1.NonZero := by
  unfold ImportScenes.step
  split
  · exact h
  · split
    · exact h
    · split
      · exact h
      · split
        · exact h
        · split
          · split
            · next hk =>
              exact ⟨h.Tags, h.Studios, h.Actors,
                goMap_nonZero_set _ _ _ h.Scenes (Nat.pos_iff_ne_zero.mp hk), h.Markers,
                h.ghTags, h.ghStudios, h.ghActors⟩
            · exact nonZero_of_gh _ _ h
          · exact nonZero_of_gh _ _ h
          · next id gh heq =>
            have hid := clientCall_ok_nonzero svc hsvc _ _ _ id heq rfl
            exact importScenes_associate_nonZero svc _ scene id
              ⟨h.Tags, h.Studios, h.Actors, goMap_nonZero_set _ _ _ h.Scenes hid, h.Markers,
                h.ghTags, h.ghStudios, h.ghActors⟩

theorem importMarkers_markerStep_nonZero (svc : Service) (hsvc : svc.ReturnsIDs) (g : Nat)
    (imp : Importer) (stats : PhaseStats) (marker : StashMarker) (h : imp.NonZero) :
    (ImportMarkers.markerStep svc g imp stats marker).1.NonZero := by
  unfold ImportMarkers.markerStep
  split
  · exact h
  · split
    · exact h
    · split
      · split <;> exact nonZero_of_gh _ _ h
      · next id gh heq =>
        have hid := clientCall_ok_nonzero svc hsvc _ _ _ id heq rfl
        have hset : Importer.NonZero
            { imp with
              gh := gh
              idMap := { imp.idMap with Markers := imp.idMap.Markers.set marker.ID id } } :=
          ⟨h.Tags, h.Studios, h.Actors, h.Scenes, goMap_nonZero_set _ _ _ h.Markers hid,
            h.ghTags, h.ghStudios, h.ghActors⟩
        simp only
        split
        · exact nonZero_of_gh _ _ hset
        · exact hset

theorem importMarkers_step_nonZero (svc : Service) (hsvc : svc.ReturnsIDs) (imp : Importer)
    (stats : PhaseStats) (scene : StashScene) (h : imp.NonZero) :
    (ImportMarkers.step svc imp stats scene).1.NonZero := by
  unfold ImportMarkers.step
  split
  · exact h
  · exact foldl_inv Importer.NonZero _
      (fun i s m hi => importMarkers_markerStep_nonZero svc hsvc _ i s m hi) _ (imp, stats) h

theorem indexByName_nonZero [UnicodeCase] (cache : GoMap) (items : List GHListItem) (hc : cache.NonZero)
    (hi : ∀ e ∈ items, e.ID ≠ 0) : (indexByName cache items).NonZero := by
  unfold indexByName
  induction items generalizing cache with
  | nil => exact hc
  | cons x xs ih =>
    rw [List.foldl_cons]
    exact ih _ (goMap_nonZero_set _ _ _ hc (hi x (List.mem_cons_self _ _)))
      (fun e he => hi e (List.mem_cons_of_mem _ he))

theorem preFetchExisting_nonZero [UnicodeCase] (imp0 imp : Importer) (lt ls la : List GHListItem)
    (h0 : imp0.NonZero) (hlt : ∀ e ∈ lt, e.ID ≠ 0) (hls : ∀ e ∈ ls, e.ID ≠ 0)
    (hla : ∀ e ∈ la, e.ID ≠ 0)
    (h : PreFetchExisting imp0 (.ok lt) (.ok ls) (.ok la) = .ok imp) : imp.NonZero := by
  simp only [PreFetchExisting, Except.ok.injEq] at h
  subst h
  exact ⟨h0.Tags, h0.Studios, h0.Actors, h0.Scenes, h0.Markers,
    indexByName_nonZero _ _ h0.ghTags hlt, indexByName_nonZero _ _ h0.ghStudios hls,
    indexByName_nonZero _ _ h0.ghActors hla⟩

/-- C16, as amended (non-zero destination ids): if no value of the map and of the
name caches is zero at the start (as after `PreFetchExisting` when the map has no
zero value and every listed destination entity has a non-zero id), and the
destination never accepts a create request with an empty body or with a body
decoding to id 0, then after each of the five phases, for every inventory and
mode, no value of the map or of the caches is zero. -/
theorem recorded_ids_nonzero [UnicodeCase] (svc : Service) (imp : Importer) (hsvc : svc.ReturnsIDs)
    (hnz : imp.NonZero) (stashTags : List StashTag) (stashStudios : List StashStudio)
    (stashPerformers : List StashPerformer) (stashScenes : List StashScene) :
    (ImportTags svc imp stashTags).1.NonZero ∧
    (ImportStudios svc imp stashStudios).1.NonZero ∧
    (ImportPerformers svc imp stashPerformers).1.NonZero ∧
    (ImportScenes svc imp stashScenes).1.NonZero ∧
    (ImportMarkers svc imp stashScenes).1.NonZero ∧
    (∀ (imp0 imp1 : Importer) (lt ls la : List GHListItem), imp0.NonZero →
      (∀ e ∈ lt, e.ID ≠ 0) → (∀ e ∈ ls, e.ID ≠ 0) → (∀ e ∈ la, e.ID ≠ 0) →
      PreFetchExisting imp0 (.ok lt) (.ok ls) (.ok la) = .ok imp1 → imp1.NonZero) := by
  refine ⟨?_, ?_, ?_, ?_, ?_, ?_⟩
  · exact foldl_inv Importer.NonZero _
      (fun i s x hi => importTags_step_nonZero svc hsvc i s x hi) _ (imp, ⟨0, 0, 0⟩) hnz
  · exact foldl_inv Importer.NonZero _
      (fun i s x hi => importStudios_parentStep_nonZero svc i s x hi) _ _
      (foldl_inv Importer.NonZero _
        (fun i s x hi => importStudios_step_nonZero svc hsvc i s x hi) _ (imp, ⟨0, 0, 0⟩) hnz)
  · exact foldl_inv Importer.NonZero _
      (fun i s x hi => importPerformers_step_nonZero svc hsvc i s x hi) _ (imp, ⟨0, 0, 0⟩) hnz
  · exact foldl_inv Importer.NonZero _
      (fun i s x hi => importScenes_step_nonZero svc hsvc i s x hi) _ (imp, ⟨0, 0, 0⟩) hnz
  · exact foldl_inv Importer.NonZero _
      (fun i s x hi => importMarkers_step_nonZero svc hsvc i s x hi) _ (imp, ⟨0, 0, 0⟩) hnz
  · intro imp0 imp1 lt ls la h0 hlt hls hla h
    exact preFetchExisting_nonZero imp0 imp1 lt ls la h0 hlt hls hla h

theorem serviceAccepts_returnsIDs : serviceAccepts.ReturnsIDs := by
  intro history r statusCode _ _
  simp [serviceAccepts]

theorem sampleImporter_nonZero (dryRun : Bool) : (sampleImporter dryRun).NonZero :=
  ⟨goMap_nonZero_nil, goMap_nonZero_nil, goMap_nonZero_nil, goMap_nonZero_nil,
    goMap_nonZero_nil, goMap_nonZero_nil, goMap_nonZero_nil, goMap_nonZero_nil⟩

/-- With a destination that returns ids from 10 on, a fresh engine and one tag:
the tag is mapped to 10 and no value of the map is zero. -/
theorem recorded_ids_nonzero_witness :
    (serviceAccepts.ReturnsIDs ∧ (sampleImporter false).NonZero) ∧
    (ImportTags serviceAccepts (sampleImporter false) [⟨"t1", "anal"⟩]).1.NonZero ∧
    (ImportTags serviceAccepts (sampleImporter false) [⟨"t1", "anal"⟩]).1.idMap.Tags.get "t1"
      = some 10 :=
  ⟨⟨serviceAccepts_returnsIDs, sampleImporter_nonZero false⟩,
    (recorded_ids_nonzero serviceAccepts (sampleImporter false) serviceAccepts_returnsIDs
      (sampleImporter_nonZero false) [⟨"t1", "anal"⟩] [] [] []).1,
    by decide⟩

/-- C16 as stated fails: a create-tag request accepted with 201 and an empty body
records the id 0, and so does a destination tag listed with id 0. -/
theorem recorded_ids_counterexample :
    (ImportTags (fun _ _ => .response 201 .empty) (sampleImporter false)
      [⟨"t1", "anal"⟩]).1.idMap.Tags.get "t1" = some 0 ∧
    (ImportScenes (fun _ _ => .response 200 (.decoded 0)) (sampleImporter false)
      [sampleScene "s1" [sampleFile] []]).1.idMap.Scenes.get "s1" = some 0 ∧
    PreFetchExisting (sampleImporter false) (.ok [⟨0, "Anal"⟩]) (.ok []) (.ok [])
      = .ok { sampleImporter false with ghTags := [("anal", 0)] } ∧
    (ImportTags serviceAccepts { sampleImporter false with ghTags := [("anal", 0)] }
      [⟨"t1", "anal"⟩]).1.idMap.Tags.get "t1" = some 0 := by
  decide

theorem toLower_eq_empty [UnicodeCase] (s : String) : toLower s = "" ↔ s = "" := by
  constructor
  · intro h
    have h1 : (toLower s).data = [] := by rw [h]
    simp only [toLower, List.map_eq_nil_iff] at h1
    exact String.ext h1
  · intro h
    subst h
    rfl

/-- C21, as amended (fake-breast flag): `isFakeBoobs` returns false exactly when
the source value is absent, is the empty string, or is `natural` in any letter
case (its lower-cased form is `natural`), and true for every other string; and
the flag sent to the destination is `isFakeBoobs` of the performer's `fake_tits`. -/
theorem isFakeBoobs_false_iff [UnicodeCase] (v : Option String) (perf : StashPerformer) :
    (isFakeBoobs v = false ↔
      v = none ∨ v = some "" ∨ ∃ s, v = some s ∧ toLower s = "natural") ∧
    (isFakeBoobs v = true ↔ ∃ s, v = some s ∧ s ≠ "" ∧ toLower s ≠ "natural") ∧
    (ImportPerformers.request perf).FakeBoobs = isFakeBoobs perf.FakeTits := by
  refine ⟨?_, ?_, rfl⟩
  · cases v with
    | none => simp [isFakeBoobs]
    | some s =>
      simp only [isFakeBoobs, Bool.and_eq_false_imp, decide_eq_true_eq, decide_eq_false_iff_not,
        not_not, reduceCtorEq, Option.some.injEq, false_or, exists_eq_left']
      rw [Ne, toLower_eq_empty]
      constructor
      · intro h
        by_cases h0 : s = ""
        · exact Or.inl h0
        · exact Or.inr (h h0)
      · rintro (h | h) h0
        · exact absurd h h0
        · exact h
  · cases v with
    | none => simp [isFakeBoobs]
    | some s =>
      simp only [isFakeBoobs, Bool.and_eq_true, decide_eq_true_eq, Option.some.injEq,
        exists_eq_left']
      rw [Ne, toLower_eq_empty]

/-- C21 as stated fails: `Natural` and `NATURAL` are strings other than the empty
string and `natural`, and the flag is false for them. -/
theorem isFakeBoobs_case_counterexample :
    isFakeBoobs (some "Natural") = false ∧ isFakeBoobs (some "NATURAL") = false ∧
    "Natural" ≠ "natural" ∧ "Natural" ≠ "" ∧
    isFakeBoobs (some "natural") = false ∧ isFakeBoobs (some "") = false ∧
    isFakeBoobs none = false ∧ isFakeBoobs (some "Augmented") = true := by
  decide

theorem importMarkers_tagIDs_eq (imp : Importer) (marker : StashMarker) :
    ImportMarkers.tagIDs imp marker =
      mapIDs imp.idMap.Tags (marker.PrimaryTag.toList ++ marker.Tags) := by
  unfold ImportMarkers.tagIDs mapIDs
  cases hp : marker.PrimaryTag with
  | none => simp
  | some t =>
    cases hg : imp.idMap.Tags.get t.ID with
    | none => simp [hg]
    | some g => simp [hg]

theorem mem_mapIDs (m : GoMap) (refs : List StashIDRef) (g : Nat) :
    g ∈ mapIDs m refs ↔ ∃ t ∈ refs, m.get t.ID = some g := by
  simp [mapIDs, List.mem_filterMap]

/-- C22, as amended (marker tags): after a successful marker creation in a
non-simulation run, the id list is the primary tag (if present) followed by the
additional tags, each resolved through `idMap.Tags`, unmapped ones dropped and
nothing merged (an id occurs once per mapped reference resolving to it); a
destination id is in the list iff it is `idMap.Tags[t]` for some mapped `t` among
primary and additional tags; and after the import-marker call exactly one
`SetMarkerTags` call, carrying that list, is made when the list is non-empty and
no call when it is empty. -/
theorem marker_tags_pushed (svc : Service) (ghSceneID : Nat) (imp : Importer)
    (stats : PhaseStats) (marker : StashMarker) (id : Nat) (gh1 : GoonHubClient)
    (hdry : imp.cfg.DryRun = false) (hm : imp.idMap.Markers.get marker.ID = none)
    (hc : ImportMarker svc imp.gh
      { SceneID := ghSceneID, UserID := imp.cfg.MarkerUserID
        Timestamp := truncToInt marker.Seconds, Label := marker.Title, Color := "#FFFFFF" }
      = (.ok id, gh1)) :
    ImportMarkers.tagIDs imp marker =
      mapIDs imp.idMap.Tags (marker.PrimaryTag.toList ++ marker.Tags) ∧
    (∀ g, g ∈ ImportMarkers.tagIDs imp marker ↔
      ∃ t ∈ marker.PrimaryTag.toList ++ marker.Tags, imp.idMap.Tags.get t.ID = some g) ∧
    gh1.calls = imp.gh.calls ++
      [.importMarker
        { SceneID := ghSceneID, UserID := imp.cfg.MarkerUserID
          Timestamp := truncToInt marker.Seconds, Label := marker.Title, Color := "#FFFFFF" }] ∧
    (ImportMarkers.markerStep svc ghSceneID imp stats marker).1.gh.calls =
      gh1.calls ++
        (if ImportMarkers.tagIDs imp marker = [] then []
          else [.setMarkerTags id (ImportMarkers.tagIDs imp marker)]) := by
  refine ⟨importMarkers_tagIDs_eq imp marker, ?_, ?_, ?_⟩
  · intro g
    rw [importMarkers_tagIDs_eq, mem_mapIDs]
  · have h := clientCall_calls svc imp.gh
      (.importMarker
        { SceneID := ghSceneID, UserID := imp.cfg.MarkerUserID
          Timestamp := truncToInt marker.Seconds, Label := marker.Title, Color := "#FFFFFF" })
      true
    unfold ImportMarker at hc
    rw [hc] at h
    exact h
  · have htag : ImportMarkers.tagIDs
        { imp with
          gh := gh1
          idMap := { imp.idMap with Markers := imp.idMap.Markers.set marker.ID id } } marker =
        ImportMarkers.tagIDs imp marker := rfl
    simp only [ImportMarkers.markerStep, hm, hdry, hc, Bool.false_eq_true, if_false, htag]
    by_cases he : ImportMarkers.tagIDs imp marker = []
    · simp [he]
    · have hpos : (ImportMarkers.tagIDs imp marker).length > 0 :=
        List.length_pos.mpr he
      simp only [hpos, if_true, he, if_false]
      simp only [SetMarkerTags, clientCall_calls]

/-- A marker with a mapped primary tag and an unmapped additional tag: one
`SetMarkerTags` call with the single mapped id. -/
theorem marker_tags_pushed_witness :
    (({ sampleImporter false with idMap := { NewIDMap with Tags := [("t1", 7)] } } :
        Importer).cfg.DryRun = false ∧
      (ImportMarker serviceAccepts ⟨[], []⟩
        { SceneID := 5, UserID := 1, Timestamp := 12, Label := "intro", Color := "#FFFFFF" }).1
        = .ok 10) ∧
    (ImportMarkers.markerStep serviceAccepts 5
      { sampleImporter false with idMap := { NewIDMap with Tags := [("t1", 7)] } } ⟨0, 0, 0⟩
      { sampleMarker "m1" "intro" with
        PrimaryTag := some ⟨"t1"⟩, Tags := [⟨"t2"⟩] }).1.gh.calls =
      (ImportMarker serviceAccepts ⟨[], []⟩
        { SceneID := 5, UserID := 1, Timestamp := 12, Label := "intro", Color := "#FFFFFF" }).2.calls
        ++ [.setMarkerTags 10 [7]] := by
  have h := (marker_tags_pushed serviceAccepts 5
    { sampleImporter false with idMap := { NewIDMap with Tags := [("t1", 7)] } } ⟨0, 0, 0⟩
    { sampleMarker "m1" "intro" with PrimaryTag := some ⟨"t1"⟩, Tags := [⟨"t2"⟩] } 10
    (ImportMarker serviceAccepts ⟨[], []⟩
      { SceneID := 5, UserID := 1, Timestamp := 12, Label := "intro", Color := "#FFFFFF" }).2
    rfl rfl (by decide)).2.2.2
  exact ⟨⟨rfl, by decide⟩, h⟩

/-- C22 as stated fails: when the primary tag is also among the additional tags,
or two tags are mapped to the same destination id, the id is passed twice. -/
theorem marker_tags_repeated :
    ImportMarkers.tagIDs
      { sampleImporter false with idMap := { NewIDMap with Tags := [("t1", 7)] } }
      { sampleMarker "m1" "intro" with PrimaryTag := some ⟨"t1"⟩, Tags := [⟨"t1"⟩] } = [7, 7] ∧
    ImportMarkers.tagIDs
      { sampleImporter false with idMap := { NewIDMap with Tags := [("t1", 7), ("t2", 7)] } }
      { sampleMarker "m1" "intro" with PrimaryTag := some ⟨"t1"⟩, Tags := [⟨"t2"⟩] } = [7, 7] ∧
    (ImportMarkers serviceAccepts
      { sampleImporter false with
        idMap := { NewIDMap with Tags := [("t1", 7)], Scenes := [("s1", 5)] } }
      [sampleScene "s1" [sampleFile]
        [{ sampleMarker "m1" "intro" with
            PrimaryTag := some ⟨"t1"⟩, Tags := [⟨"t1"⟩] }]]).1.gh.calls =
      [.importMarker
          { SceneID := 5, UserID := 1, Timestamp := 12, Label := "intro", Color := "#FFFFFF" },
        .setMarkerTags 10 [7, 7]] := by
  decide

theorem importScenes_step_dry (svc : Service) (imp : Importer) (stats : PhaseStats)
    (scene : StashScene) (h : imp.cfg.DryRun = true) :
    (ImportScenes.step svc imp stats scene).1 = imp := by
  unfold ImportScenes.step
  split
  · rfl
  · split
    · rfl
    · split
      · rfl
      · rw [if_pos h]

theorem importScenes_dry (svc : Service) (imp : Importer) (l : List StashScene)
    (h : imp.cfg.DryRun = true) : (ImportScenes svc imp l).1 = imp := by
  have key : ∀ (l : List StashScene) (st : Importer × PhaseStats), st.1.cfg.DryRun = true →
      (l.foldl (fun st scene => ImportScenes.step svc st.1 st.2 scene) st).1 = st.1 := by
    intro l
    induction l with
    | nil => intro st _; rfl
    | cons x xs ih =>
      intro st hst
      have hx := importScenes_step_dry svc st.1 st.2 x hst
      rw [List.foldl_cons, ih _ (by rw [hx]; exact hst), hx]
  exact key l (imp, ⟨0, 0, 0⟩) h

theorem importTags_step_scenes [UnicodeCase] (svc : Service) (imp : Importer) (stats : PhaseStats)
    (tag : StashTag) : (ImportTags.step svc imp stats tag).1.idMap.Scenes = imp.idMap.Scenes := by
  unfold ImportTags.step
  repeat' split
  all_goals rfl

theorem importStudios_step_scenes [UnicodeCase] (svc : Service) (imp : Importer) (stats : PhaseStats)
    (studio : StashStudio) :
    (ImportStudios.step svc imp stats studio).1.idMap.Scenes = imp.idMap.Scenes := by
  unfold ImportStudios.step
  repeat' split
  all_goals rfl

theorem importPerformers_step_scenes [UnicodeCase] (svc : Service) (imp : Importer) (stats : PhaseStats)
    (perf : StashPerformer) :
    (ImportPerformers.step svc imp stats perf).1.idMap.Scenes = imp.idMap.Scenes := by
  unfold ImportPerformers.step
  repeat' split
  all_goals rfl

theorem importStudios_scenes [UnicodeCase] (svc : Service) (imp : Importer) (l : List StashStudio) :
    (ImportStudios svc imp l).1.idMap.Scenes = imp.idMap.Scenes := by
  have h1 : (ImportStudios.pass1 svc imp l).1.idMap.Scenes = imp.idMap.Scenes :=
    foldl_frame (fun i => i.idMap.Scenes) _ (importStudios_step_scenes svc) l _
  have h2 := importStudios_pass2_idMap svc (ImportStudios.pass1 svc imp l).1 l
  show (ImportStudios.pass2 svc (ImportStudios.pass1 svc imp l).1 l).1.idMap.Scenes = _
  rw [h2, h1]

theorem importMarkers_snoc (svc : Service) (imp : Importer) (pre : List StashScene)
    (scene : StashScene) :
    ImportMarkers svc imp (pre ++ [scene]) =
      ImportMarkers.step svc (ImportMarkers svc imp pre).1 (ImportMarkers svc imp pre).2 scene := by
  simp [ImportMarkers, List.foldl_append]

theorem importMarkers_step_unmapped (svc : Service) (imp : Importer) (stats : PhaseStats)
    (scene : StashScene) (h : imp.idMap.Scenes.get scene.ID = none) :
    ImportMarkers.step svc imp stats scene =
      (imp, { stats with Skipped := stats.Skipped + scene.SceneMarkers.length }) := by
  simp [ImportMarkers.step, h]

theorem importMarkers_all_unmapped (svc : Service) (imp : Importer) (l : List StashScene)
    (h : ∀ sc ∈ l, imp.idMap.Scenes.get sc.ID = none) :
    ImportMarkers svc imp l = (imp, ⟨0, (l.map (fun sc => sc.SceneMarkers.length)).sum, 0⟩) := by
  have := foldl_all_skipped (ImportMarkers.step svc)
    (fun i sc => i.idMap.Scenes.get sc.ID = none) (fun sc => sc.SceneMarkers.length)
    (fun i s x hx => importMarkers_step_unmapped svc i s x hx) l (imp, ⟨0, 0, 0⟩) h
  simpa [ImportMarkers] using this

/-- C23 (simulation preview of markers): with `cfg.DryRun` set, `ImportScenes`
leaves the engine state, and so `idMap.Scenes`, as it was; hence in
`ImportMarkers` run after it, a scene that was not in `idMap.Scenes` before the
run has its markers added to `Skipped` and nothing else changes; and when no
scene of the inventory was in `idMap.Scenes` (in particular from an empty map),
the Markers phase, alone or in the whole simulated run, reports `Created = 0`,
`Errors = 0` and `Skipped` equal to the total number of markers. -/
theorem dryRun_markers_skipped [UnicodeCase] (svc : Service) (fault : WriteFault) (imp : Importer)
    (file : MapFile) (inv : Inventory) (hdry : imp.cfg.DryRun = true) :
    (ImportScenes svc imp inv.stashScenes).1 = imp ∧
    (∀ (pre post : List StashScene) (scene : StashScene),
      imp.idMap.Scenes.get scene.ID = none →
      (ImportMarkers svc (ImportScenes svc imp (pre ++ scene :: post)).1 (pre ++ [scene])).1 =
        (ImportMarkers svc (ImportScenes svc imp (pre ++ scene :: post)).1 pre).1 ∧
      (ImportMarkers svc (ImportScenes svc imp (pre ++ scene :: post)).1 (pre ++ [scene])).2 =
        { (ImportMarkers svc (ImportScenes svc imp (pre ++ scene :: post)).1 pre).2 with
          Skipped :=
            (ImportMarkers svc (ImportScenes svc imp (pre ++ scene :: post)).1 pre).2.Skipped +
              scene.SceneMarkers.length }) ∧
    ((∀ sc ∈ inv.stashScenes, imp.idMap.Scenes.get sc.ID = none) →
      (ImportMarkers svc (ImportScenes svc imp inv.stashScenes).1 inv.stashScenes).2 =
        ⟨0, (inv.stashScenes.map (fun sc => sc.SceneMarkers.length)).sum, 0⟩ ∧
      (runPhases svc fault imp file inv).markerStats =
        ⟨0, (inv.stashScenes.map (fun sc => sc.SceneMarkers.length)).sum, 0⟩) ∧
    (imp.idMap.Scenes = [] →
      (runPhases svc fault imp file inv).markerStats =
        ⟨0, (inv.stashScenes.map (fun sc => sc.SceneMarkers.length)).sum, 0⟩) := by
  have hrun : (∀ sc ∈ inv.stashScenes, imp.idMap.Scenes.get sc.ID = none) →
      (runPhases svc fault imp file inv).markerStats =
        ⟨0, (inv.stashScenes.map (fun sc => sc.SceneMarkers.length)).sum, 0⟩ := by
    intro hall
    have aT := importTags_advances svc imp inv.stashTags
    have aS := importStudios_advances svc (ImportTags svc imp inv.stashTags).1 inv.stashStudios
    have aA := importPerformers_advances svc
      (ImportStudios svc (ImportTags svc imp inv.stashTags).1 inv.stashStudios).1
      inv.stashPerformers
    have hd : (ImportPerformers svc
        (ImportStudios svc (ImportTags svc imp inv.stashTags).1 inv.stashStudios).1
        inv.stashPerformers).1.cfg.DryRun = true := by
      rw [aA.cfg, aS.cfg, aT.cfg]; exact hdry
    have hsc : (ImportPerformers svc
        (ImportStudios svc (ImportTags svc imp inv.stashTags).1 inv.stashStudios).1
        inv.stashPerformers).1.idMap.Scenes = imp.idMap.Scenes := by
      have h1 : (ImportTags svc imp inv.stashTags).1.idMap.Scenes = imp.idMap.Scenes :=
        foldl_frame (fun i => i.idMap.Scenes) _ (importTags_step_scenes svc) _ _
      have h2 := importStudios_scenes svc (ImportTags svc imp inv.stashTags).1 inv.stashStudios
      have h3 : (ImportPerformers svc
          (ImportStudios svc (ImportTags svc imp inv.stashTags).1 inv.stashStudios).1
          inv.stashPerformers).1.idMap.Scenes =
          (ImportStudios svc (ImportTags svc imp inv.stashTags).1
            inv.stashStudios).1.idMap.Scenes :=
        foldl_frame (fun i => i.idMap.Scenes) _ (importPerformers_step_scenes svc) _ _
      rw [h3, h2, h1]
    simp only [runPhases]
    rw [importScenes_dry svc _ inv.stashScenes hd,
      importMarkers_all_unmapped svc _ inv.stashScenes (by rw [hsc]; exact hall)]
  refine ⟨importScenes_dry svc imp _ hdry, ?_, ?_, ?_⟩
  · intro pre post scene hs
    rw [importScenes_dry svc imp _ hdry, importMarkers_snoc,
      importMarkers_step_unmapped svc _ _ scene (by rw [importMarkers_scenes]; exact hs)]
    exact ⟨rfl, rfl⟩
  · intro hall
    refine ⟨?_, hrun hall⟩
    rw [importScenes_dry svc imp _ hdry, importMarkers_all_unmapped svc imp _ hall]
  · intro hempty
    exact hrun (fun sc _ => by rw [hempty]; rfl)

/-- From an empty map, the simulated run reports the marker of the sample scene
as `Skipped`, while the real run creates it. -/
theorem dryRun_markers_skipped_witness :
    ((sampleImporter true).cfg.DryRun = true ∧ (sampleImporter true).idMap.Scenes = []) ∧
    (runPhases serviceAccepts noFault (sampleImporter true) .absent sampleInventory).markerStats
      = ⟨0, 1, 0⟩ ∧
    (runPhases serviceAccepts noFault (sampleImporter false) .absent sampleInventory).markerStats
      = ⟨1, 0, 0⟩ :=
  ⟨⟨rfl, rfl⟩,
    (dryRun_markers_skipped serviceAccepts noFault (sampleImporter true) .absent sampleInventory
      rfl).2.2.2 rfl,
    by decide⟩

theorem importStudios_parentStep_calls (svc : Service) (imp : Importer) (n : Nat)
    (studio : StashStudio) (hdry : imp.cfg.DryRun = false) :
    (ImportStudios.parentStep svc imp n studio).1.gh.calls =
      imp.gh.calls ++ (ImportStudios.parentCall imp.idMap.Studios studio).toList := by
  cases hp : studio.ParentStudio with
  | none => simp [ImportStudios.parentStep, ImportStudios.parentCall, hp]
  | some parent =>
    cases hb : imp.idMap.Studios.get studio.ID with
    | none => simp [ImportStudios.parentStep, ImportStudios.parentCall, hp, hb]
    | some b =>
      cases ha : imp.idMap.Studios.get parent.ID with
      | none => simp [ImportStudios.parentStep, ImportStudios.parentCall, hp, hb, ha]
      | some a =>
        rw [importStudios_parentStep_linked svc imp n studio parent b a hdry hp hb ha]
        simp [ImportStudios.parentCall, hp, hb, ha]

theorem importStudios_pass2_calls (svc : Service) (imp : Importer) (l : List StashStudio)
    (hdry : imp.cfg.DryRun = false) :
    (ImportStudios.pass2 svc imp l).1.gh.calls =
      imp.gh.calls ++ l.filterMap (ImportStudios.parentCall imp.idMap.Studios) := by
  induction l using List.reverseRecOn with
  | nil => simp [ImportStudios.pass2]
  | append_singleton xs x ih =>
    have adv := importStudios_pass2_advances svc imp xs
    rw [importStudios_pass2_snoc, importStudios_parentStep_calls svc _ _ x
      (by rw [adv.cfg]; exact hdry), ih, importStudios_pass2_idMap, List.filterMap_append]
    cases hx : ImportStudios.parentCall imp.idMap.Studios x <;> simp [hx]

theorem importStudios_step_mapped [UnicodeCase] (svc : Service) (imp : Importer) (stats : PhaseStats)
    (studio : StashStudio) (b : Nat) (h : imp.idMap.Studios.get studio.ID = some b) :
    ImportStudios.step svc imp stats studio = (imp, stats.incSkipped) := by
  simp [ImportStudios.step, h]

theorem importStudios_parentStep_wire_linked (svc : Service) (imp : Importer) (n : Nat)
    (studio : StashStudio) (parent : StashIDRef) (b a : Nat)
    (hdry : imp.cfg.DryRun = false) (hp : studio.ParentStudio = some parent)
    (hb : imp.idMap.Studios.get studio.ID = some b)
    (ha : imp.idMap.Studios.get parent.ID = some a) :
    (ImportStudios.parentStep svc imp n studio).1.gh.wire =
      (clientCall svc imp.gh (.updateStudio b { ParentID := some a }) false).2.wire := by
  unfold ImportStudios.parentStep
  simp only [hp, hb, ha, hdry, Bool.false_eq_true, ↓reduceIte]
  unfold UpdateStudio
  split
  · next heq => rw [heq]
  · next heq => rw [heq]

theorem importStudios_parentStep_wire (svc : Service) (imp : Importer) (n : Nat)
    (studio : StashStudio) (hdry : imp.cfg.DryRun = false) :
    ∃ t, (ImportStudios.parentStep svc imp n studio).1.gh.wire = imp.gh.wire ++ t ∧
      (∀ q, ((ImportStudios.parentCall imp.idMap.Studios studio).toList.count q ≤ t.count q ∧
        t.count q ≤ 2 * (ImportStudios.parentCall imp.idMap.Studios studio).toList.count q)) ∧
      (svc.NoServerError → t = (ImportStudios.parentCall imp.idMap.Studios studio).toList) := by
  cases hp : studio.ParentStudio with
  | none =>
    exact ⟨[], by simp [ImportStudios.parentStep, hp], by
      simp [ImportStudios.parentCall, hp], by simp [ImportStudios.parentCall, hp]⟩
  | some parent =>
    cases hb : imp.idMap.Studios.get studio.ID with
    | none =>
      exact ⟨[], by simp [ImportStudios.parentStep, hp, hb], by
        simp [ImportStudios.parentCall, hp, hb], by simp [ImportStudios.parentCall, hp, hb]⟩
    | some b =>
      cases ha : imp.idMap.Studios.get parent.ID with
      | none =>
        exact ⟨[], by simp [ImportStudios.parentStep, hp, hb, ha], by
          simp [ImportStudios.parentCall, hp, hb, ha], by
          simp [ImportStudios.parentCall, hp, hb, ha]⟩
      | some a =>
        have hL : (ImportStudios.parentCall imp.idMap.Studios studio).toList =
            [.updateStudio b { ParentID := some a }] := by
          simp [ImportStudios.parentCall, hp, hb, ha]
        rw [importStudios_parentStep_wire_linked svc imp n studio parent b a hdry hp hb ha, hL]
        rcases clientCall_wire_cases svc imp.gh (.updateStudio b { ParentID := some a }) false
          with h | h
        · refine ⟨_, h, fun q => ⟨Nat.le_refl _, by omega⟩, fun _ => rfl⟩
        · refine ⟨_, h, fun q => ?_, fun hns => ?_⟩
          · simp only [List.count_cons, List.count_nil]
            constructor <;> omega
          · have h1 := clientCall_wire_once svc imp.gh (.updateStudio b { ParentID := some a })
              false (fun s body hs => hns _ _ s body hs)
            rw [h1] at h
            have := List.append_cancel_left h
            simp at this

theorem importStudios_pass2_wire (svc : Service) (imp : Importer) (l : List StashStudio)
    (hdry : imp.cfg.DryRun = false) :
    ∃ t, (ImportStudios.pass2 svc imp l).1.gh.wire = imp.gh.wire ++ t ∧
      (∀ q, ((l.filterMap (ImportStudios.parentCall imp.idMap.Studios)).count q ≤ t.count q ∧
        t.count q ≤ 2 * (l.filterMap (ImportStudios.parentCall imp.idMap.Studios)).count q)) ∧
      (svc.NoServerError → t = l.filterMap (ImportStudios.parentCall imp.idMap.Studios)) := by
  induction l using List.reverseRecOn with
  | nil => exact ⟨[], by simp [ImportStudios.pass2], by simp, by simp⟩
  | append_singleton xs x ih =>
    obtain ⟨t1, hw1, hc1, hn1⟩ := ih
    have adv := importStudios_pass2_advances svc imp xs
    obtain ⟨t2, hw2, hc2, hn2⟩ := importStudios_parentStep_wire svc
      (ImportStudios.pass2 svc imp xs).1 (ImportStudios.pass2 svc imp xs).2 x
      (by rw [adv.cfg]; exact hdry)
    rw [importStudios_pass2_idMap] at hc2 hn2
    have hfm : (xs ++ [x]).filterMap (ImportStudios.parentCall imp.idMap.Studios) =
        xs.filterMap (ImportStudios.parentCall imp.idMap.Studios) ++
          (ImportStudios.parentCall imp.idMap.Studios x).toList := by
      rw [List.filterMap_append]
      cases hx : ImportStudios.parentCall imp.idMap.Studios x <;> simp [hx]
    refine ⟨t1 ++ t2, ?_, ?_, ?_⟩
    · rw [importStudios_pass2_snoc, hw2, hw1, List.append_assoc]
    · intro q
      rw [hfm, List.count_append, List.count_append]
      have := hc1 q
      have := hc2 q
      constructor <;> omega
    · intro hns
      rw [hfm, hn1 hns, hn2 hns]

/-- C24 (parent links are re-issued): in a non-simulation run over
`pre ++ B :: post`, if `B` has a parent reference `A` and `idMap.Studios` holds
`b` for `B.ID` and `a` for `A.ID` when `ImportStudios` starts, then the first pass
counts `B` as `Skipped` and leaves the state untouched, and the second pass still
makes the call `UpdateStudio(b, ParentID = a)` when it processes `B`, which sends
that request to the destination once, or twice when the first answer is a server
error.  Over an inventory whose studios are all mapped at the start the phase
reports no `Created` and no `Errors`, all `Skipped`, while the calls it makes are,
in inventory order, one such update per studio with a mapped parent; the HTTP
attempts it adds carry each such update at least once and at most twice per
studio and nothing else, and exactly once, in inventory order, when the
destination answers no attempt with a status of 500 or more. -/
theorem parent_links_reissued [UnicodeCase] (svc : Service) (imp : Importer)
    (hdry : imp.cfg.DryRun = false) :
    (∀ (pre post : List StashStudio) (B : StashStudio) (A : StashIDRef) (b a : Nat),
      B.ParentStudio = some A → imp.idMap.Studios.get B.ID = some b →
      imp.idMap.Studios.get A.ID = some a →
      ImportStudios.pass1 svc imp (pre ++ [B]) =
        ((ImportStudios.pass1 svc imp pre).1, (ImportStudios.pass1 svc imp pre).2.incSkipped) ∧
      (ImportStudios.pass2 svc (ImportStudios.pass1 svc imp (pre ++ B :: post)).1
          (pre ++ [B])).1.gh.calls =
        (ImportStudios.pass2 svc (ImportStudios.pass1 svc imp (pre ++ B :: post)).1
          pre).1.gh.calls ++ [.updateStudio b { ParentID := some a }] ∧
      ((ImportStudios.pass2 svc (ImportStudios.pass1 svc imp (pre ++ B :: post)).1
          (pre ++ [B])).1.gh.wire =
        (ImportStudios.pass2 svc (ImportStudios.pass1 svc imp (pre ++ B :: post)).1
          pre).1.gh.wire ++ [.updateStudio b { ParentID := some a }] ∨
        (ImportStudios.pass2 svc (ImportStudios.pass1 svc imp (pre ++ B :: post)).1
          (pre ++ [B])).1.gh.wire =
        (ImportStudios.pass2 svc (ImportStudios.pass1 svc imp (pre ++ B :: post)).1
          pre).1.gh.wire ++
          [.updateStudio b { ParentID := some a }, .updateStudio b { ParentID := some a }]) ∧
      ImportStudios.parentCall imp.idMap.Studios B =
        some (.updateStudio b { ParentID := some a })) ∧
    (∀ stashStudios : List StashStudio,
      (∀ s ∈ stashStudios, (imp.idMap.Studios.get s.ID).isSome = true) →
      (ImportStudios svc imp stashStudios).2 = ⟨0, stashStudios.length, 0⟩ ∧
      (ImportStudios svc imp stashStudios).1.idMap = imp.idMap ∧
      (ImportStudios svc imp stashStudios).1.gh.calls =
        imp.gh.calls ++ stashStudios.filterMap (ImportStudios.parentCall imp.idMap.Studios) ∧
      ∃ t, (ImportStudios svc imp stashStudios).1.gh.wire = imp.gh.wire ++ t ∧
        (∀ q,
          (stashStudios.filterMap (ImportStudios.parentCall imp.idMap.Studios)).count q
            ≤ t.count q ∧
          t.count q ≤
            2 * (stashStudios.filterMap (ImportStudios.parentCall imp.idMap.Studios)).count q) ∧
        (svc.NoServerError →
          t = stashStudios.filterMap (ImportStudios.parentCall imp.idMap.Studios))) := by
  constructor
  · intro pre post B A b a hp hb ha
    have a0 := importStudios_pass1_advances svc imp pre
    have a1 := importStudios_pass1_advances svc imp (pre ++ B :: post)
    have a2 := importStudios_pass2_advances svc
      (ImportStudios.pass1 svc imp (pre ++ B :: post)).1 pre
    have hid := importStudios_pass2_idMap svc
      (ImportStudios.pass1 svc imp (pre ++ B :: post)).1 pre
    have hd2 : (ImportStudios.pass2 svc (ImportStudios.pass1 svc imp (pre ++ B :: post)).1
        pre).1.cfg.DryRun = false := by rw [a2.cfg, a1.cfg]; exact hdry
    have hb2 : (ImportStudios.pass2 svc (ImportStudios.pass1 svc imp (pre ++ B :: post)).1
        pre).1.idMap.Studios.get B.ID = some b := by
      rw [hid]; exact a1.idMap.Studios _ _ hb
    have ha2 : (ImportStudios.pass2 svc (ImportStudios.pass1 svc imp (pre ++ B :: post)).1
        pre).1.idMap.Studios.get A.ID = some a := by
      rw [hid]; exact a1.idMap.Studios _ _ ha
    refine ⟨?_, ?_, ?_, ?_⟩
    · rw [importStudios_pass1_snoc]
      exact importStudios_step_mapped svc _ _ B b (a0.idMap.Studios _ _ hb)
    · rw [importStudios_pass2_snoc]
      exact importStudios_parentStep_linked svc _ _ B A b a hd2 hp hb2 ha2
    · rw [importStudios_pass2_snoc,
        importStudios_parentStep_wire_linked svc _ _ B A b a hd2 hp hb2 ha2]
      exact clientCall_wire_cases svc _ _ false
    · simp [ImportStudios.parentCall, hp, hb, ha]
  · intro stashStudios hall
    have h1 := importStudios_pass1_all_mapped svc imp stashStudios hall
    refine ⟨?_, ?_, ?_, ?_⟩
    · simp [ImportStudios, h1]
    · simp only [ImportStudios, h1]
      exact importStudios_pass2_idMap svc imp stashStudios
    · simp only [ImportStudios, h1]
      exact importStudios_pass2_calls svc imp stashStudios hdry
    · simp only [ImportStudios, h1]
      exact importStudios_pass2_wire svc imp stashStudios hdry

/-- Studios A and B (child of A) already mapped to 10 and 11: the phase reports
two `Skipped`, nothing created, and still makes one update call for B, sent to
the destination in one HTTP attempt; against a destination that answers 500 it is
sent twice. -/
theorem parent_links_reissued_witness :
    (({ sampleImporter false with
        idMap := { NewIDMap with Studios := [("1", 10), ("2", 11)] } } : Importer).cfg.DryRun
        = false ∧
      (sampleStudio "2" "Studio B" (some ⟨"1"⟩)).ParentStudio = some ⟨"1"⟩ ∧
      serviceAccepts.NoServerError) ∧
    (ImportStudios serviceAccepts
      { sampleImporter false with idMap := { NewIDMap with Studios := [("1", 10), ("2", 11)] } }
      [sampleStudio "1" "Studio A" none, sampleStudio "2" "Studio B" (some ⟨"1"⟩)]).2
        = ⟨0, 2, 0⟩ ∧
    (ImportStudios serviceAccepts
      { sampleImporter false with idMap := { NewIDMap with Studios := [("1", 10), ("2", 11)] } }
      [sampleStudio "1" "Studio A" none, sampleStudio "2" "Studio B" (some ⟨"1"⟩)]).1.gh.calls
        = [.updateStudio 11 { ParentID := some 10 }] ∧
    (ImportStudios serviceAccepts
      { sampleImporter false with idMap := { NewIDMap with Studios := [("1", 10), ("2", 11)] } }
      [sampleStudio "1" "Studio A" none, sampleStudio "2" "Studio B" (some ⟨"1"⟩)]).1.gh.wire
        = [.updateStudio 11 { ParentID := some 10 }] ∧
    (ImportStudios serviceDown
      { sampleImporter false with idMap := { NewIDMap with Studios := [("1", 10), ("2", 11)] } }
      [sampleStudio "1" "Studio A" none, sampleStudio "2" "Studio B" (some ⟨"1"⟩)]).1.gh.wire
        = [.updateStudio 11 { ParentID := some 10 }, .updateStudio 11 { ParentID := some 10 }] := by
  have hns : serviceAccepts.NoServerError := by
    intro history r statusCode body h
    simp only [serviceAccepts, HttpOutcome.response.injEq] at h
    omega
  have h := (parent_links_reissued serviceAccepts
    { sampleImporter false with idMap := { NewIDMap with Studios := [("1", 10), ("2", 11)] } }
    rfl).2 [sampleStudio "1" "Studio A" none, sampleStudio "2" "Studio B" (some ⟨"1"⟩)]
    (by decide)
  obtain ⟨h1, -, h3, t, ht, -, hex⟩ := h
  have hcalls : ([sampleStudio "1" "Studio A" none,
      sampleStudio "2" "Studio B" (some ⟨"1"⟩)].filterMap
        (ImportStudios.parentCall ({ sampleImporter false with
          idMap := { NewIDMap with Studios := [("1", 10), ("2", 11)] } } : Importer).idMap.Studios))
      = [.updateStudio 11 { ParentID := some 10 }] := by decide
  rw [hex hns, hcalls] at ht
  rw [hcalls] at h3
  exact ⟨⟨rfl, rfl, hns⟩, h1, h3, ht, by decide⟩

end Goonhub
